import Mathlib

/-!
# ossimMapProjection: the map-projection base class

A shallow embedding of `src/projection/ossimMapProjection.cpp`.

* A C++ `double` is a value of `Dbl K`: either a finite number of an ordered field `K`
  (exact arithmetic, no rounding) or the single non-finite value `nan`.  Every operation
  sends `nan` to `nan`, and a division by zero gives `nan`.
* The object state is the structure `ossimMapProjection`; every member function becomes a
  function from the old state to the new one.
* The virtual methods of the concrete projection (`forward`, `inverse`, `isGeographic`) and the
  services declared in other translation units (math library, datum shift, unit conversion,
  elevation, EPSG registry) are the fields of `Services`.
-/

namespace Ossim

/-! ## Numbers -/

/-- A double precision value in exact arithmetic: `fin x` is the finite number `x`,
`nan` is the not-a-number sentinel that the source uses for "unset". -/
inductive Dbl (K : Type) where
  | nan : Dbl K
  | fin (x : K) : Dbl K
  deriving DecidableEq, Repr

namespace Dbl

variable {K : Type}

/-- The test `ossim::isnan`. -/
def isnan : Dbl K → Bool
  | nan => true
  | fin _ => false

/-- Lifting of a unary library function: `nan` in, `nan` out. -/
def map (f : K → K) : Dbl K → Dbl K
  | nan => nan
  | fin x => fin (f x)

/-- Addition of doubles. -/
def add [Add K] : Dbl K → Dbl K → Dbl K
  | fin x, fin y => fin (x + y)
  | _, _ => nan

/-- Subtraction of doubles. -/
def sub [Sub K] : Dbl K → Dbl K → Dbl K
  | fin x, fin y => fin (x - y)
  | _, _ => nan

/-- Multiplication of doubles. -/
def mul [Mul K] : Dbl K → Dbl K → Dbl K
  | fin x, fin y => fin (x * y)
  | _, _ => nan

/-- Negation of a double. -/
def neg [Neg K] : Dbl K → Dbl K
  | fin x => fin (-x)
  | nan => nan

/-- Division of doubles; a zero divisor gives a non-finite result. -/
def div [Div K] [Zero K] [DecidableEq K] : Dbl K → Dbl K → Dbl K
  | fin x, fin y => if y = 0 then nan else fin (x / y)
  | _, _ => nan

/-- The comparison `a >= b` of doubles: false as soon as one side is `nan`. -/
def ge [LE K] [DecidableRel (fun a b : K => a ≤ b)] : Dbl K → Dbl K → Bool
  | fin x, fin y => decide (y ≤ x)
  | _, _ => false

/-- The comparison `a > b` of doubles: false as soon as one side is `nan`. -/
def gt [LT K] [DecidableRel (fun a b : K => a < b)] : Dbl K → Dbl K → Bool
  | fin x, fin y => decide (y < x)
  | _, _ => false

instance [Add K] : Add (Dbl K) := ⟨Dbl.add⟩
instance [Sub K] : Sub (Dbl K) := ⟨Dbl.sub⟩
instance [Mul K] : Mul (Dbl K) := ⟨Dbl.mul⟩
instance [Neg K] : Neg (Dbl K) := ⟨Dbl.neg⟩
instance [Div K] [Zero K] [DecidableEq K] : Div (Dbl K) := ⟨Dbl.div⟩

end Dbl

open Dbl (nan fin)

set_option linter.unusedSectionVars false

variable {K : Type} [LinearOrderedField K] {D : Type} [DecidableEq D]

/-- The conversion `static_cast<int>(x)` of a finite double: truncation toward zero,
defined when the truncated value fits a 32 bit `int`. -/
def castInt [FloorRing K] (x : K) : Option ℤ :=
  let t : ℤ := if 0 ≤ x then ⌊x⌋ else ⌈x⌉
  if -2147483648 ≤ t ∧ t ≤ 2147483647 then some t else none

/-- Modelled from the spec: `ossim::round<int>` is declared in `ossimCommon.h`, outside this
file; it is "round-half-away-from-zero", `static_cast<int>(x > 0 ? x + 0.5 : x - 0.5)`.  The
result is given back as a double, as the callers multiply it by one at once.  Where the cast is
undefined (a `nan`, or a value outside the range of `int`) the result is `nan`. -/
def round [FloorRing K] : Dbl K → Dbl K
  | nan => nan
  | fin x =>
    match castInt (if 0 < x then x + 1 / 2 else x - 1 / 2) with
    | some n => fin (n : K)
    | none => nan

/-- The rounding of the spec, in its words "round-half-away-from-zero" to an integer: the
magnitude plus one half, rounded down, with the sign of the argument. -/
def roundHalfAwayFromZero [FloorRing K] (x : K) : ℤ :=
  if 0 ≤ x then ⌊x + 1 / 2⌋ else -⌊-x + 1 / 2⌋

/-- The integer fits the 32 bit `int` of the source. -/
def fitsInt (n : ℤ) : Prop := -2147483648 ≤ n ∧ n ≤ 2147483647

instance (n : ℤ) : Decidable (fitsInt n) := by unfold fitsInt; infer_instance

/-! ## Points, units, ellipsoid -/

/-- The class `ossimDpt`: a pair of doubles.  The members `x`, `samp`, `lon` share storage,
and so do `y`, `line`, `lat`. -/
structure ossimDpt (K : Type) where
  x : Dbl K
  y : Dbl K
  deriving DecidableEq, Repr

namespace ossimDpt

/-- The member `lon` is an alias of `x`. -/
def lon (p : ossimDpt K) : Dbl K := p.x

/-- The member `lat` is an alias of `y`. -/
def lat (p : ossimDpt K) : Dbl K := p.y

/-- The method `ossimDpt::hasNans`. -/
def hasNans (p : ossimDpt K) : Bool := p.x.isnan || p.y.isnan

/-- The value left by `ossimDpt::makeNan`. -/
def makeNan : ossimDpt K := ⟨nan, nan⟩

/-- The difference `a - b` of two points. -/
def sub (a b : ossimDpt K) : ossimDpt K := ⟨a.x - b.x, a.y - b.y⟩

/-- The method `ossimDpt::length`, over the square root `sqrt` of the math library. -/
def length (sqrt : K → K) (p : ossimDpt K) : Dbl K := (p.x * p.x + p.y * p.y).map sqrt

end ossimDpt

/-- The class `ossimGpt`: latitude, longitude (degrees), height, and the datum the point is
expressed in (a pointer, `none` when null). -/
structure ossimGpt (K D : Type) where
  lat : Dbl K
  lon : Dbl K
  hgt : Dbl K
  datum : Option D
  deriving DecidableEq, Repr

namespace ossimGpt

/-- The method `ossimGpt::hasNans`: one of latitude, longitude, height is `nan`. -/
def hasNans (g : ossimGpt K D) : Bool := g.lat.isnan || g.lon.isnan || g.hgt.isnan

/-- The method `ossimGpt::isLatLonNan`: latitude or longitude is `nan`. -/
def isLatLonNan (g : ossimGpt K D) : Bool := g.lat.isnan || g.lon.isnan

/-- The value left by `ossimGpt::makeNan`: the three coordinates become `nan`, the datum
stays. -/
def makeNan (g : ossimGpt K D) : ossimGpt K D := { g with lat := nan, lon := nan, hgt := nan }

end ossimGpt

/-- The enumeration `ossimUnitType`, with the values the source names; every other value of
the enumeration is `OSSIM_OTHER_UNIT` with its number. -/
inductive ossimUnitType where
  | OSSIM_UNIT_UNKNOWN
  | OSSIM_METERS
  | OSSIM_FEET
  | OSSIM_US_SURVEY_FEET
  | OSSIM_DEGREES
  | OSSIM_RADIANS
  | OSSIM_SECONDS
  | OSSIM_MINUTES
  | OSSIM_OTHER_UNIT (n : Nat)
  deriving DecidableEq, Repr

open ossimUnitType

/-- Modelled from the spec: the class `ossimEllipsoid` is declared outside this file; the spec
gives it a semi-major axis `a` and a semi-minor axis `b`. -/
structure ossimEllipsoid (K : Type) where
  theA : Dbl K
  theB : Dbl K
  deriving DecidableEq, Repr

/-! ## The 4x4 transform -/

/-- The class `ossimMatrix4x4`: sixteen doubles, `m i j` being `m[i][j]`. -/
abbrev ossimMatrix4x4 (K : Type) := Fin 4 → Fin 4 → Dbl K

namespace ossimMatrix4x4

/-- The matrix left by `setIdentity`. -/
def identity : ossimMatrix4x4 K := fun i j => if i = j then fin 1 else fin 0

/-- Modelled from the spec: the assignment `m[i][j] = v` after
`auto m = theModelTransform.getData()`.  The declaration of `getData` is outside this file; the
spec has these assignments update the stored transform "in place", so `m` is read as a handle
on the stored matrix and the assignment gives the new stored matrix. -/
def set (m : ossimMatrix4x4 K) (i j : Fin 4) (v : Dbl K) : ossimMatrix4x4 K :=
  fun r c => if r = i ∧ c = j then v else m r c

/-- The matrix all of whose entries are `nan`. -/
def allNan : ossimMatrix4x4 K := fun _ _ => nan

/-- The finite entries of a matrix, `0` standing in for a `nan`. -/
def entries (m : ossimMatrix4x4 K) : Matrix (Fin 4) (Fin 4) K :=
  Matrix.of fun r c => match m r c with
    | fin x => x
    | nan => 0

/-- Every entry is finite. -/
def isFinite (m : ossimMatrix4x4 K) : Bool := decide (∀ r c, (m r c).isnan = false)

/-- Modelled from the spec: `ossimMatrix4x4::i` is declared outside this file; the spec calls it
"the matrix inverse".  Here it is the adjugate divided by the determinant; a matrix with a
`nan` entry or with determinant zero has the all-`nan` matrix as its inverse (the spec: the
engine is left in a "numerically degenerate" state, no exception). -/
def i (m : ossimMatrix4x4 K) : ossimMatrix4x4 K :=
  if m.isFinite ∧ m.entries.det ≠ 0 then
    fun r c => fin ((m.entries.det)⁻¹ * m.entries.adjugate r c)
  else allNan

/-- The matrix product, in double arithmetic. -/
def mul (a b : ossimMatrix4x4 K) : ossimMatrix4x4 K :=
  fun r c => a r 0 * b 0 c + a r 1 * b 1 c + a r 2 * b 2 c + a r 3 * b 3 c

end ossimMatrix4x4

/-! ## The projection state -/

/-- The data members of `ossimMapProjection`.  The datum is a pointer, `none` when null; the
PCS code is an unsigned 32 bit number on which no arithmetic is done. -/
structure ossimMapProjection (K D : Type) where
  theEllipsoid : ossimEllipsoid K
  theOrigin : ossimGpt K D
  theDatum : Option D
  theMetersPerPixel : ossimDpt K
  theDegreesPerPixel : ossimDpt K
  theUlGpt : ossimGpt K D
  theUlEastingNorthing : ossimDpt K
  theFalseEastingNorthing : ossimDpt K
  thePcsCode : Nat
  theElevationLookupFlag : Bool
  theModelTransform : ossimMatrix4x4 K
  theInverseModelTransform : ossimMatrix4x4 K
  theProjectionUnits : ossimUnitType
  theImageToModelAzimuth : Dbl K

/-- What the class takes from outside this file: the virtual methods that a concrete
projection overrides (the projection kernel) and the services of other translation units. -/
structure Services (K D : Type) where
  /-- The function `ossim::cosd`, cosine of an angle in degrees. -/
  cosd : K → K
  /-- The function `ossim::sind`, sine of an angle in degrees. -/
  sind : K → K
  /-- The function `ossim::acosd`, arc cosine in degrees. -/
  acosd : K → K
  /-- The function `sqrt`. -/
  sqrt : K → K
  /-- The virtual method `forward`: geodetic point to model point. -/
  forward : ossimGpt K D → ossimDpt K
  /-- The virtual method `inverse`: model point to geodetic point. -/
  inverse : ossimDpt K → ossimGpt K D
  /-- The virtual method `isGeographic`. -/
  isGeographic : Bool
  /-- The method `ossimGpt::changeDatum`: the point expressed in another datum. -/
  changeDatum : ossimGpt K D → Option D → ossimGpt K D
  /-- The method `ossimDatum::ellipsoid`, a pointer that may be null. -/
  datumEllipsoid : D → Option (ossimEllipsoid K)
  /-- The class `ossimUnitConversionTool` with its default origin: `setValue(v, from)` then
  `getValue(to)`. -/
  unitConvert : Dbl K → ossimUnitType → ossimUnitType → Dbl K
  /-- The class `ossimUnitConversionTool` after `setOrigin(origin)`. -/
  unitConvertAt : ossimGpt K D → Dbl K → ossimUnitType → ossimUnitType → Dbl K
  /-- The value of `ossimGpt().metersPerDegree()`. -/
  metersPerDegree : ossimDpt K
  /-- The elevation manager: `getHeightAboveEllipsoid`. -/
  getHeightAboveEllipsoid : ossimGpt K D → Dbl K
  /-- The EPSG database: `findProjectionCode`. -/
  findProjectionCode : ossimMapProjection K D → Nat
  /-- The value of a default constructed `ossimGpt()`. -/
  defaultGpt : ossimGpt K D

/-- The enumeration `ossimCompareType`: the strict (full) comparison and the immediate
(tolerant) one. -/
inductive ossimCompareType where
  | OSSIM_COMPARE_FULL
  | OSSIM_COMPARE_IMMEDIATE
  deriving DecidableEq, Repr

open ossimCompareType

/-- The comparisons that the class takes from other translation units: the operators `!=` of
`ossimGpt`, `ossimDpt` and of the matrix data, and the methods `isEqualTo` of the members.  Datum
objects are the singletons of the datum factory, so that `*theDatum == *datum` and the
comparison of two datum pointers are the equality of `Option D`; the comparison of two datums
by value, `ossimDatum::isEqualTo`, is the field `datumIsEqualTo`. -/
structure Comparisons (K D : Type) where
  /-- The operator `ossimGpt::operator!=`. -/
  gptNe : ossimGpt K D → ossimGpt K D → Bool
  /-- The operator `ossimDpt::operator!=`. -/
  dptNe : ossimDpt K → ossimDpt K → Bool
  /-- The operator `!=` on the data of two transforms. -/
  matrixNe : ossimMatrix4x4 K → ossimMatrix4x4 K → Bool
  /-- The method `ossimEllipsoid::isEqualTo`. -/
  ellipsoidIsEqualTo : ossimEllipsoid K → ossimEllipsoid K → ossimCompareType → Bool
  /-- The method `ossimGpt::isEqualTo`. -/
  gptIsEqualTo : ossimGpt K D → ossimGpt K D → ossimCompareType → Bool
  /-- The method `ossimDpt::isEqualTo`. -/
  dptIsEqualTo : ossimDpt K → ossimDpt K → ossimCompareType → Bool
  /-- The method `ossimMatrix4x4::isEqualTo`, called with its default comparison type. -/
  matrixIsEqualTo : ossimMatrix4x4 K → ossimMatrix4x4 K → Bool
  /-- The method `ossimDatum::isEqualTo`. -/
  datumIsEqualTo : D → D → ossimCompareType → Bool

/-- Modelled from the spec: the class `ossimKeywordlist` is declared outside this file; the
persisted-state contract of the spec reads and writes "logical fields, not the serialization
syntax itself".  The list is given field by logical field: for every key, the value that
`kwl.find` gives after the string conversion of the source (`toFloat64`, `toUInt32`, `toBool`,
`toPoint`, `getEntryNumber`), `none` when the key is absent. -/
structure ossimKeywordlist (K D : Type) where
  /-- The key `ELEVATION_LOOKUP_FLAG_KW`, through `toBool`. -/
  ELEVATION_LOOKUP_FLAG_KW : Option Bool
  /-- The ellipsoid that `ossimEllipsoid::saveState` writes and `ossimEllipsoid::loadState`
  reads back; `none` when the list holds no ellipsoid and `loadState` changes nothing. -/
  ellipsoid : Option (ossimEllipsoid K)
  /-- The key `PCS_CODE_KW`, through `toUInt32`. -/
  PCS_CODE_KW : Option Nat
  /-- The key `DATUM_KW`, the code of a datum, read as the datum that
  `ossimDatumFactoryRegistry::instance()->create(kwl, prefix)` gives back; `none` when the
  registry answers with a null pointer. -/
  DATUM_KW : Option D
  /-- The key `SRS_NAME_KW`: the number after `EPSG:`. -/
  SRS_NAME_KW : Option Nat
  /-- The key `ORIGIN_LATITUDE_KW`. -/
  ORIGIN_LATITUDE_KW : Option (Dbl K)
  /-- The key `CENTRAL_MERIDIAN_KW`. -/
  CENTRAL_MERIDIAN_KW : Option (Dbl K)
  /-- The key `PIXEL_SCALE_UNITS_KW`, through the unit lookup table. -/
  PIXEL_SCALE_UNITS_KW : Option ossimUnitType
  /-- The key `PIXEL_SCALE_XY_KW`, through `toPoint`. -/
  PIXEL_SCALE_XY_KW : Option (ossimDpt K)
  /-- The key `METERS_PER_PIXEL_X_KW`. -/
  METERS_PER_PIXEL_X_KW : Option (Dbl K)
  /-- The key `METERS_PER_PIXEL_Y_KW`. -/
  METERS_PER_PIXEL_Y_KW : Option (Dbl K)
  /-- The key `DECIMAL_DEGREES_PER_PIXEL_LAT`. -/
  DECIMAL_DEGREES_PER_PIXEL_LAT : Option (Dbl K)
  /-- The key `DECIMAL_DEGREES_PER_PIXEL_LON`. -/
  DECIMAL_DEGREES_PER_PIXEL_LON : Option (Dbl K)
  /-- The key `TIE_POINT_UNITS_KW`, through the unit lookup table. -/
  TIE_POINT_UNITS_KW : Option ossimUnitType
  /-- The key `TIE_POINT_XY_KW`, through `toPoint`. -/
  TIE_POINT_XY_KW : Option (ossimDpt K)
  /-- The key `TIE_POINT_EASTING_KW`. -/
  TIE_POINT_EASTING_KW : Option (Dbl K)
  /-- The key `TIE_POINT_NORTHING_KW`. -/
  TIE_POINT_NORTHING_KW : Option (Dbl K)
  /-- The key `TIE_POINT_LAT_KW`. -/
  TIE_POINT_LAT_KW : Option (Dbl K)
  /-- The key `TIE_POINT_LON_KW`. -/
  TIE_POINT_LON_KW : Option (Dbl K)
  /-- The key `FALSE_EASTING_NORTHING_UNITS_KW`, through the unit lookup table. -/
  FALSE_EASTING_NORTHING_UNITS_KW : Option ossimUnitType
  /-- The key `FALSE_EASTING_NORTHING_KW`, through `toPoint`. -/
  FALSE_EASTING_NORTHING_KW : Option (ossimDpt K)
  /-- The key `FALSE_EASTING_KW`. -/
  FALSE_EASTING_KW : Option (Dbl K)
  /-- The key `FALSE_NORTHING_KW`. -/
  FALSE_NORTHING_KW : Option (Dbl K)
  /-- The key `PIXEL_TYPE_KW`, as text. -/
  PIXEL_TYPE_KW : Option String
  /-- The key `ORIGINAL_MAP_UNITS_KW`, through the unit lookup table. -/
  ORIGINAL_MAP_UNITS_KW : Option ossimUnitType
  /-- The key `IMAGE_MODEL_TRANSFORM_MATRIX_KW`: the elements that `split(" ")` gives, each
  through `toDouble`; `none` when the key is absent or its value is the empty string. -/
  IMAGE_MODEL_TRANSFORM_MATRIX_KW : Option (List (Dbl K))

namespace ossimKeywordlist

/-- The keyword list without any key. -/
def empty : ossimKeywordlist K D :=
  { ELEVATION_LOOKUP_FLAG_KW := none
    ellipsoid := none
    PCS_CODE_KW := none
    DATUM_KW := none
    SRS_NAME_KW := none
    ORIGIN_LATITUDE_KW := none
    CENTRAL_MERIDIAN_KW := none
    PIXEL_SCALE_UNITS_KW := none
    PIXEL_SCALE_XY_KW := none
    METERS_PER_PIXEL_X_KW := none
    METERS_PER_PIXEL_Y_KW := none
    DECIMAL_DEGREES_PER_PIXEL_LAT := none
    DECIMAL_DEGREES_PER_PIXEL_LON := none
    TIE_POINT_UNITS_KW := none
    TIE_POINT_XY_KW := none
    TIE_POINT_EASTING_KW := none
    TIE_POINT_NORTHING_KW := none
    TIE_POINT_LAT_KW := none
    TIE_POINT_LON_KW := none
    FALSE_EASTING_NORTHING_UNITS_KW := none
    FALSE_EASTING_NORTHING_KW := none
    FALSE_EASTING_KW := none
    FALSE_NORTHING_KW := none
    PIXEL_TYPE_KW := none
    ORIGINAL_MAP_UNITS_KW := none
    IMAGE_MODEL_TRANSFORM_MATRIX_KW := none }

end ossimKeywordlist

namespace ossimMapProjection

/-- The method `updateTransform`. -/
def updateTransform (S : Services K D) (s : ossimMapProjection K D) : ossimMapProjection K D :=
  let cosAz : Dbl K :=
    if s.theImageToModelAzimuth ≠ fin 0 then s.theImageToModelAzimuth.map S.cosd else fin 1
  let sinAz : Dbl K :=
    if s.theImageToModelAzimuth ≠ fin 0 then s.theImageToModelAzimuth.map S.sind else fin 0
  let m := ossimMatrix4x4.identity
    |>.set 0 0 (s.theMetersPerPixel.x * cosAz)
    |>.set 0 1 (s.theMetersPerPixel.y * sinAz)
    |>.set 1 0 (-s.theMetersPerPixel.x * sinAz)
    |>.set 1 1 (s.theMetersPerPixel.y * cosAz)
    |>.set 0 3 s.theUlEastingNorthing.x
    |>.set 1 3 s.theUlEastingNorthing.y
  { s with theModelTransform := m, theInverseModelTransform := m.i }

/-- The method `computeDegreesPerPixel`: the angular scale sampled from the linear one around
the origin. -/
def computeDegreesPerPixel (S : Services K D) (s : ossimMapProjection K D) :
    ossimMapProjection K D :=
  let eastNorthGround := S.forward s.theOrigin
  let rightEastNorth : ossimDpt K :=
    { eastNorthGround with x := eastNorthGround.x + s.theMetersPerPixel.x }
  let downEastNorth : ossimDpt K :=
    { eastNorthGround with y := eastNorthGround.y - s.theMetersPerPixel.y }
  let rightGpt := S.inverse rightEastNorth
  let downGpt := S.inverse downEastNorth
  let dLatR := rightGpt.lat - s.theOrigin.lat
  let dLonR := rightGpt.lon - s.theOrigin.lon
  let degLon := (dLatR * dLatR + dLonR * dLonR).map S.sqrt
  let dLatD := downGpt.lat - s.theOrigin.lat
  let dLonD := downGpt.lon - s.theOrigin.lon
  let degLat := (dLatD * dLatD + dLonD * dLonD).map S.sqrt
  { s with theDegreesPerPixel := { x := degLon, y := degLat } }

/-- The method `computeMetersPerPixel`: the linear scale sampled from the angular one around
the origin, followed by `updateTransform`. -/
def computeMetersPerPixel (S : Services K D) (s : ossimMapProjection K D) :
    ossimMapProjection K D :=
  let right : ossimGpt K D := { s.theOrigin with lon := s.theOrigin.lon + s.theDegreesPerPixel.lon }
  let down : ossimGpt K D := { s.theOrigin with lat := s.theOrigin.lat + s.theDegreesPerPixel.lat }
  let centerMeters := S.forward s.theOrigin
  let rightMeters := S.forward right
  let downMeters := S.forward down
  updateTransform S
    { s with theMetersPerPixel :=
        { x := (rightMeters.sub centerMeters).length S.sqrt,
          y := (downMeters.sub centerMeters).length S.sqrt } }

/-- The method `update`. -/
def update (S : Services K D) (s : ossimMapProjection K D) : ossimMapProjection K D :=
  let s1 :=
    if !s.theDegreesPerPixel.hasNans && s.theMetersPerPixel.hasNans then
      computeMetersPerPixel S s
    else if !s.theMetersPerPixel.hasNans then
      computeDegreesPerPixel S s
    else s
  let s2 :=
    if s1.theUlEastingNorthing.hasNans && !s1.theUlGpt.hasNans then
      { s1 with theUlEastingNorthing := S.forward s1.theUlGpt }
    else if s1.theUlGpt.hasNans && !s1.theUlEastingNorthing.hasNans then
      { s1 with theUlGpt := S.inverse s1.theUlEastingNorthing }
    else if s1.theUlGpt.hasNans && s1.theUlEastingNorthing.hasNans then
      { s1 with theUlGpt := s1.theOrigin, theUlEastingNorthing := S.forward s1.theOrigin }
    else s1
  let s3 :=
    if s2.theMetersPerPixel.hasNans && s2.theDegreesPerPixel.hasNans then
      if S.isGeographic then
        computeMetersPerPixel S
          { s2 with theDegreesPerPixel :=
              { x := fin 1 / S.metersPerDegree.x, y := fin 1 / S.metersPerDegree.y } }
      else
        computeDegreesPerPixel S { s2 with theMetersPerPixel := { x := fin 1, y := fin 1 } }
    else s2
  updateTransform S s3

/-- The constructor `ossimMapProjection(ellipsoid, origin)`. -/
def new (ellipsoid : ossimEllipsoid K) (origin : ossimGpt K D) : ossimMapProjection K D :=
  { theEllipsoid := ellipsoid
    theOrigin := origin
    theDatum := origin.datum
    theMetersPerPixel := ossimDpt.makeNan
    theDegreesPerPixel := ossimDpt.makeNan
    theUlGpt := origin
    theUlEastingNorthing := ossimDpt.makeNan
    theFalseEastingNorthing := ⟨fin 0, fin 0⟩
    thePcsCode := 0
    theElevationLookupFlag := false
    theModelTransform := ossimMatrix4x4.identity
    theInverseModelTransform := ossimMatrix4x4.identity
    theProjectionUnits := OSSIM_METERS
    theImageToModelAzimuth := fin 0 }

/-- The copy constructor `ossimMapProjection(const ossimMapProjection& src)`, member by member
as the initialiser list has them. -/
def copy (src : ossimMapProjection K D) : ossimMapProjection K D :=
  { theEllipsoid := src.theEllipsoid
    theOrigin := src.theOrigin
    theDatum := src.theDatum
    theMetersPerPixel := src.theMetersPerPixel
    theDegreesPerPixel := src.theDegreesPerPixel
    theUlGpt := src.theUlGpt
    theUlEastingNorthing := src.theUlEastingNorthing
    theFalseEastingNorthing := src.theFalseEastingNorthing
    thePcsCode := src.thePcsCode
    theElevationLookupFlag := false
    theModelTransform := src.theModelTransform
    theInverseModelTransform := src.theInverseModelTransform
    theProjectionUnits := src.theProjectionUnits
    theImageToModelAzimuth := src.theImageToModelAzimuth }

/-- The method `setEllipsoid`. -/
def setEllipsoid (S : Services K D) (s : ossimMapProjection K D) (ellipsoid : ossimEllipsoid K) :
    ossimMapProjection K D :=
  update S { s with theEllipsoid := ellipsoid }

/-- The method `setAB`. -/
def setAB (S : Services K D) (s : ossimMapProjection K D) (a b : Dbl K) :
    ossimMapProjection K D :=
  update S { s with theEllipsoid := { theA := a, theB := b } }

/-- The method `setDatum`; the argument is a pointer, `none` when null.  A datum without an
ellipsoid leaves the cached ellipsoid as it is. -/
def setDatum (S : Services K D) (s : ossimMapProjection K D) (datum : Option D) :
    ossimMapProjection K D :=
  match datum with
  | none => s
  | some d =>
    if s.theDatum = some d then s
    else
      let s1 : ossimMapProjection K D :=
        { s with
          theDatum := some d
          theEllipsoid := (S.datumEllipsoid d).getD s.theEllipsoid
          theOrigin := S.changeDatum s.theOrigin (some d)
          theUlGpt := S.changeDatum s.theUlGpt (some d) }
      { update S s1 with thePcsCode := 0 }

/-- The method `setOrigin`. -/
def setOrigin (S : Services K D) (s : ossimMapProjection K D) (origin : ossimGpt K D) :
    ossimMapProjection K D :=
  update S { s with theOrigin := S.changeDatum origin s.theDatum }

/-- The method `applyRotation`.  The four assignments run in source order, so the second row
reads the first row already overwritten. -/
def applyRotation (S : Services K D) (s : ossimMapProjection K D) (azimuthDeg : Dbl K) :
    ossimMapProjection K D :=
  let cosAz := azimuthDeg.map S.cosd
  let sinAz := azimuthDeg.map S.sind
  let m := s.theModelTransform
  let m := m.set 0 0 (cosAz * m 0 0 + sinAz * m 1 0)
  let m := m.set 0 1 (cosAz * m 0 1 + sinAz * m 1 1)
  let m := m.set 1 0 (-sinAz * m 0 0 + cosAz * m 1 0)
  let m := m.set 1 1 (-sinAz * m 0 1 + cosAz * m 1 1)
  let az := s.theImageToModelAzimuth + azimuthDeg
  let az := if az.ge (fin 360) then az - fin 360 else az
  { s with theModelTransform := m, theImageToModelAzimuth := az }

/-- The method `imageToModel`. -/
def imageToModel (S : Services K D) (s : ossimMapProjection K D) (imagePt : ossimDpt K) :
    ossimDpt K :=
  let m := s.theModelTransform
  let modelPt : ossimDpt K :=
    { x := m 0 0 * imagePt.x + m 0 1 * imagePt.y + m 0 3,
      y := m 1 0 * imagePt.x + m 1 1 * imagePt.y + m 1 3 }
  match s.theProjectionUnits with
  | OSSIM_UNIT_UNKNOWN => modelPt
  | OSSIM_DEGREES => modelPt
  | OSSIM_METERS => modelPt
  | OSSIM_MINUTES =>
    { x := S.unitConvert modelPt.x OSSIM_DEGREES OSSIM_MINUTES,
      y := S.unitConvert modelPt.y OSSIM_DEGREES OSSIM_MINUTES }
  | OSSIM_SECONDS =>
    { x := S.unitConvert modelPt.x OSSIM_DEGREES OSSIM_SECONDS,
      y := S.unitConvert modelPt.y OSSIM_DEGREES OSSIM_SECONDS }
  | OSSIM_RADIANS =>
    { x := S.unitConvert modelPt.x OSSIM_DEGREES OSSIM_RADIANS,
      y := S.unitConvert modelPt.y OSSIM_DEGREES OSSIM_RADIANS }
  | u =>
    { x := S.unitConvert modelPt.x OSSIM_METERS u,
      y := S.unitConvert modelPt.y OSSIM_METERS u }

/-- The method `modelToImage`. -/
def modelToImage (S : Services K D) (s : ossimMapProjection K D) (rawModelPt : ossimDpt K) :
    ossimDpt K :=
  let modelPt : ossimDpt K :=
    match s.theProjectionUnits with
    | OSSIM_UNIT_UNKNOWN => rawModelPt
    | OSSIM_DEGREES => rawModelPt
    | OSSIM_METERS => rawModelPt
    | OSSIM_MINUTES =>
      { x := S.unitConvert rawModelPt.x OSSIM_MINUTES OSSIM_DEGREES,
        y := S.unitConvert rawModelPt.y OSSIM_MINUTES OSSIM_DEGREES }
    | OSSIM_SECONDS =>
      { x := S.unitConvert rawModelPt.x OSSIM_SECONDS OSSIM_DEGREES,
        y := S.unitConvert rawModelPt.y OSSIM_SECONDS OSSIM_DEGREES }
    | OSSIM_RADIANS =>
      { x := S.unitConvert rawModelPt.x OSSIM_RADIANS OSSIM_DEGREES,
        y := S.unitConvert rawModelPt.y OSSIM_RADIANS OSSIM_DEGREES }
    | u =>
      { x := S.unitConvert rawModelPt.x u OSSIM_METERS,
        y := S.unitConvert rawModelPt.y u OSSIM_METERS }
  let m := s.theInverseModelTransform
  { x := m 0 0 * modelPt.x + m 0 1 * modelPt.y + m 0 3,
    y := m 1 0 * modelPt.x + m 1 1 * modelPt.y + m 1 3 }

/-- The method `setMetersPerPixel`. -/
def setMetersPerPixel (S : Services K D) (s : ossimMapProjection K D) (resolution : ossimDpt K) :
    ossimMapProjection K D :=
  updateTransform S (computeDegreesPerPixel S { s with theMetersPerPixel := resolution })

/-- The method `setDecimalDegreesPerPixel`. -/
def setDecimalDegreesPerPixel (S : Services K D) (s : ossimMapProjection K D)
    (resolution : ossimDpt K) : ossimMapProjection K D :=
  computeMetersPerPixel S { s with theDegreesPerPixel := resolution }

/-- The method `setUlEastingNorthing`. -/
def setUlEastingNorthing (S : Services K D) (s : ossimMapProjection K D)
    (ulEastingNorthing : ossimDpt K) : ossimMapProjection K D :=
  updateTransform S
    { s with theUlEastingNorthing := ulEastingNorthing, theUlGpt := S.inverse ulEastingNorthing }

/-- The method `setUlGpt`. -/
def setUlGpt (S : Services K D) (s : ossimMapProjection K D) (ulGpt : ossimGpt K D) :
    ossimMapProjection K D :=
  let g := if s.theDatum ≠ ulGpt.datum then S.changeDatum ulGpt s.theDatum else ulGpt
  updateTransform S { s with theUlGpt := g, theUlEastingNorthing := S.forward g }

/-- The overload `setUlTiePoints(const ossimGpt&)`. -/
def setUlTiePointsGpt (S : Services K D) (s : ossimMapProjection K D) (gpt : ossimGpt K D) :
    ossimMapProjection K D :=
  setUlGpt S s gpt

/-- The overload `setUlTiePoints(const ossimDpt&)`. -/
def setUlTiePointsDpt (S : Services K D) (s : ossimMapProjection K D)
    (eastingNorthing : ossimDpt K) : ossimMapProjection K D :=
  setUlEastingNorthing S s eastingNorthing

/-- The method `applyScale`. -/
def applyScale (S : Services K D) (s : ossimMapProjection K D) (scale : ossimDpt K)
    (recenterTiePoint : Bool) : ossimMapProjection K D :=
  let mapTieGpt : ossimGpt K D :=
    { s.theUlGpt with
      lat := s.theUlGpt.lat + s.theDegreesPerPixel.lat / fin 2
      lon := s.theUlGpt.lon - s.theDegreesPerPixel.lon / fin 2 }
  let mapTieDpt : ossimDpt K :=
    { x := s.theUlEastingNorthing.x - s.theMetersPerPixel.x / fin 2
      y := s.theUlEastingNorthing.y + s.theMetersPerPixel.y / fin 2 }
  let s1 : ossimMapProjection K D :=
    { s with
      theDegreesPerPixel :=
        { x := s.theDegreesPerPixel.x * scale.x, y := s.theDegreesPerPixel.y * scale.y }
      theMetersPerPixel :=
        { x := s.theMetersPerPixel.x * scale.x, y := s.theMetersPerPixel.y * scale.y } }
  let s2 :=
    if recenterTiePoint then
      if S.isGeographic then
        setUlTiePointsGpt S s1
          { mapTieGpt with
            lat := mapTieGpt.lat - s1.theDegreesPerPixel.lat / fin 2
            lon := mapTieGpt.lon + s1.theDegreesPerPixel.lon / fin 2 }
      else
        setUlTiePointsDpt S s1
          { x := mapTieDpt.x + s1.theMetersPerPixel.x / fin 2
            y := mapTieDpt.y - s1.theMetersPerPixel.y / fin 2 }
    else s1
  updateTransform S s2

/-- The rounding step `ossim::round<int>(d / multiple) * multiple` of the two snap methods. -/
def snap [FloorRing K] (d multiple : Dbl K) : Dbl K := round (d / multiple) * multiple

/-- The method `snapTiePointTo`. -/
def snapTiePointTo [FloorRing K] (S : Services K D) (s : ossimMapProjection K D) (multiple : Dbl K)
    (unitType : ossimUnitType) : ossimMapProjection K D :=
  let convertedMultiple : Dbl K :=
    if S.isGeographic ∧ unitType ≠ OSSIM_DEGREES then
      S.unitConvertAt s.theOrigin multiple unitType OSSIM_DEGREES
    else if ¬ S.isGeographic ∧ unitType ≠ OSSIM_METERS then
      S.unitConvertAt s.theOrigin multiple unitType OSSIM_METERS
    else multiple
  let s1 : ossimMapProjection K D :=
    if S.isGeographic then
      let g : ossimGpt K D :=
        { s.theUlGpt with
          lat := snap s.theUlGpt.lat convertedMultiple
          lon := snap s.theUlGpt.lon convertedMultiple }
      { s with theUlGpt := g, theUlEastingNorthing := S.forward g }
    else
      let en : ossimDpt K :=
        { x := snap (s.theUlEastingNorthing.x - s.theFalseEastingNorthing.x) convertedMultiple
                + s.theFalseEastingNorthing.x
          y := snap (s.theUlEastingNorthing.y - s.theFalseEastingNorthing.y) convertedMultiple
                + s.theFalseEastingNorthing.y }
      { s with theUlEastingNorthing := en, theUlGpt := S.inverse en }
  updateTransform S s1

/-- The method `snapTiePointToOrigin`. -/
def snapTiePointToOrigin [FloorRing K] (S : Services K D) (s : ossimMapProjection K D) :
    ossimMapProjection K D :=
  let s1 : ossimMapProjection K D :=
    if S.isGeographic then
      let g : ossimGpt K D :=
        { s.theUlGpt with
          lat := snap (s.theUlGpt.lat - s.theOrigin.lat) s.theDegreesPerPixel.y + s.theOrigin.lat
          lon := snap (s.theUlGpt.lon - s.theOrigin.lon) s.theDegreesPerPixel.x + s.theOrigin.lon }
      { s with theUlGpt := g, theUlEastingNorthing := S.forward g }
    else
      let en : ossimDpt K :=
        { x := snap (s.theUlEastingNorthing.x - s.theFalseEastingNorthing.x) s.theMetersPerPixel.x
                + s.theFalseEastingNorthing.x
          y := snap (s.theUlEastingNorthing.y - s.theFalseEastingNorthing.y) s.theMetersPerPixel.y
                + s.theFalseEastingNorthing.y }
      { s with theUlEastingNorthing := en, theUlGpt := S.inverse en }
  updateTransform S s1

/-- The method `worldToLineSample(worldPoint, lineSample)`; the value of `lineSample` on
return. -/
def worldToLineSample (S : Services K D) (s : ossimMapProjection K D) (worldPoint : ossimGpt K D) :
    ossimDpt K :=
  if worldPoint.isLatLonNan then ossimDpt.makeNan
  else
    let gpt := if s.theDatum.isSome then S.changeDatum worldPoint s.theDatum else worldPoint
    modelToImage S s (S.forward gpt)

/-- The method `lineSampleHeightToWorld(lineSample, hgtEllipsoid, gpt)`; the value of `gpt` on
return, `gpt0` being its value on entry. -/
def lineSampleHeightToWorld (S : Services K D) (s : ossimMapProjection K D)
    (lineSample : ossimDpt K) (_hgtEllipsoid : Dbl K) (gpt0 : ossimGpt K D) : ossimGpt K D :=
  if lineSample.hasNans then gpt0.makeNan
  else S.inverse (imageToModel S s lineSample)

/-- The method `lineSampleToWorld(lineSampPt, worldPt)`; the value of `worldPt` on return,
`worldPt0` being its value on entry. -/
def lineSampleToWorldOut (S : Services K D) (s : ossimMapProjection K D)
    (lineSampPt : ossimDpt K) (worldPt0 : ossimGpt K D) : ossimGpt K D :=
  let worldPt := lineSampleHeightToWorld S s lineSampPt nan worldPt0
  if s.theElevationLookupFlag then
    { worldPt with hgt := S.getHeightAboveEllipsoid worldPt }
  else worldPt

/-- The method `lineSampleToWorld(lineSample)` that returns its result. -/
def lineSampleToWorld (S : Services K D) (s : ossimMapProjection K D) (lineSample : ossimDpt K) :
    ossimGpt K D :=
  lineSampleToWorldOut S s lineSample S.defaultGpt

/-- The method `getUlGpt`. -/
def getUlGpt (s : ossimMapProjection K D) : ossimGpt K D := s.theUlGpt

/-- The operator `operator==(const ossimProjection& projection)`.  The class names are the
values of `getClassName()` on the two objects; `projection` is `none` when the dynamic cast to a
map projection fails. -/
def operatorEq (C : Comparisons K D) (className : String) (self : ossimMapProjection K D)
    (projectionClassName : String) (projection : Option (ossimMapProjection K D)) : Bool :=
  if className ≠ projectionClassName then false
  else
    match projection with
    | none => false
    | some mapProj =>
      if self.thePcsCode ≠ 0 ∧ mapProj.thePcsCode ≠ 0 ∧ self.thePcsCode ≠ 32767 ∧
          self.thePcsCode = mapProj.thePcsCode then true
      else if self.theDatum ≠ mapProj.theDatum then false
      else if C.gptNe self.theOrigin mapProj.theOrigin then false
      else if C.dptNe self.theFalseEastingNorthing mapProj.theFalseEastingNorthing then false
      else if self.theProjectionUnits = OSSIM_UNIT_UNKNOWN ∨
          self.theProjectionUnits ≠ mapProj.theProjectionUnits then false
      else if C.matrixNe self.theModelTransform mapProj.theModelTransform then false
      else true

/-- The method `isEqualTo(obj, compareType)`.  The object `obj` is `none` when the dynamic cast
to a map projection fails; `baseIsEqualTo` is the value of the base class comparison
`ossimProjection::isEqualTo(obj, compareType)`. -/
def isEqualTo (C : Comparisons K D) (self : ossimMapProjection K D)
    (obj : Option (ossimMapProjection K D)) (baseIsEqualTo : Bool)
    (compareType : ossimCompareType) : Bool :=
  match obj with
  | none => false
  | some mapProj =>
    let result := baseIsEqualTo
    if result then
      let result :=
        C.ellipsoidIsEqualTo self.theEllipsoid mapProj.theEllipsoid compareType &&
        C.gptIsEqualTo self.theOrigin mapProj.theOrigin compareType &&
        C.dptIsEqualTo self.theMetersPerPixel mapProj.theMetersPerPixel compareType &&
        C.dptIsEqualTo self.theDegreesPerPixel mapProj.theDegreesPerPixel compareType &&
        C.gptIsEqualTo self.theUlGpt mapProj.theUlGpt compareType &&
        C.dptIsEqualTo self.theUlEastingNorthing mapProj.theUlEastingNorthing compareType &&
        C.dptIsEqualTo self.theFalseEastingNorthing mapProj.theFalseEastingNorthing
          compareType &&
        decide (self.thePcsCode = mapProj.thePcsCode) &&
        decide (self.theElevationLookupFlag = mapProj.theElevationLookupFlag) &&
        C.matrixIsEqualTo self.theModelTransform mapProj.theModelTransform &&
        decide (self.theProjectionUnits = mapProj.theProjectionUnits)
      if result then
        if compareType = OSSIM_COMPARE_FULL then
          match self.theDatum, mapProj.theDatum with
          | some d, some e => C.datumIsEqualTo d e compareType
          | _, _ => result
        else decide (self.theDatum = mapProj.theDatum)
      else result
    else result

/-- The datums of two projections are equal by value: both projections have a datum and
`ossimDatum::isEqualTo` holds of them, or neither has one. -/
def datumsEqualByValue (C : Comparisons K D) (x y : Option D) (compareType : ossimCompareType) :
    Prop :=
  match x, y with
  | some d, some e => C.datumIsEqualTo d e compareType = true
  | none, none => True
  | _, _ => False

/-- The method `getPcsCode`: the value returned and the state left (the member `thePcsCode` is
written by this `const` method). -/
def getPcsCode (S : Services K D) (s : ossimMapProjection K D) :
    Nat × ossimMapProjection K D :=
  let s1 : ossimMapProjection K D :=
    if s.thePcsCode = 0 then
      let s0 : ossimMapProjection K D := { s with thePcsCode := S.findProjectionCode s }
      if s0.thePcsCode = 0 then { s0 with thePcsCode := 32767 } else s0
    else s
  if s1.thePcsCode = 32767 then (0, s1) else (s1.thePcsCode, s1)

/-- The method `updateFromTransform`.  The assignments run in source order: the second one to
`theUlEastingNorthing.x` overwrites the first, and `theUlEastingNorthing.y` is not assigned. -/
def updateFromTransform (S : Services K D) (s : ossimMapProjection K D) :
    ossimMapProjection K D :=
  let m := s.theModelTransform
  let s1 : ossimMapProjection K D :=
    { s with theMetersPerPixel :=
        { s.theMetersPerPixel with x := (m 0 0 * m 0 0 + m 1 0 * m 1 0).map S.sqrt } }
  let s2 : ossimMapProjection K D :=
    { s1 with theMetersPerPixel :=
        { s1.theMetersPerPixel with y := (m 1 0 * m 1 0 + m 1 1 * m 1 1).map S.sqrt } }
  let s3 : ossimMapProjection K D :=
    { s2 with theUlEastingNorthing := { s2.theUlEastingNorthing with x := m 0 3 } }
  let s4 : ossimMapProjection K D :=
    { s3 with theUlEastingNorthing := { s3.theUlEastingNorthing with x := m 1 3 } }
  let s5 : ossimMapProjection K D :=
    { s4 with theImageToModelAzimuth := (m 0 0 / s4.theMetersPerPixel.x).map S.acosd }
  computeDegreesPerPixel S s5

/-- The method `lineSampleToEastingNorthing(lineSample, eastingNorthing)`; the value of
`eastingNorthing` on return.  The flag is the preprocessor symbol `OSSIM_USE_TRANSFORM`, which
this file tests and does not define. -/
def lineSampleToEastingNorthing (S : Services K D) (OSSIM_USE_TRANSFORM : Bool)
    (s : ossimMapProjection K D) (lineSample : ossimDpt K) : ossimDpt K :=
  if OSSIM_USE_TRANSFORM then imageToModel S s lineSample
  else if lineSample.hasNans || s.theUlEastingNorthing.hasNans then ossimDpt.makeNan
  else
    let deltaPoint := lineSample
    { x := s.theUlEastingNorthing.x + deltaPoint.x * s.theMetersPerPixel.x,
      y := s.theUlEastingNorthing.y + (-deltaPoint.y) * s.theMetersPerPixel.y }

/-- The method `eastingNorthingToLineSample(eastingNorthing, lineSample)`; the value of
`lineSample` on return, `lineSample0` being its value on entry.  The test `isNan()` of a point
(both coordinates are `nan`) cannot hold where it is reached. -/
def eastingNorthingToLineSample (S : Services K D) (OSSIM_USE_TRANSFORM : Bool)
    (s : ossimMapProjection K D) (eastingNorthing : ossimDpt K) (lineSample0 : ossimDpt K) :
    ossimDpt K :=
  if OSSIM_USE_TRANSFORM then modelToImage S s eastingNorthing
  else if eastingNorthing.hasNans then ossimDpt.makeNan
  else if !(eastingNorthing.x.isnan && eastingNorthing.y.isnan) then
    { x := (eastingNorthing.x - s.theUlEastingNorthing.x) / s.theMetersPerPixel.x,
      y := (-(eastingNorthing.y - s.theUlEastingNorthing.y)) / s.theMetersPerPixel.y }
  else lineSample0

/-- The value of a scale or tie point key of `loadState` through `fabs`. -/
def fabs (v : Dbl K) : Dbl K := v.map fun x => |x|

/-- The test on the pixel type in `loadState`: the trimmed text is not empty and, in lower case,
contains "area". -/
def pixelTypeIsArea (pixelType : String) : Bool :=
  pixelType.trim ≠ "" && decide ("area".toList <:+: pixelType.trim.toLower.toList)

/-- The first part of `loadState` (source lines 713 to 765): the elevation lookup flag, the
ellipsoid, the PCS code, the datum (the WGS 84 datum `wgs84` of the datum factory when the list
names none), the datum tag of the origin and of the tie point, the ellipsoid of the datum, and
the origin latitude and longitude. -/
def loadOrigin (S : Services K D) (wgs84 : D) (s : ossimMapProjection K D)
    (kwl : ossimKeywordlist K D) : ossimMapProjection K D :=
  let s : ossimMapProjection K D :=
    match kwl.ELEVATION_LOOKUP_FLAG_KW with
    | some flag => { s with theElevationLookupFlag := flag }
    | none => s
  let s : ossimMapProjection K D :=
    match kwl.ellipsoid with
    | some e => { s with theEllipsoid := e }
    | none => s
  let s : ossimMapProjection K D := { s with thePcsCode := 0 }
  let s : ossimMapProjection K D :=
    match kwl.PCS_CODE_KW with
    | some code => { s with thePcsCode := code }
    | none => s
  let datum : D :=
    match kwl.DATUM_KW with
    | some d => d
    | none => wgs84
  let s : ossimMapProjection K D :=
    { s with
      theDatum := some datum
      theOrigin := { s.theOrigin with datum := some datum }
      theUlGpt := { s.theUlGpt with datum := some datum } }
  let s : ossimMapProjection K D :=
    match S.datumEllipsoid datum with
    | some ellipse => { s with theEllipsoid := ellipse }
    | none => s
  let s : ossimMapProjection K D :=
    match kwl.ORIGIN_LATITUDE_KW with
    | some v => { s with theOrigin := { s.theOrigin with lat := v } }
    | none => s
  match kwl.CENTRAL_MERIDIAN_KW with
  | some v => { s with theOrigin := { s.theOrigin with lon := v } }
  | none => s

/-- The pixel scale part of `loadState` (source lines 768 to 855). -/
def loadPixelScale (S : Services K D) (s : ossimMapProjection K D)
    (kwl : ossimKeywordlist K D) : ossimMapProjection K D :=
  let s : ossimMapProjection K D :=
    { s with theMetersPerPixel := ossimDpt.makeNan, theDegreesPerPixel := ossimDpt.makeNan }
  match kwl.PIXEL_SCALE_UNITS_KW with
  | some units =>
    match kwl.PIXEL_SCALE_XY_KW with
    | some scale =>
      match units with
      | OSSIM_METERS => { s with theMetersPerPixel := scale }
      | OSSIM_DEGREES => { s with theDegreesPerPixel := { x := scale.x, y := scale.y } }
      | OSSIM_FEET =>
        { s with theMetersPerPixel :=
            { x := S.unitConvert scale.x OSSIM_FEET OSSIM_METERS,
              y := S.unitConvert scale.y OSSIM_FEET OSSIM_METERS } }
      | OSSIM_US_SURVEY_FEET =>
        { s with theMetersPerPixel :=
            { x := S.unitConvert scale.x OSSIM_US_SURVEY_FEET OSSIM_METERS,
              y := S.unitConvert scale.y OSSIM_US_SURVEY_FEET OSSIM_METERS } }
      | _ => s
    | none => s
  | none =>
    let s : ossimMapProjection K D :=
      match kwl.METERS_PER_PIXEL_X_KW with
      | some v => { s with theMetersPerPixel := { s.theMetersPerPixel with x := fabs v } }
      | none => s
    let s : ossimMapProjection K D :=
      match kwl.METERS_PER_PIXEL_Y_KW with
      | some v => { s with theMetersPerPixel := { s.theMetersPerPixel with y := fabs v } }
      | none => s
    let s : ossimMapProjection K D :=
      match kwl.DECIMAL_DEGREES_PER_PIXEL_LAT with
      | some v => { s with theDegreesPerPixel := { s.theDegreesPerPixel with y := fabs v } }
      | none => s
    match kwl.DECIMAL_DEGREES_PER_PIXEL_LON with
    | some v => { s with theDegreesPerPixel := { s.theDegreesPerPixel with x := fabs v } }
    | none => s

/-- The tie point part of `loadState` (source lines 857 to 945). -/
def loadTiePoint (S : Services K D) (s : ossimMapProjection K D)
    (kwl : ossimKeywordlist K D) : ossimMapProjection K D :=
  let s : ossimMapProjection K D := { s with theUlGpt := s.theUlGpt.makeNan }
  let s : ossimMapProjection K D := { s with theUlGpt := { s.theUlGpt with hgt := fin 0 } }
  let s : ossimMapProjection K D := { s with theUlEastingNorthing := ossimDpt.makeNan }
  match kwl.TIE_POINT_UNITS_KW with
  | some units =>
    match kwl.TIE_POINT_XY_KW with
    | some tie =>
      match units with
      | OSSIM_METERS => { s with theUlEastingNorthing := tie }
      | OSSIM_DEGREES => { s with theUlGpt := { s.theUlGpt with lon := tie.x, lat := tie.y } }
      | OSSIM_FEET =>
        { s with theUlEastingNorthing :=
            { x := S.unitConvert tie.x OSSIM_FEET OSSIM_METERS,
              y := S.unitConvert tie.y OSSIM_FEET OSSIM_METERS } }
      | OSSIM_US_SURVEY_FEET =>
        { s with theUlEastingNorthing :=
            { x := S.unitConvert tie.x OSSIM_US_SURVEY_FEET OSSIM_METERS,
              y := S.unitConvert tie.y OSSIM_US_SURVEY_FEET OSSIM_METERS } }
      | _ => s
    | none => s
  | none =>
    let s : ossimMapProjection K D :=
      match kwl.TIE_POINT_EASTING_KW with
      | some v => { s with theUlEastingNorthing := { s.theUlEastingNorthing with x := v } }
      | none => s
    let s : ossimMapProjection K D :=
      match kwl.TIE_POINT_NORTHING_KW with
      | some v => { s with theUlEastingNorthing := { s.theUlEastingNorthing with y := v } }
      | none => s
    let s : ossimMapProjection K D :=
      match kwl.TIE_POINT_LAT_KW with
      | some v => { s with theUlGpt := { s.theUlGpt with lat := v } }
      | none => s
    match kwl.TIE_POINT_LON_KW with
    | some v => { s with theUlGpt := { s.theUlGpt with lon := v } }
    | none => s

/-- The false easting and northing part of `loadState` (source lines 947 to 1009). -/
def loadFalseEastingNorthing (S : Services K D) (s : ossimMapProjection K D)
    (kwl : ossimKeywordlist K D) : ossimMapProjection K D :=
  let s : ossimMapProjection K D := { s with theFalseEastingNorthing := ⟨fin 0, fin 0⟩ }
  let en_units : ossimUnitType :=
    match kwl.FALSE_EASTING_NORTHING_UNITS_KW with
    | some units => units
    | none => OSSIM_METERS
  match kwl.FALSE_EASTING_NORTHING_KW with
  | some eastingNorthing =>
    match en_units with
    | OSSIM_METERS => { s with theFalseEastingNorthing := eastingNorthing }
    | OSSIM_FEET =>
      { s with theFalseEastingNorthing :=
          { x := S.unitConvert eastingNorthing.x OSSIM_FEET OSSIM_METERS,
            y := S.unitConvert eastingNorthing.y OSSIM_FEET OSSIM_METERS } }
    | OSSIM_US_SURVEY_FEET =>
      { s with theFalseEastingNorthing :=
          { x := S.unitConvert eastingNorthing.x OSSIM_US_SURVEY_FEET OSSIM_METERS,
            y := S.unitConvert eastingNorthing.y OSSIM_US_SURVEY_FEET OSSIM_METERS } }
    | _ => s
  | none =>
    let s : ossimMapProjection K D :=
      match kwl.FALSE_EASTING_KW with
      | some v => { s with theFalseEastingNorthing := { s.theFalseEastingNorthing with x := v } }
      | none => s
    match kwl.FALSE_NORTHING_KW with
    | some v => { s with theFalseEastingNorthing := { s.theFalseEastingNorthing with y := v } }
    | none => s

/-- The pixel type part of `loadState` (source lines 1020 to 1045): a tie point given for the
corner of an "area" pixel is moved to the centre of the pixel. -/
def loadPixelType (s : ossimMapProjection K D) (kwl : ossimKeywordlist K D) :
    ossimMapProjection K D :=
  match kwl.PIXEL_TYPE_KW with
  | some pixelType =>
    if pixelTypeIsArea pixelType then
      let s : ossimMapProjection K D :=
        if s.theMetersPerPixel.hasNans = false then
          if !s.theUlEastingNorthing.hasNans then
            { s with theUlEastingNorthing :=
                { x := s.theUlEastingNorthing.x + s.theMetersPerPixel.x * fin (1 / 2),
                  y := s.theUlEastingNorthing.y - s.theMetersPerPixel.y * fin (1 / 2) } }
          else s
        else s
      if s.theDegreesPerPixel.hasNans = false then
        let s : ossimMapProjection K D :=
          { s with theUlGpt :=
              { s.theUlGpt with lat := s.theUlGpt.lat - s.theDegreesPerPixel.y * fin (1 / 2) } }
        { s with theUlGpt :=
            { s.theUlGpt with lon := s.theUlGpt.lon + s.theDegreesPerPixel.x * fin (1 / 2) } }
      else s
    else s
  | none => s

/-- The declared unit part of `loadState` (source lines 1049 to 1054). -/
def loadOriginalMapUnits (s : ossimMapProjection K D) (kwl : ossimKeywordlist K D) :
    ossimMapProjection K D :=
  match kwl.ORIGINAL_MAP_UNITS_KW with
  | some units => { s with theProjectionUnits := units }
  | none => s

/-- The loop `int i = 0; for (auto &e : elements) m[i/4][i%4] = e.toDouble();` of `loadState`
on the stored transform: the body does not change `i`. -/
def fillTransform (m : ossimMatrix4x4 K) (elements : List (Dbl K)) : ossimMatrix4x4 K :=
  let i : Nat := 0
  elements.foldl (fun m e => m.set (Fin.ofNat (i / 4)) (Fin.ofNat (i % 4)) e) m

/-- The transform part of `loadState` (source lines 1056 to 1080): `updateTransform`, then, when
the list holds a transform that is not empty, the loop over its sixteen elements (a warning
otherwise), the inverse and `updateFromTransform`. -/
def loadTransform (S : Services K D) (s : ossimMapProjection K D)
    (kwl : ossimKeywordlist K D) : ossimMapProjection K D :=
  let s := updateTransform S s
  match kwl.IMAGE_MODEL_TRANSFORM_MATRIX_KW with
  | some elements =>
    let s : ossimMapProjection K D :=
      if elements.length ≠ 16 then s
      else { s with theModelTransform := fillTransform s.theModelTransform elements }
    let s : ossimMapProjection K D :=
      { s with theInverseModelTransform := s.theModelTransform.i }
    updateFromTransform S s
  | none => s

/-- The last part of `loadState` (source lines 1092 to 1122): the datum tag of the origin and of
the tie point, the default scale, and the origin read off the transform when it is not set. -/
def loadDefaults (S : Services K D) (s : ossimMapProjection K D) : ossimMapProjection K D :=
  let s : ossimMapProjection K D :=
    if s.theDatum.isSome then
      { s with
        theOrigin := { s.theOrigin with datum := s.theDatum }
        theUlGpt := { s.theUlGpt with datum := s.theDatum } }
    else s
  let s : ossimMapProjection K D :=
    if s.theMetersPerPixel.hasNans && s.theDegreesPerPixel.hasNans then
      let mpd := S.metersPerDegree
      if S.isGeographic then
        { s with theDegreesPerPixel := { x := fin 1 / mpd.y, y := fin 1 / mpd.y } }
      else
        { s with theMetersPerPixel := { x := fin 1, y := fin 1 } }
    else s
  if s.theOrigin.hasNans then
    let m := s.theModelTransform
    { s with theOrigin := { s.theOrigin with lon := m 0 3, lat := m 1 3 } }
  else s

/-- The parameters that `loadState` reads from the list before it builds the transform (source
lines 713 to 1054), the parts in source order. -/
def loadParameters (S : Services K D) (wgs84 : D) (s : ossimMapProjection K D)
    (kwl : ossimKeywordlist K D) : ossimMapProjection K D :=
  let s := loadOrigin S wgs84 s kwl
  let s := loadPixelScale S s kwl
  let s := loadTiePoint S s kwl
  let s := loadFalseEastingNorthing S s kwl
  let s := loadPixelType s kwl
  loadOriginalMapUnits s kwl

/-- The method `loadState(kwl, prefix)`, the parts in source order.  The base class method
`ossimProjection::loadState` touches no member of this class. -/
def loadState (S : Services K D) (wgs84 : D) (s : ossimMapProjection K D)
    (kwl : ossimKeywordlist K D) : ossimMapProjection K D :=
  let s := loadParameters S wgs84 s kwl
  let s := loadTransform S s kwl
  loadDefaults S s

/-- The sixteen elements of a transform in row-major order, as `saveState` prints them. -/
def transformElements (m : ossimMatrix4x4 K) : List (Dbl K) :=
  (List.finRange 4).flatMap fun row => (List.finRange 4).map fun col => m row col

/-- The method `saveState(kwl, prefix)`: the list of the keys that the method adds, every key
with the condition under which it is added, and the state left (`getPcsCode` writes the member
`thePcsCode`; no other member changes, so that the keys written before the call hold the same
values).  The datum key is written when the datum pointer is not null.  The conversion `ossimDpt(theUlGpt)` and the test
`isIdentity` are declared outside this file: the geographic tie point is written as (longitude,
latitude), the order in which `loadState` reads it, and a transform is the identity when it
equals the matrix that `setIdentity` leaves.  The keys of `ossimProjection::saveState` are no
members of this class. -/
def saveState (S : Services K D) (s : ossimMapProjection K D) :
    ossimKeywordlist K D × ossimMapProjection K D :=
  let code := (getPcsCode S s).1
  let s := (getPcsCode S s).2
  ({ ORIGIN_LATITUDE_KW := some s.theOrigin.lat
     CENTRAL_MERIDIAN_KW := some s.theOrigin.lon
     ellipsoid := some s.theEllipsoid
     DATUM_KW := s.theDatum
     SRS_NAME_KW := if code ≠ 0 then some code else none
     TIE_POINT_XY_KW :=
       if S.isGeographic then some ⟨s.theUlGpt.lon, s.theUlGpt.lat⟩
       else some s.theUlEastingNorthing
     TIE_POINT_UNITS_KW := if S.isGeographic then some OSSIM_DEGREES else some OSSIM_METERS
     PIXEL_SCALE_XY_KW :=
       if S.isGeographic then some s.theDegreesPerPixel else some s.theMetersPerPixel
     PIXEL_SCALE_UNITS_KW := if S.isGeographic then none else some OSSIM_METERS
     PCS_CODE_KW := some code
     FALSE_EASTING_NORTHING_KW := some s.theFalseEastingNorthing
     FALSE_EASTING_NORTHING_UNITS_KW := some OSSIM_METERS
     ELEVATION_LOOKUP_FLAG_KW := some s.theElevationLookupFlag
     IMAGE_MODEL_TRANSFORM_MATRIX_KW :=
       if s.theModelTransform ≠ ossimMatrix4x4.identity then
         some (transformElements s.theModelTransform)
       else none
     ORIGINAL_MAP_UNITS_KW :=
       if s.theProjectionUnits ≠ OSSIM_UNIT_UNKNOWN then some s.theProjectionUnits else none
     METERS_PER_PIXEL_X_KW := none
     METERS_PER_PIXEL_Y_KW := none
     DECIMAL_DEGREES_PER_PIXEL_LAT := none
     DECIMAL_DEGREES_PER_PIXEL_LON := none
     TIE_POINT_EASTING_KW := none
     TIE_POINT_NORTHING_KW := none
     TIE_POINT_LAT_KW := none
     TIE_POINT_LON_KW := none
     FALSE_EASTING_KW := none
     FALSE_NORTHING_KW := none
     PIXEL_TYPE_KW := none }, s)

/-- Invariant 1 of the spec, in its words: the stored forward transform equals the matrix that
the build rule (`updateTransform`) produces from the pixel scale, azimuth and upper-left
easting/northing stored in the same state. -/
def transformIsCurrent (S : Services K D) (t : ossimMapProjection K D) : Prop :=
  t.theModelTransform = (updateTransform S t).theModelTransform

/-- The stored inverse times the stored forward transform is the identity. -/
def inverseIsCurrent (t : ossimMapProjection K D) : Prop :=
  t.theInverseModelTransform.mul t.theModelTransform = ossimMatrix4x4.identity

/-- The geometry of a state is finite and not degenerate: the linear scale is finite and
non-zero on both axes, the projected tie point and the azimuth are finite, and the math library
gives a point of the unit circle at the stored azimuth. -/
def hasFiniteGeometry (S : Services K D) (t : ossimMapProjection K D) : Prop :=
  ∃ sx sy tx ty az : K,
    t.theMetersPerPixel = ⟨fin sx, fin sy⟩ ∧ sx ≠ 0 ∧ sy ≠ 0 ∧
    t.theUlEastingNorthing = ⟨fin tx, fin ty⟩ ∧
    t.theImageToModelAzimuth = fin az ∧
    S.cosd az * S.cosd az + S.sind az * S.sind az = 1

/-- The first block of `update`: one scale form is derived from the other. -/
def resolveScale (S : Services K D) (s : ossimMapProjection K D) : ossimMapProjection K D :=
  if !s.theDegreesPerPixel.hasNans && s.theMetersPerPixel.hasNans then
    computeMetersPerPixel S s
  else if !s.theMetersPerPixel.hasNans then
    computeDegreesPerPixel S s
  else s

/-- The second block of `update`: the tie point form that is not set is derived. -/
def resolveTiePoint (S : Services K D) (s1 : ossimMapProjection K D) : ossimMapProjection K D :=
  if s1.theUlEastingNorthing.hasNans && !s1.theUlGpt.hasNans then
    { s1 with theUlEastingNorthing := S.forward s1.theUlGpt }
  else if s1.theUlGpt.hasNans && !s1.theUlEastingNorthing.hasNans then
    { s1 with theUlGpt := S.inverse s1.theUlEastingNorthing }
  else if s1.theUlGpt.hasNans && s1.theUlEastingNorthing.hasNans then
    { s1 with theUlGpt := s1.theOrigin, theUlEastingNorthing := S.forward s1.theOrigin }
  else s1

/-- The third block of `update`: the default scale when both forms are still unset. -/
def defaultScale (S : Services K D) (s2 : ossimMapProjection K D) : ossimMapProjection K D :=
  if s2.theMetersPerPixel.hasNans && s2.theDegreesPerPixel.hasNans then
    if S.isGeographic then
      computeMetersPerPixel S
        { s2 with theDegreesPerPixel :=
            { x := fin 1 / S.metersPerDegree.x, y := fin 1 / S.metersPerDegree.y } }
    else
      computeDegreesPerPixel S { s2 with theMetersPerPixel := { x := fin 1, y := fin 1 } }
  else s2

/-- Both stored matrices are the ones that `updateTransform` builds from the parameters stored
in the same state: the state is as `updateTransform` leaves it. -/
def transformsAreCurrent (S : Services K D) (t : ossimMapProjection K D) : Prop :=
  t.theModelTransform = (updateTransform S t).theModelTransform ∧
  t.theInverseModelTransform = (updateTransform S t).theInverseModelTransform

/-- The stored geodetic tie point can be looked up: its latitude and longitude are not `nan` and
it is expressed in the datum of the projection, so that `changeDatum` leaves it alone. -/
def tiePointInDatum (S : Services K D) (t : ossimMapProjection K D) : Prop :=
  t.theUlGpt.isLatLonNan = false ∧ S.changeDatum t.theUlGpt t.theDatum = t.theUlGpt

/-- The difference `d` is an integer multiple of the pixel scale `scale`, both finite. -/
def isIntegerMultiple (d scale : Dbl K) : Prop :=
  ∃ (n : ℤ) (p : K), scale = fin p ∧ d = fin ((n : K) * p)

/-- The declared unit is one of the native ones, for which `imageToModel` and `modelToImage`
convert nothing. -/
def hasNativeUnits (t : ossimMapProjection K D) : Prop :=
  t.theProjectionUnits = OSSIM_UNIT_UNKNOWN ∨ t.theProjectionUnits = OSSIM_DEGREES ∨
    t.theProjectionUnits = OSSIM_METERS

/-- The native unit that the `switch` of `imageToModel` converts from (and that of
`modelToImage` converts to) for a declared unit: none for the native units, degrees for
minutes, seconds and radians, meters in the default branch. -/
def conversionBase : ossimUnitType → Option ossimUnitType
  | OSSIM_UNIT_UNKNOWN => none
  | OSSIM_DEGREES => none
  | OSSIM_METERS => none
  | OSSIM_MINUTES => some OSSIM_DEGREES
  | OSSIM_SECONDS => some OSSIM_DEGREES
  | OSSIM_RADIANS => some OSSIM_DEGREES
  | _ => some OSSIM_METERS

/-- The product of the first two rows of a transform with the column `(x, y, 0, 1)`. -/
def affineApply (m : ossimMatrix4x4 K) (p : ossimDpt K) : ossimDpt K :=
  { x := m 0 0 * p.x + m 0 1 * p.y + m 0 3,
    y := m 1 0 * p.x + m 1 1 * p.y + m 1 3 }

/-- Both coordinates of a point through the unit converter. -/
def convertPoint (S : Services K D) (p : ossimDpt K) (src dst : ossimUnitType) : ossimDpt K :=
  { x := S.unitConvert p.x src dst, y := S.unitConvert p.y src dst }

end ossimMapProjection

/-! ## Determinant bookkeeping for the transform -/

/-- The finite matrix with linear part `a b; c d`, translation column `tx ty`, and identity
padding: the shape of every transform that `updateTransform` builds. -/
def affM (a b c d tx ty : K) : Matrix (Fin 4) (Fin 4) K :=
  Matrix.of fun r j =>
    if r = 0 ∧ j = 0 then a else if r = 0 ∧ j = 1 then b
    else if r = 1 ∧ j = 0 then c else if r = 1 ∧ j = 1 then d
    else if r = 0 ∧ j = 3 then tx else if r = 1 ∧ j = 3 then ty
    else if r = j then 1 else 0

/-- The inverse of `affM a b c d tx ty` in closed form. -/
def affX (a b c d tx ty : K) : Matrix (Fin 4) (Fin 4) K :=
  Matrix.of fun r j =>
    if r = 0 ∧ j = 0 then d / (a * d - b * c)
    else if r = 0 ∧ j = 1 then -b / (a * d - b * c)
    else if r = 1 ∧ j = 0 then -c / (a * d - b * c)
    else if r = 1 ∧ j = 1 then a / (a * d - b * c)
    else if r = 0 ∧ j = 3 then (b * ty - d * tx) / (a * d - b * c)
    else if r = 1 ∧ j = 3 then (c * tx - a * ty) / (a * d - b * c)
    else if r = j then 1 else 0

/-- A matrix of doubles from a finite matrix. -/
def ofFinite (m : Matrix (Fin 4) (Fin 4) K) : ossimMatrix4x4 K := fun r j => fin (m r j)

/-! ## Concrete services over the rationals

Rational stand-ins for the external services, used to run the embedding on concrete inputs. -/

namespace Sample

/-- The cosine of an angle in degrees, at the quarter turns from -360 to 360 (where it is
rational); other angles are not used and read as a full turn. -/
def cosd (t : ℚ) : ℚ :=
  if t = 90 ∨ t = -90 ∨ t = 270 ∨ t = -270 then 0
  else if t = 180 ∨ t = -180 then -1 else 1

/-- The sine of an angle in degrees, at the quarter turns from -360 to 360. -/
def sind (t : ℚ) : ℚ :=
  if t = 90 ∨ t = -270 then 1
  else if t = -90 ∨ t = 270 then -1 else 0

/-- The arc cosine in degrees, at -1, 0 and 1. -/
def acosd (x : ℚ) : ℚ := if x = 0 then 90 else if x = -1 then 180 else 0

/-- The square root of a rational, exact on the squares of rationals. -/
def sqrt (q : ℚ) : ℚ := (Nat.sqrt q.num.natAbs : ℚ) / (Nat.sqrt q.den : ℚ)

/-- The unit converter between degrees, minutes and seconds of arc and between meters and
feet; every other pair of units passes the value through. -/
def unitConvert (v : Dbl ℚ) (src dst : ossimUnitType) : Dbl ℚ :=
  match src, dst with
  | OSSIM_DEGREES, OSSIM_MINUTES => v * fin 60
  | OSSIM_MINUTES, OSSIM_DEGREES => v / fin 60
  | OSSIM_DEGREES, OSSIM_SECONDS => v * fin 3600
  | OSSIM_SECONDS, OSSIM_DEGREES => v / fin 3600
  | OSSIM_METERS, OSSIM_FEET => v / fin (381 / 1250)
  | OSSIM_FEET, OSSIM_METERS => v * fin (381 / 1250)
  | _, _ => v

/-- The geographic kernel `forward(lat, lon) = (lon, lat)` over the datum numbered 0, with no
datum shift, no elevation data and an empty EPSG registry. -/
def geographic : Services ℚ ℕ where
  cosd := cosd
  sind := sind
  acosd := acosd
  sqrt := sqrt
  forward := fun g => ⟨g.lon, g.lat⟩
  inverse := fun p => ⟨p.y, p.x, fin 0, some 0⟩
  isGeographic := true
  changeDatum := fun g d => { g with datum := d }
  datumEllipsoid := fun _ => some ⟨fin 6378137, fin (63567523142 / 10000)⟩
  unitConvert := unitConvert
  unitConvertAt := fun _ v src dst => unitConvert v src dst
  metersPerDegree := ⟨fin 111319, fin 110574⟩
  getHeightAboveEllipsoid := fun _ => nan
  findProjectionCode := fun _ => 0
  defaultGpt := ⟨fin 0, fin 0, nan, some 0⟩

/-- A planar kernel in meters, `forward(lat, lon) = (100 lon, 100 lat)`. -/
def planar : Services ℚ ℕ :=
  { geographic with
    forward := fun g => ⟨g.lon * fin 100, g.lat * fin 100⟩
    inverse := fun p => ⟨p.y / fin 100, p.x / fin 100, fin 0, some 0⟩
    isGeographic := false }

/-- The geographic kernel over a datum service whose shift between two different datums moves
a point one degree north. -/
def shifting : Services ℚ ℕ :=
  { geographic with
    changeDatum := fun g d =>
      if g.datum = d then g else { g with lat := g.lat + fin 1, datum := d } }

/-- A geographic kernel that is not linear: south of the equator the northing runs twice as
fast as the latitude, `forward(lat, lon) = (lon, lat)` for `lat >= 0` and `(lon, 2 lat)` below;
`inverse` undoes it. -/
def kinked : Services ℚ ℕ :=
  { geographic with
    forward := fun g =>
      ⟨g.lon, g.lat.map fun y => if 0 ≤ y then y else 2 * y⟩
    inverse := fun p =>
      ⟨p.y.map fun y => if 0 ≤ y then y else y / 2, p.x, fin 0, some 0⟩ }

/-- A projected kernel whose easting axis does not run along the parallels: one degree of
longitude moves a point 5 east and 12 north, one degree of latitude 9 north,
`forward(lat, lon) = (5 lon, 12 lon + 9 lat)`; `inverse` undoes it. -/
def oblique : Services ℚ ℕ :=
  { geographic with
    forward := fun g => ⟨g.lon * fin 5, g.lon * fin 12 + g.lat * fin 9⟩
    inverse := fun p => ⟨(p.y - p.x / fin 5 * fin 12) / fin 9, p.x / fin 5, fin 0, some 0⟩
    isGeographic := false }

/-- The WGS 84 ellipsoid. -/
def wgs84 : ossimEllipsoid ℚ := ⟨fin 6378137, fin (63567523142 / 10000)⟩

/-- A geodetic point on datum 0 at height 0. -/
def gpt (lat lon : ℚ) : ossimGpt ℚ ℕ := ⟨fin lat, fin lon, fin 0, some 0⟩

/-- A point with finite coordinates. -/
def dpt (x y : ℚ) : ossimDpt ℚ := ⟨fin x, fin y⟩

/-- A freshly constructed projection with origin (0, 0) on the WGS 84 ellipsoid. -/
def fresh : ossimMapProjection ℚ ℕ := ossimMapProjection.new wgs84 (gpt 0 0)

/-- A projection with linear scale (2, 3), projected tie point (5, 7) and azimuth `az`, whose
transform has not been built yet. -/
def raw (az : ℚ) : ossimMapProjection ℚ ℕ :=
  { fresh with
    theMetersPerPixel := dpt 2 3
    theDegreesPerPixel := dpt 2 3
    theUlEastingNorthing := dpt 5 7
    theUlGpt := gpt 7 5
    theImageToModelAzimuth := fin az }

/-- A projection for which only the angular pixel scale (1, 1) was supplied. -/
def angularOnly : ossimMapProjection ℚ ℕ :=
  { fresh with theDegreesPerPixel := dpt 1 1 }

/-- The concrete scenario of the spec: geographic projection, origin (0, 0), tie point
(10 N, 20 E) set through `setUlGpt`, angular scale (0.001, 0.001) set through
`setDecimalDegreesPerPixel`. -/
def scenario : ossimMapProjection ℚ ℕ :=
  ossimMapProjection.setDecimalDegreesPerPixel geographic
    (ossimMapProjection.setUlGpt geographic fresh (gpt 10 20)) (dpt (1 / 1000) (1 / 1000))

/-- The scenario of the spec with the two setters in the other order, the tie point last. -/
def scenarioTie : ossimMapProjection ℚ ℕ :=
  ossimMapProjection.setUlGpt geographic
    (ossimMapProjection.setDecimalDegreesPerPixel geographic fresh (dpt (1 / 1000) (1 / 1000)))
    (gpt 10 20)

/-- A projection on datum 0 with tie point (10 N, 20 E) and linear scale (2, 3), moved to
datum 1 by `setDatum` and resolved again by `update`. -/
def moved : ossimMapProjection ℚ ℕ :=
  ossimMapProjection.update shifting
    (ossimMapProjection.setDatum shifting
      (ossimMapProjection.setMetersPerPixel shifting
        (ossimMapProjection.setUlGpt shifting fresh (gpt 10 20)) (dpt 2 3))
      (some 1))

/-- The sample projection with its transform built, at azimuth 0. -/
def built : ossimMapProjection ℚ ℕ := ossimMapProjection.updateTransform geographic (raw 0)

/-- The comparison `==` of two doubles: a `nan` equals nothing. -/
def same (a b : Dbl ℚ) : Bool :=
  match a, b with
  | fin x, fin y => decide (x = y)
  | _, _ => false

/-- The comparison of two points, coordinate by coordinate. -/
def sameDpt (a b : ossimDpt ℚ) : Bool := same a.x b.x && same a.y b.y

/-- The comparison of two geodetic points, coordinate by coordinate and by datum. -/
def sameGpt (a b : ossimGpt ℚ ℕ) : Bool :=
  same a.lat b.lat && same a.lon b.lon && same a.hgt b.hgt && decide (a.datum = b.datum)

/-- The comparison of two transforms, entry by entry. -/
def sameMatrix (a b : ossimMatrix4x4 ℚ) : Bool := decide (∀ r j, same (a r j) (b r j) = true)

/-- Exact comparisons, whatever the comparison type. -/
def exact : Comparisons ℚ ℕ where
  gptNe := fun a b => !sameGpt a b
  dptNe := fun a b => !sameDpt a b
  matrixNe := fun a b => !sameMatrix a b
  ellipsoidIsEqualTo := fun a b _ => same a.theA b.theA && same a.theB b.theB
  gptIsEqualTo := fun a b _ => sameGpt a b
  dptIsEqualTo := fun a b _ => sameDpt a b
  matrixIsEqualTo := sameMatrix
  datumIsEqualTo := fun d e _ => decide (d = e)

/-- The sample projection resolved by `update`. -/
def resolved : ossimMapProjection ℚ ℕ := ossimMapProjection.update geographic (raw 0)

/-- The sample projection at twice the pixel size, linear scale (4, 6), resolved by
`update`. -/
def coarser : ossimMapProjection ℚ ℕ :=
  ossimMapProjection.update geographic { raw 0 with theMetersPerPixel := dpt 4 6 }

/-- The sample projection with its projected tie point three million kilometres east. -/
def far : ossimMapProjection ℚ ℕ :=
  { raw 0 with theUlEastingNorthing := dpt 3000000000 0 }

/-- A projection of the planar kernel with origin (0 N, 0.005 E), which the kernel sends to the
model point (1/2, 0), with no false easting or northing, linear scale (1, 1) and projected tie
point (16/5, 0). -/
def offOrigin : ossimMapProjection ℚ ℕ :=
  { raw 0 with
    theOrigin := gpt 0 (1 / 200)
    theMetersPerPixel := dpt 1 1
    theUlEastingNorthing := dpt (16 / 5) 0 }

/-- A projection of the planar kernel with the projected tie point (5, 7) set through
`setUlEastingNorthing` and the linear scale (2, 3) set through `setMetersPerPixel`, resolved by
`update`. -/
def surveyed : ossimMapProjection ℚ ℕ :=
  ossimMapProjection.update planar
    (ossimMapProjection.setMetersPerPixel planar
      (ossimMapProjection.setUlEastingNorthing planar fresh (dpt 5 7)) (dpt 2 3))

/-- The sample projection `surveyed` saved and loaded again into a fresh projection of the
planar kernel. -/
def reloaded : ossimMapProjection ℚ ℕ :=
  ossimMapProjection.loadState planar 0 fresh (ossimMapProjection.saveState planar surveyed).1

/-- The sample projection `resolved` saved and loaded again into a fresh projection of the
geographic kernel. -/
def restored : ossimMapProjection ℚ ℕ :=
  ossimMapProjection.loadState geographic 0 fresh
    (ossimMapProjection.saveState geographic resolved).1

/-- A keyword list with the linear scale (2, 3) and the projected tie point (5, 7), both in
meters, and the sixteen elements of the transform of scale (4, 6) and tie point (10, 20). -/
def keywords : ossimKeywordlist ℚ ℕ :=
  { ossimKeywordlist.empty with
    PIXEL_SCALE_UNITS_KW := some OSSIM_METERS
    PIXEL_SCALE_XY_KW := some (dpt 2 3)
    TIE_POINT_UNITS_KW := some OSSIM_METERS
    TIE_POINT_XY_KW := some (dpt 5 7)
    IMAGE_MODEL_TRANSFORM_MATRIX_KW :=
      some [fin 4, fin 0, fin 0, fin 10, fin 0, fin 6, fin 0, fin 20,
        fin 0, fin 0, fin 1, fin 0, fin 0, fin 0, fin 0, fin 1] }

/-- The keyword list `keywords` with a transform of three elements. -/
def malformed : ossimKeywordlist ℚ ℕ :=
  { keywords with IMAGE_MODEL_TRANSFORM_MATRIX_KW := some [fin 1, fin 2, fin 3] }

/-- The sample projection with its transform built, with the declared unit unknown and no PCS
code. -/
def unitless : ossimMapProjection ℚ ℕ :=
  { built with theProjectionUnits := OSSIM_UNIT_UNKNOWN }

end Sample

/-! ## Arithmetic of doubles -/

namespace Dbl

@[simp] theorem fin_add_fin (x y : K) : (fin x + fin y : Dbl K) = fin (x + y) := rfl
@[simp] theorem fin_sub_fin (x y : K) : (fin x - fin y : Dbl K) = fin (x - y) := rfl
@[simp] theorem fin_mul_fin (x y : K) : (fin x * fin y : Dbl K) = fin (x * y) := rfl
@[simp] theorem neg_fin (x : K) : (-(fin x) : Dbl K) = fin (-x) := rfl
@[simp] theorem neg_nan : (-(nan : Dbl K)) = nan := rfl
@[simp] theorem nan_add (a : Dbl K) : nan + a = nan := rfl
@[simp] theorem add_nan (a : Dbl K) : a + nan = nan := by cases a <;> rfl
@[simp] theorem nan_sub (a : Dbl K) : nan - a = nan := rfl
@[simp] theorem sub_nan (a : Dbl K) : a - nan = nan := by cases a <;> rfl
@[simp] theorem nan_mul (a : Dbl K) : nan * a = nan := rfl
@[simp] theorem mul_nan (a : Dbl K) : a * nan = nan := by cases a <;> rfl
@[simp] theorem nan_div (a : Dbl K) : nan / a = nan := rfl
@[simp] theorem div_nan (a : Dbl K) : a / nan = nan := by cases a <;> rfl
@[simp] theorem fin_div_fin (x y : K) :
    (fin x / fin y : Dbl K) = if y = 0 then nan else fin (x / y) := rfl
@[simp] theorem map_fin (f : K → K) (x : K) : (fin x).map f = fin (f x) := rfl
@[simp] theorem map_nan (f : K → K) : (nan : Dbl K).map f = nan := rfl
@[simp] theorem isnan_fin (x : K) : (fin x).isnan = false := rfl
@[simp] theorem isnan_nan : (nan : Dbl K).isnan = true := rfl
@[simp] theorem ge_fin_fin (x y : K) : (fin x).ge (fin y) = decide (y ≤ x) := rfl
@[simp] theorem nan_ge (a : Dbl K) : (nan : Dbl K).ge a = false := rfl

end Dbl

namespace ossimMapProjection

/-! ## The build rule of the transform -/

/-- C1: after `updateTransform` the forward matrix is the build-rule matrix: the four
scale-and-rotation entries are `sx cos az`, `sy sin az`, `-sx sin az`, `sy cos az`, the
translation column holds the projected tie point, and every other entry is that of the
identity.  The math library is asked only that `cosd 0 = 1` and `sind 0 = 0`. -/
theorem updateTransform_is_build_rule (S : Services K D) (hcos : S.cosd 0 = 1)
    (hsin : S.sind 0 = 0) (s : ossimMapProjection K D) :
    (updateTransform S s).theModelTransform 0 0
        = s.theMetersPerPixel.x * s.theImageToModelAzimuth.map S.cosd ∧
    (updateTransform S s).theModelTransform 0 1
        = s.theMetersPerPixel.y * s.theImageToModelAzimuth.map S.sind ∧
    (updateTransform S s).theModelTransform 1 0
        = -s.theMetersPerPixel.x * s.theImageToModelAzimuth.map S.sind ∧
    (updateTransform S s).theModelTransform 1 1
        = s.theMetersPerPixel.y * s.theImageToModelAzimuth.map S.cosd ∧
    (updateTransform S s).theModelTransform 0 3 = s.theUlEastingNorthing.x ∧
    (updateTransform S s).theModelTransform 1 3 = s.theUlEastingNorthing.y ∧
    ∀ r j : Fin 4, ¬ (r = 0 ∧ j = 0) → ¬ (r = 0 ∧ j = 1) → ¬ (r = 1 ∧ j = 0) →
      ¬ (r = 1 ∧ j = 1) → ¬ (r = 0 ∧ j = 3) → ¬ (r = 1 ∧ j = 3) →
      (updateTransform S s).theModelTransform r j = ossimMatrix4x4.identity r j := by
  by_cases haz : s.theImageToModelAzimuth = fin 0
  · simp only [updateTransform, ossimMatrix4x4.set, haz, hcos, hsin, Dbl.map_fin, ne_eq,
      not_true_eq_false, if_false]
    refine ⟨by simp, by simp, by simp, by simp, by simp, by simp, ?_⟩
    intro r j h1 h2 h3 h4 h5 h6
    rw [if_neg h6, if_neg h5, if_neg h4, if_neg h3, if_neg h2, if_neg h1]
  · simp only [updateTransform, ossimMatrix4x4.set, haz, ne_eq, not_false_eq_true, if_true]
    refine ⟨by simp, by simp, by simp, by simp, by simp, by simp, ?_⟩
    intro r j h1 h2 h3 h4 h5 h6
    rw [if_neg h6, if_neg h5, if_neg h4, if_neg h3, if_neg h2, if_neg h1]

/-- The build rule on a concrete state: scale (2, 3), tie point (5, 7), azimuth 90. -/
theorem updateTransform_is_build_rule_witness :
    Sample.geographic.cosd 0 = 1 ∧ Sample.geographic.sind 0 = 0 ∧
    (updateTransform Sample.geographic (Sample.raw 90)).theModelTransform 0 1
        = (Sample.raw 90).theMetersPerPixel.y
          * (Sample.raw 90).theImageToModelAzimuth.map Sample.geographic.sind :=
  ⟨by norm_num [Sample.geographic, Sample.cosd], by norm_num [Sample.geographic, Sample.sind],
    (updateTransform_is_build_rule Sample.geographic
      (by norm_num [Sample.geographic, Sample.cosd])
      (by norm_num [Sample.geographic, Sample.sind]) (Sample.raw 90)).2.1⟩

end ossimMapProjection

/-! ## The inverse of a transform of the build-rule shape -/

theorem affM_mul_affX (a b c d tx ty : K) (h : a * d - b * c ≠ 0) :
    affM a b c d tx ty * affX a b c d tx ty = 1 := by
  ext r j
  fin_cases r <;> fin_cases j <;>
    simp [affM, affX, Matrix.mul_apply, Fin.sum_univ_four] <;> field_simp <;> ring

theorem affX_mul_affM (a b c d tx ty : K) (h : a * d - b * c ≠ 0) :
    affX a b c d tx ty * affM a b c d tx ty = 1 :=
  (Matrix.mul_eq_one_comm).1 (affM_mul_affX a b c d tx ty h)

theorem affM_det_ne_zero (a b c d tx ty : K) (h : a * d - b * c ≠ 0) :
    (affM a b c d tx ty).det ≠ 0 := by
  have h1 := congrArg Matrix.det (affM_mul_affX a b c d tx ty h)
  rw [Matrix.det_mul, Matrix.det_one] at h1
  intro h0
  rw [h0, zero_mul] at h1
  exact zero_ne_one h1

theorem affM_adjugate (a b c d tx ty : K) (h : a * d - b * c ≠ 0) (r j : Fin 4) :
    ((affM a b c d tx ty).det)⁻¹ * (affM a b c d tx ty).adjugate r j
      = affX a b c d tx ty r j := by
  have h2 : (affM a b c d tx ty)⁻¹ = affX a b c d tx ty :=
    Matrix.inv_eq_right_inv (affM_mul_affX a b c d tx ty h)
  rw [← h2, Matrix.inv_def, Ring.inverse_eq_inv']
  simp [Matrix.smul_apply]

namespace ossimMatrix4x4

theorem entries_ofFinite (m : Matrix (Fin 4) (Fin 4) K) : (ofFinite m).entries = m := by
  ext r j
  simp [entries, ofFinite]

theorem isFinite_ofFinite (m : Matrix (Fin 4) (Fin 4) K) : (ofFinite m).isFinite = true := by
  simp [isFinite, ofFinite]

theorem mul_ofFinite (a b : Matrix (Fin 4) (Fin 4) K) :
    (ofFinite a).mul (ofFinite b) = ofFinite (a * b) := by
  funext r j
  simp [mul, ofFinite, Matrix.mul_apply, Fin.sum_univ_four]

theorem identity_eq_ofFinite : (identity : ossimMatrix4x4 K) = ofFinite 1 := by
  funext r j
  by_cases h : r = j <;> simp [identity, ofFinite, h, Matrix.one_apply]

/-- The inverse of a finite transform of the build-rule shape, in closed form. -/
theorem i_affM (a b c d tx ty : K) (h : a * d - b * c ≠ 0) :
    (ofFinite (affM a b c d tx ty)).i = ofFinite (affX a b c d tx ty) := by
  funext r j
  simp only [i, entries_ofFinite, isFinite_ofFinite, true_and]
  rw [if_pos (affM_det_ne_zero a b c d tx ty h)]
  simp only [ofFinite, affM_adjugate a b c d tx ty h]

/-- The six assignments of `updateTransform` on finite values give a matrix of the build-rule
shape. -/
theorem set_chain (a b c d tx ty : K) :
    (((((((identity : ossimMatrix4x4 K).set 0 0 (fin a)).set 0 1 (fin b)).set 1 0 (fin c)).set
      1 1 (fin d)).set 0 3 (fin tx)).set 1 3 (fin ty)) = ofFinite (affM a b c d tx ty) := by
  funext r j
  fin_cases r <;> fin_cases j <;> simp [set, identity, ofFinite, affM]

end ossimMatrix4x4

namespace ossimMapProjection

/-! ## Invariant 1: the transform follows the stored parameters -/

theorem transformIsCurrent_updateTransform (S : Services K D) (s : ossimMapProjection K D) :
    transformIsCurrent S (updateTransform S s) := rfl

theorem transformIsCurrent_update (S : Services K D) (s : ossimMapProjection K D) :
    transformIsCurrent S (update S s) := by
  unfold update
  exact transformIsCurrent_updateTransform S _

/-- C2, the claim as stated fails: `setDatum` with a null datum returns at its guard and leaves
a freshly constructed projection with the identity transform, while the build rule gives a
`nan` scale entry; and `applyRotation(90)` on the built transform of scale (2, 3) stores the
entry `m[1][0] = 0` where the build rule at the new azimuth 90 gives `-2`. -/
theorem mutators_rebuild_transform_counterexample :
    ¬ transformIsCurrent Sample.geographic (setDatum Sample.geographic Sample.fresh none) ∧
    ¬ transformIsCurrent Sample.geographic
        (applyRotation Sample.geographic
          (updateTransform Sample.geographic (Sample.raw 0)) (fin 90)) := by
  constructor
  · intro h
    have h00 := congrFun (congrFun h 0) 0
    simp [setDatum, Sample.fresh, new, updateTransform, ossimMatrix4x4.set,
      ossimMatrix4x4.identity, ossimDpt.makeNan] at h00
  · intro h
    have h10 := congrFun (congrFun h 1) 0
    simp [applyRotation, Sample.raw, Sample.fresh, new, updateTransform, ossimMatrix4x4.set,
      ossimMatrix4x4.identity, Sample.dpt, Sample.geographic, Sample.cosd, Sample.sind,
      Dbl.ge] at h10
    norm_num [Sample.sind] at h10

/-- C2, amended: every mutating operation that reaches `update` or `updateTransform` leaves the
stored forward transform equal to the build-rule matrix of the stored scale, azimuth and tie
point: `setOrigin`, `setEllipsoid`, `setAB`, `setDatum` with a datum other than the current one,
`setMetersPerPixel`, `setDecimalDegreesPerPixel`, `setUlGpt`, `setUlEastingNorthing`,
`applyScale`, `snapTiePointTo` and `snapTiePointToOrigin`.  A `setDatum` that returns at its
guard keeps the transform current when it was current before. -/
theorem mutators_rebuild_transform [FloorRing K] (S : Services K D)
    (s : ossimMapProjection K D) (origin ulGpt : ossimGpt K D) (ellipsoid : ossimEllipsoid K)
    (a b multiple : Dbl K) (d : D) (datum : Option D)
    (resolution ulEastingNorthing scale : ossimDpt K) (recenter : Bool)
    (unitType : ossimUnitType) (hd : s.theDatum ≠ some d) :
    transformIsCurrent S (setOrigin S s origin) ∧
    transformIsCurrent S (setEllipsoid S s ellipsoid) ∧
    transformIsCurrent S (setAB S s a b) ∧
    transformIsCurrent S (setDatum S s (some d)) ∧
    (transformIsCurrent S s → transformIsCurrent S (setDatum S s datum)) ∧
    transformIsCurrent S (setMetersPerPixel S s resolution) ∧
    transformIsCurrent S (setDecimalDegreesPerPixel S s resolution) ∧
    transformIsCurrent S (setUlGpt S s ulGpt) ∧
    transformIsCurrent S (setUlEastingNorthing S s ulEastingNorthing) ∧
    transformIsCurrent S (applyScale S s scale recenter) ∧
    transformIsCurrent S (snapTiePointTo S s multiple unitType) ∧
    transformIsCurrent S (snapTiePointToOrigin S s) := by
  refine ⟨transformIsCurrent_update S _, transformIsCurrent_update S _,
    transformIsCurrent_update S _, ?_, ?_, transformIsCurrent_updateTransform S _,
    transformIsCurrent_updateTransform S _, transformIsCurrent_updateTransform S _,
    transformIsCurrent_updateTransform S _, transformIsCurrent_updateTransform S _,
    transformIsCurrent_updateTransform S _, transformIsCurrent_updateTransform S _⟩
  · simp only [setDatum, if_neg hd]
    exact transformIsCurrent_update S _
  · intro hs
    cases datum with
    | none => exact hs
    | some e =>
      by_cases he : s.theDatum = some e
      · simpa only [setDatum, if_pos he] using hs
      · simp only [setDatum, if_neg he]
        exact transformIsCurrent_update S _

/-- The amended C2 on a concrete state: the sample projection on datum 0, moved to datum 1. -/
theorem mutators_rebuild_transform_witness :
    (Sample.raw 90).theDatum ≠ some 1 ∧
    transformIsCurrent Sample.geographic (setDatum Sample.geographic (Sample.raw 90) (some 1)) :=
  ⟨by simp [Sample.raw, Sample.fresh, new, Sample.gpt],
    (mutators_rebuild_transform Sample.geographic (Sample.raw 90) (Sample.gpt 0 0)
      (Sample.gpt 0 0) Sample.wgs84 (fin 1) (fin 1) (fin 1) 1 none (Sample.dpt 1 1)
      (Sample.dpt 1 1) (Sample.dpt 1 1) false OSSIM_DEGREES
      (by simp [Sample.raw, Sample.fresh, new, Sample.gpt])).2.2.2.1⟩

/-! ## The stored inverse -/

/-- With `cosd 0 = 1` and `sind 0 = 0` the shortcut that `updateTransform` takes at azimuth 0
is the library value. -/
theorem updateTransform_eq (S : Services K D) (hcos : S.cosd 0 = 1) (hsin : S.sind 0 = 0)
    (s : ossimMapProjection K D) :
    updateTransform S s =
      { s with
        theModelTransform :=
          ((((((ossimMatrix4x4.identity : ossimMatrix4x4 K).set 0 0
            (s.theMetersPerPixel.x * s.theImageToModelAzimuth.map S.cosd)).set 0 1
            (s.theMetersPerPixel.y * s.theImageToModelAzimuth.map S.sind)).set 1 0
            (-s.theMetersPerPixel.x * s.theImageToModelAzimuth.map S.sind)).set 1 1
            (s.theMetersPerPixel.y * s.theImageToModelAzimuth.map S.cosd)).set 0 3
            s.theUlEastingNorthing.x).set 1 3 s.theUlEastingNorthing.y
        theInverseModelTransform :=
          (((((((ossimMatrix4x4.identity : ossimMatrix4x4 K).set 0 0
            (s.theMetersPerPixel.x * s.theImageToModelAzimuth.map S.cosd)).set 0 1
            (s.theMetersPerPixel.y * s.theImageToModelAzimuth.map S.sind)).set 1 0
            (-s.theMetersPerPixel.x * s.theImageToModelAzimuth.map S.sind)).set 1 1
            (s.theMetersPerPixel.y * s.theImageToModelAzimuth.map S.cosd)).set 0 3
            s.theUlEastingNorthing.x).set 1 3 s.theUlEastingNorthing.y).i } := by
  by_cases haz : s.theImageToModelAzimuth = fin 0
  · simp [updateTransform, haz, hcos, hsin]
  · simp [updateTransform, haz]

/-- The two matrices that `updateTransform` stores when the geometry is finite. -/
theorem updateTransform_finite (S : Services K D) (hcos : S.cosd 0 = 1) (hsin : S.sind 0 = 0)
    (s : ossimMapProjection K D) (sx sy tx ty az : K)
    (hm : s.theMetersPerPixel = ⟨fin sx, fin sy⟩) (hx : sx ≠ 0) (hy : sy ≠ 0)
    (ht : s.theUlEastingNorthing = ⟨fin tx, fin ty⟩) (ha : s.theImageToModelAzimuth = fin az)
    (hc : S.cosd az * S.cosd az + S.sind az * S.sind az = 1) :
    (updateTransform S s).theModelTransform
      = ofFinite (affM (sx * S.cosd az) (sy * S.sind az) (-sx * S.sind az) (sy * S.cosd az)
          tx ty) ∧
    (updateTransform S s).theInverseModelTransform
      = ofFinite (affX (sx * S.cosd az) (sy * S.sind az) (-sx * S.sind az) (sy * S.cosd az)
          tx ty) := by
  have hdet : (sx * S.cosd az) * (sy * S.cosd az) - (sy * S.sind az) * (-sx * S.sind az) ≠ 0 := by
    have : (sx * S.cosd az) * (sy * S.cosd az) - (sy * S.sind az) * (-sx * S.sind az)
        = sx * sy * (S.cosd az * S.cosd az + S.sind az * S.sind az) := by ring
    rw [this, hc, mul_one]
    exact mul_ne_zero hx hy
  rw [updateTransform_eq S hcos hsin]
  simp only [hm, ht, ha, Dbl.map_fin, Dbl.fin_mul_fin, Dbl.neg_fin, ossimMatrix4x4.set_chain]
  exact ⟨trivial, ossimMatrix4x4.i_affM _ _ _ _ _ _ hdet⟩

theorem hasFiniteGeometry_updateTransform (S : Services K D) (s : ossimMapProjection K D) :
    hasFiniteGeometry S (updateTransform S s) ↔ hasFiniteGeometry S s := Iff.rfl

/-- After `updateTransform` on a finite geometry the stored inverse times the stored forward
transform is the identity. -/
theorem inverseIsCurrent_updateTransform (S : Services K D) (hcos : S.cosd 0 = 1)
    (hsin : S.sind 0 = 0) (s : ossimMapProjection K D) (h : hasFiniteGeometry S s) :
    inverseIsCurrent (updateTransform S s) := by
  obtain ⟨sx, sy, tx, ty, az, hm, hx, hy, ht, ha, hc⟩ := h
  obtain ⟨h1, h2⟩ := updateTransform_finite S hcos hsin s sx sy tx ty az hm hx hy ht ha hc
  have hdet : (sx * S.cosd az) * (sy * S.cosd az) - (sy * S.sind az) * (-sx * S.sind az) ≠ 0 := by
    have : (sx * S.cosd az) * (sy * S.cosd az) - (sy * S.sind az) * (-sx * S.sind az)
        = sx * sy * (S.cosd az * S.cosd az + S.sind az * S.sind az) := by ring
    rw [this, hc, mul_one]
    exact mul_ne_zero hx hy
  unfold inverseIsCurrent
  rw [h1, h2, ossimMatrix4x4.mul_ofFinite, affX_mul_affM _ _ _ _ _ _ hdet,
    ossimMatrix4x4.identity_eq_ofFinite]

theorem raw_hasFiniteGeometry :
    hasFiniteGeometry Sample.geographic (Sample.raw 0) :=
  ⟨2, 3, 5, 7, 0, rfl, by norm_num, by norm_num, rfl, rfl,
    by norm_num [Sample.geographic, Sample.cosd, Sample.sind]⟩

theorem sample_cosd_zero : Sample.geographic.cosd 0 = 1 := by
  norm_num [Sample.geographic, Sample.cosd]

theorem sample_sind_zero : Sample.geographic.sind 0 = 0 := by
  norm_num [Sample.geographic, Sample.sind]

/-- No matrix is a left inverse of a transform whose first column of the linear part is zero. -/
theorem mul_zero_column_ne (x m : ossimMatrix4x4 K) (h0 : m 0 0 = fin 0) (h1 : m 1 0 = fin 0)
    (h2 : m 2 0 = fin 0) (h3 : m 3 0 = fin 0) : x.mul m ≠ ossimMatrix4x4.identity := by
  intro h
  have h00 := congrFun (congrFun h 0) 0
  simp only [ossimMatrix4x4.mul, h0, h1, h2, h3, ossimMatrix4x4.identity] at h00
  generalize x 0 0 = a at h00
  generalize x 0 1 = b at h00
  generalize x 0 2 = c at h00
  generalize x 0 3 = d at h00
  cases a <;> cases b <;> cases c <;> cases d <;> simp at h00

/-- C3, the claim as stated fails.  The state built from scale (2, 3) and tie point (5, 7) has
`inverse * forward = identity`; after `applyRotation(90)` the forward matrix has changed and the
inverse has not, and after `applyScale((0, 0))` the scale is zero and the transform has no
inverse. -/
theorem inverse_recomputed_counterexample :
    inverseIsCurrent (updateTransform Sample.geographic (Sample.raw 0)) ∧
    ¬ inverseIsCurrent
        (applyRotation Sample.geographic
          (updateTransform Sample.geographic (Sample.raw 0)) (fin 90)) ∧
    ¬ inverseIsCurrent
        (applyScale Sample.geographic
          (updateTransform Sample.geographic (Sample.raw 0)) (Sample.dpt 0 0) false) := by
  refine ⟨inverseIsCurrent_updateTransform _ sample_cosd_zero sample_sind_zero _
    raw_hasFiniteGeometry, ?_, ?_⟩
  · apply mul_zero_column_ne <;>
      simp [applyRotation, Sample.raw, Sample.fresh, new, updateTransform, ossimMatrix4x4.set,
        ossimMatrix4x4.identity, Sample.dpt, Sample.geographic, Sample.cosd, Sample.sind]
  · apply mul_zero_column_ne <;>
      simp [applyScale, Sample.raw, Sample.fresh, new, updateTransform, ossimMatrix4x4.set,
        ossimMatrix4x4.identity, Sample.dpt, Sample.geographic]

/-- C3, amended: `updateTransform`, `applyScale`, `setUlEastingNorthing`, `setUlGpt` and
`setMetersPerPixel` recompute the inverse: whenever the state that the operation leaves has a
finite non-zero pixel scale, a finite projected tie point and a finite azimuth (at which the
math library gives `cosd^2 + sind^2 = 1`), its stored inverse times its stored forward transform
is the identity, whatever the state before the call. -/
theorem inverse_recomputed (S : Services K D) (hcos : S.cosd 0 = 1) (hsin : S.sind 0 = 0)
    (s : ossimMapProjection K D) (scale resolution ulEastingNorthing : ossimDpt K)
    (recenter : Bool) (ulGpt : ossimGpt K D) :
    (hasFiniteGeometry S (updateTransform S s) → inverseIsCurrent (updateTransform S s)) ∧
    (hasFiniteGeometry S (applyScale S s scale recenter) →
      inverseIsCurrent (applyScale S s scale recenter)) ∧
    (hasFiniteGeometry S (setUlEastingNorthing S s ulEastingNorthing) →
      inverseIsCurrent (setUlEastingNorthing S s ulEastingNorthing)) ∧
    (hasFiniteGeometry S (setUlGpt S s ulGpt) → inverseIsCurrent (setUlGpt S s ulGpt)) ∧
    (hasFiniteGeometry S (setMetersPerPixel S s resolution) →
      inverseIsCurrent (setMetersPerPixel S s resolution)) :=
  ⟨fun h => inverseIsCurrent_updateTransform S hcos hsin _ h,
    fun h => inverseIsCurrent_updateTransform S hcos hsin _ h,
    fun h => inverseIsCurrent_updateTransform S hcos hsin _ h,
    fun h => inverseIsCurrent_updateTransform S hcos hsin _ h,
    fun h => inverseIsCurrent_updateTransform S hcos hsin _ h⟩

/-- The amended C3 on a concrete state: the sample projection rescaled by (2, 2). -/
theorem inverse_recomputed_witness :
    Sample.geographic.cosd 0 = 1 ∧ Sample.geographic.sind 0 = 0 ∧
    hasFiniteGeometry Sample.geographic
      (applyScale Sample.geographic (Sample.raw 0) (Sample.dpt 2 2) false) ∧
    inverseIsCurrent (applyScale Sample.geographic (Sample.raw 0) (Sample.dpt 2 2) false) :=
  have hg : hasFiniteGeometry Sample.geographic
      (applyScale Sample.geographic (Sample.raw 0) (Sample.dpt 2 2) false) :=
    ⟨4, 6, 5, 7, 0, by simp [applyScale, updateTransform, Sample.raw, Sample.dpt]; norm_num,
      by norm_num, by norm_num, rfl, rfl,
      by norm_num [Sample.geographic, Sample.cosd, Sample.sind]⟩
  ⟨sample_cosd_zero, sample_sind_zero, hg,
    (inverse_recomputed Sample.geographic sample_cosd_zero sample_sind_zero (Sample.raw 0)
      (Sample.dpt 2 2) (Sample.dpt 1 1) (Sample.dpt 1 1) false (Sample.gpt 0 0)).2.1 hg⟩

/-! ## Rotation -/

/-- C4, the code at the failing input: on the transform built from scale (2, 3) at azimuth 0,
`applyRotation(90)` followed by `applyRotation(-90)` leaves the linear part `0 3; 0 3` where it
was `2 0; 0 3`, while the stored azimuth is back at 0. -/
theorem applyRotation_round_trip_fails :
    Sample.built.theModelTransform 0 0 = fin 2 ∧
    Sample.built.theModelTransform 0 1 = fin 0 ∧
    Sample.built.theModelTransform 1 0 = fin 0 ∧
    Sample.built.theModelTransform 1 1 = fin 3 ∧
    (applyRotation Sample.geographic (applyRotation Sample.geographic Sample.built (fin 90))
      (fin (-90))).theModelTransform 0 0 = fin 0 ∧
    (applyRotation Sample.geographic (applyRotation Sample.geographic Sample.built (fin 90))
      (fin (-90))).theModelTransform 0 1 = fin 3 ∧
    (applyRotation Sample.geographic (applyRotation Sample.geographic Sample.built (fin 90))
      (fin (-90))).theModelTransform 1 0 = fin 0 ∧
    (applyRotation Sample.geographic (applyRotation Sample.geographic Sample.built (fin 90))
      (fin (-90))).theModelTransform 1 1 = fin 3 ∧
    (applyRotation Sample.geographic (applyRotation Sample.geographic Sample.built (fin 90))
      (fin (-90))).theImageToModelAzimuth = fin 0 := by
  simp [applyRotation, Sample.built, Sample.raw, Sample.fresh, new, updateTransform,
    ossimMatrix4x4.set, ossimMatrix4x4.identity, Sample.dpt, Sample.geographic, Sample.cosd,
    Sample.sind]
  norm_num

/-- C5, the code at two failing inputs: from azimuth 0, the call `applyRotation(-90)` stores
the azimuth `-90` and the call `applyRotation(720)` stores `360`; neither lies in [0, 360). -/
theorem applyRotation_azimuth_not_normalized :
    Sample.built.theImageToModelAzimuth = fin 0 ∧
    (applyRotation Sample.geographic Sample.built (fin (-90))).theImageToModelAzimuth
      = fin (-90) ∧
    (applyRotation Sample.geographic Sample.built (fin 720)).theImageToModelAzimuth
      = fin 360 := by
  simp [applyRotation, Sample.built, Sample.raw, Sample.fresh, new, updateTransform]
  norm_num

/-! ## Pixel space and model space -/

theorem imageToModel_eq (S : Services K D) (t : ossimMapProjection K D) (p : ossimDpt K) :
    imageToModel S t p =
      match conversionBase t.theProjectionUnits with
      | none => affineApply t.theModelTransform p
      | some b => convertPoint S (affineApply t.theModelTransform p) b t.theProjectionUnits := by
  unfold imageToModel
  cases t.theProjectionUnits <;> rfl

theorem modelToImage_eq (S : Services K D) (t : ossimMapProjection K D) (q : ossimDpt K) :
    modelToImage S t q =
      affineApply t.theInverseModelTransform
        (match conversionBase t.theProjectionUnits with
          | none => q
          | some b => convertPoint S q t.theProjectionUnits b) := by
  unfold modelToImage
  cases t.theProjectionUnits <;> rfl

/-- The inverse of a build-rule transform undoes it on finite points. -/
theorem affineApply_affX_affM (a b c d tx ty x y : K) (h : a * d - b * c ≠ 0) :
    affineApply (ofFinite (affX a b c d tx ty))
      (affineApply (ofFinite (affM a b c d tx ty)) ⟨fin x, fin y⟩) = ⟨fin x, fin y⟩ := by
  simp [affineApply, ofFinite, affM, affX]
  constructor <;> field_simp <;> ring

/-- A build-rule transform undoes its inverse on finite points. -/
theorem affineApply_affM_affX (a b c d tx ty x y : K) (h : a * d - b * c ≠ 0) :
    affineApply (ofFinite (affM a b c d tx ty))
      (affineApply (ofFinite (affX a b c d tx ty)) ⟨fin x, fin y⟩) = ⟨fin x, fin y⟩ := by
  simp [affineApply, ofFinite, affM, affX]
  constructor <;> field_simp <;> ring

/-- The inverse of a build-rule transform sends the translation column to the pixel (0, 0). -/
theorem affineApply_affX_tie (a b c d tx ty : K) (h : a * d - b * c ≠ 0) :
    affineApply (ofFinite (affX a b c d tx ty)) ⟨fin tx, fin ty⟩ = ⟨fin 0, fin 0⟩ := by
  simp [affineApply, ofFinite, affX]
  constructor <;> field_simp <;> ring

/-- The determinant of the linear part of a build-rule transform on a finite geometry. -/
theorem build_rule_det_ne_zero (S : Services K D) (sx sy az : K) (hx : sx ≠ 0) (hy : sy ≠ 0)
    (hc : S.cosd az * S.cosd az + S.sind az * S.sind az = 1) :
    (sx * S.cosd az) * (sy * S.cosd az) - (sy * S.sind az) * (-sx * S.sind az) ≠ 0 := by
  have : (sx * S.cosd az) * (sy * S.cosd az) - (sy * S.sind az) * (-sx * S.sind az)
      = sx * sy * (S.cosd az * S.cosd az + S.sind az * S.sind az) := by ring
  rw [this, hc, mul_one]
  exact mul_ne_zero hx hy

/-- C9: in a state left by `updateTransform` with a finite non-zero pixel scale (finite tie
point and azimuth), whatever the declared unit, `modelToImage(imageToModel(p)) = p` for every
pixel point `p` with finite coordinates, provided the unit converter undoes itself between the
declared unit and the native unit it is converted from (nothing is asked for the native units
unknown, degrees and meters). -/
theorem pixel_model_round_trip (S : Services K D) (hcos : S.cosd 0 = 1) (hsin : S.sind 0 = 0)
    (s : ossimMapProjection K D) (hg : hasFiniteGeometry S s)
    (hconv : ∀ b, conversionBase s.theProjectionUnits = some b →
      ∀ v, S.unitConvert (S.unitConvert v b s.theProjectionUnits) s.theProjectionUnits b = v)
    (x y : K) :
    modelToImage S (updateTransform S s) (imageToModel S (updateTransform S s) ⟨fin x, fin y⟩)
      = ⟨fin x, fin y⟩ := by
  obtain ⟨sx, sy, tx, ty, az, hm, hx, hy, ht, ha, hc⟩ := hg
  obtain ⟨h1, h2⟩ := updateTransform_finite S hcos hsin s sx sy tx ty az hm hx hy ht ha hc
  have hdet := build_rule_det_ne_zero S sx sy az hx hy hc
  have hu : (updateTransform S s).theProjectionUnits = s.theProjectionUnits := rfl
  rw [modelToImage_eq, imageToModel_eq, h1, h2, hu]
  cases hb : conversionBase s.theProjectionUnits with
  | none => exact affineApply_affX_affM _ _ _ _ _ _ x y hdet
  | some b =>
    simp only [convertPoint, hconv b hb]
    exact affineApply_affX_affM _ _ _ _ _ _ x y hdet

/-- C9 on a concrete state: the sample projection declared in minutes of arc, pixel (4, 9). -/
theorem pixel_model_round_trip_witness :
    Sample.geographic.cosd 0 = 1 ∧ Sample.geographic.sind 0 = 0 ∧
    hasFiniteGeometry Sample.geographic
      { Sample.raw 90 with theProjectionUnits := OSSIM_MINUTES } ∧
    modelToImage Sample.geographic
      (updateTransform Sample.geographic
        { Sample.raw 90 with theProjectionUnits := OSSIM_MINUTES })
      (imageToModel Sample.geographic
        (updateTransform Sample.geographic
          { Sample.raw 90 with theProjectionUnits := OSSIM_MINUTES }) ⟨fin 4, fin 9⟩)
      = ⟨fin 4, fin 9⟩ :=
  have hg : hasFiniteGeometry Sample.geographic
      { Sample.raw 90 with theProjectionUnits := OSSIM_MINUTES } :=
    ⟨2, 3, 5, 7, 90, rfl, by norm_num, by norm_num, rfl, rfl,
      by norm_num [Sample.geographic, Sample.cosd, Sample.sind]⟩
  ⟨sample_cosd_zero, sample_sind_zero, hg,
    pixel_model_round_trip Sample.geographic sample_cosd_zero sample_sind_zero _ hg
      (by
        intro b hb v
        simp only [conversionBase, Option.some.injEq] at hb
        subst hb
        cases v <;> simp [Sample.geographic, Sample.unitConvert])
      4 9⟩

theorem sample_sqrt_mul_self (q : ℚ) : Sample.sqrt (q * q) = |q| := by
  unfold Sample.sqrt
  rw [Rat.mul_self_num, Rat.mul_self_den, Int.natAbs_mul, Nat.sqrt_eq, Nat.sqrt_eq]
  have h1 : ((q.num.natAbs : ℕ) : ℚ) = |(q.num : ℚ)| := by
    rw [← Int.cast_abs, Int.abs_eq_natAbs, Int.cast_natCast]
  have h2 : |q| = |(q.num : ℚ)| / (q.den : ℚ) := by
    conv_lhs => rw [← Rat.num_div_den q]
    rw [abs_div, Nat.abs_cast]
  rw [h1, h2]

theorem sample_sqrt_millionth : Sample.sqrt (1 / 1000000) = 1 / 1000 := by
  have h : (1 / 1000000 : ℚ) = (1 / 1000) * (1 / 1000) := by norm_num
  rw [h, sample_sqrt_mul_self]
  norm_num [abs_of_pos]

/-- The scenario of the spec as `updateTransform` sees it. -/
theorem scenario_fields :
    Sample.scenario.theMetersPerPixel = ⟨fin (1 / 1000), fin (1 / 1000)⟩ ∧
    Sample.scenario.theUlEastingNorthing = ⟨fin 20, fin 10⟩ ∧
    Sample.scenario.theUlGpt = Sample.gpt 10 20 ∧
    Sample.scenario.theImageToModelAzimuth = fin 0 ∧
    Sample.scenario.theProjectionUnits = OSSIM_METERS ∧
    Sample.scenario.theElevationLookupFlag = false ∧
    Sample.scenario.theDatum = some 0 := by
  simp [Sample.scenario, setDecimalDegreesPerPixel, computeMetersPerPixel, setUlGpt,
    updateTransform, Sample.fresh, new, Sample.gpt, Sample.dpt, Sample.geographic,
    ossimDpt.sub, ossimDpt.length, ossimDpt.lon, ossimDpt.lat]
  norm_num [sample_sqrt_millionth]

/-! ## World, model and pixel space -/

theorem transformsAreCurrent_updateTransform (S : Services K D) (s : ossimMapProjection K D) :
    transformsAreCurrent S (updateTransform S s) := ⟨rfl, rfl⟩

theorem transformsAreCurrent_update (S : Services K D) (s : ossimMapProjection K D) :
    transformsAreCurrent S (update S s) := by
  unfold update
  exact transformsAreCurrent_updateTransform S _

/-- The two stored matrices of a state that is as `updateTransform` leaves it, on a finite
geometry. -/
theorem current_finite (S : Services K D) (hcos : S.cosd 0 = 1) (hsin : S.sind 0 = 0)
    (t : ossimMapProjection K D) (hcur : transformsAreCurrent S t) (sx sy tx ty az : K)
    (hm : t.theMetersPerPixel = ⟨fin sx, fin sy⟩) (hx : sx ≠ 0) (hy : sy ≠ 0)
    (ht : t.theUlEastingNorthing = ⟨fin tx, fin ty⟩) (ha : t.theImageToModelAzimuth = fin az)
    (hc : S.cosd az * S.cosd az + S.sind az * S.sind az = 1) :
    t.theModelTransform
      = ofFinite (affM (sx * S.cosd az) (sy * S.sind az) (-sx * S.sind az) (sy * S.cosd az)
          tx ty) ∧
    t.theInverseModelTransform
      = ofFinite (affX (sx * S.cosd az) (sy * S.sind az) (-sx * S.sind az) (sy * S.cosd az)
          tx ty) := by
  rw [hcur.1, hcur.2]
  exact updateTransform_finite S hcos hsin t sx sy tx ty az hm hx hy ht ha hc

theorem conversionBase_native (t : ossimMapProjection K D) (hu : hasNativeUnits t) :
    conversionBase t.theProjectionUnits = none := by
  rcases hu with h | h | h <;> rw [h] <;> rfl

/-- What `imageToModel` computes at azimuth 0 with a native declared unit, in a state that is
as `updateTransform` leaves it: the pixel `(x, y)` goes to `(tx + sx x, ty + sy y)`. -/
theorem imageToModel_zero_azimuth (S : Services K D) (hcos : S.cosd 0 = 1) (hsin : S.sind 0 = 0)
    (t : ossimMapProjection K D) (hcur : transformsAreCurrent S t) (sx sy tx ty : K)
    (hm : t.theMetersPerPixel = ⟨fin sx, fin sy⟩)
    (ht : t.theUlEastingNorthing = ⟨fin tx, fin ty⟩) (ha : t.theImageToModelAzimuth = fin 0)
    (hu : hasNativeUnits t) (x y : K) :
    imageToModel S t ⟨fin x, fin y⟩ = ⟨fin (tx + sx * x), fin (ty + sy * y)⟩ := by
  rw [imageToModel_eq, conversionBase_native t hu, hcur.1, updateTransform_eq S hcos hsin]
  simp only [hm, ht, ha, Dbl.map_fin, Dbl.fin_mul_fin, Dbl.neg_fin,
    ossimMatrix4x4.set_chain, hcos, hsin]
  simp [affineApply, ofFinite, affM]
  constructor <;> ring

/-- What `modelToImage` computes at azimuth 0 with a native declared unit, in a state that is
as `updateTransform` leaves it: the model point `(x, y)` goes to
`((x - tx) / sx, (y - ty) / sy)`. -/
theorem modelToImage_zero_azimuth (S : Services K D) (hcos : S.cosd 0 = 1) (hsin : S.sind 0 = 0)
    (t : ossimMapProjection K D) (hcur : transformsAreCurrent S t) (sx sy tx ty : K)
    (hm : t.theMetersPerPixel = ⟨fin sx, fin sy⟩) (hx : sx ≠ 0) (hy : sy ≠ 0)
    (ht : t.theUlEastingNorthing = ⟨fin tx, fin ty⟩) (ha : t.theImageToModelAzimuth = fin 0)
    (hu : hasNativeUnits t) (x y : K) :
    modelToImage S t ⟨fin x, fin y⟩ = ⟨fin ((x - tx) / sx), fin ((y - ty) / sy)⟩ := by
  have hc : S.cosd 0 * S.cosd 0 + S.sind 0 * S.sind 0 = 1 := by rw [hcos, hsin]; ring
  obtain ⟨-, h2⟩ := current_finite S hcos hsin t hcur sx sy tx ty 0 hm hx hy ht ha hc
  rw [modelToImage_eq, conversionBase_native t hu, h2]
  simp [affineApply, ofFinite, affX, hcos, hsin]
  constructor <;> field_simp <;> ring

/-- C8, the code in the concrete scenario (geographic kernel, origin (0, 0), tie point
(10 N, 20 E), angular scale (0.001, 0.001)): the pixel (1, 1) goes to the model point
(20.001, 10.001), so `lineSampleToWorld((1, 1))` has latitude `10 + 0.001`, not `10 - 0.001`,
and longitude `20 + 0.001`.  The line axis is not flipped. -/
theorem line_axis_not_flipped :
    imageToModel Sample.geographic Sample.scenario (Sample.dpt 1 1)
      = Sample.dpt (20 + 1 / 1000) (10 + 1 / 1000) ∧
    (lineSampleToWorld Sample.geographic Sample.scenario (Sample.dpt 1 1)).lat
      = fin (10 + 1 / 1000) ∧
    (lineSampleToWorld Sample.geographic Sample.scenario (Sample.dpt 1 1)).lon
      = fin (20 + 1 / 1000) ∧
    (10 + 1 / 1000 : ℚ) ≠ 10 - 1 / 1000 := by
  obtain ⟨hm, ht, -, ha, hu, hflag, -⟩ := scenario_fields
  have him : imageToModel Sample.geographic Sample.scenario (Sample.dpt 1 1)
      = Sample.dpt (20 + 1 / 1000) (10 + 1 / 1000) := by
    have h := imageToModel_zero_azimuth Sample.geographic sample_cosd_zero sample_sind_zero
      Sample.scenario (transformsAreCurrent_updateTransform _ _) _ _ _ _ hm ht ha
      (Or.inr (Or.inr hu)) 1 1
    simpa [Sample.dpt] using h
  refine ⟨him, ?_, ?_, by norm_num⟩
  · simp [lineSampleToWorld, lineSampleToWorldOut, lineSampleHeightToWorld, hflag, him]
    simp [Sample.dpt, ossimDpt.hasNans, Sample.geographic]
  · simp [lineSampleToWorld, lineSampleToWorldOut, lineSampleHeightToWorld, hflag, him]
    simp [Sample.dpt, ossimDpt.hasNans, Sample.geographic]

/-- C6: world/pixel round trip.  For a kernel whose `inverse` gives back the latitude and
longitude that `forward` was given, a state produced by `update` with finite non-zero pixel
scale, finite tie point, zero azimuth and a native declared unit, and a geodetic point `P` with
latitude and longitude not `nan`, expressed in the datum of the projection and with a finite
image under `forward`: `lineSampleToWorld(worldToLineSample(P))` has the latitude and the
longitude of `P`.  The elevation lookup only sets the height, so the flag plays no part. -/
theorem world_pixel_round_trip (S : Services K D) (hcos : S.cosd 0 = 1) (hsin : S.sind 0 = 0)
    (hk : ∀ g, (S.inverse (S.forward g)).lat = g.lat ∧ (S.inverse (S.forward g)).lon = g.lon)
    (hcd : ∀ g : ossimGpt K D, S.changeDatum g g.datum = g)
    (s : ossimMapProjection K D) (P : ossimGpt K D) (sx sy tx ty fx fy : K)
    (hm : (update S s).theMetersPerPixel = ⟨fin sx, fin sy⟩) (hx : sx ≠ 0) (hy : sy ≠ 0)
    (ht : (update S s).theUlEastingNorthing = ⟨fin tx, fin ty⟩)
    (ha : (update S s).theImageToModelAzimuth = fin 0)
    (hu : hasNativeUnits (update S s))
    (hP : P.isLatLonNan = false) (hPd : P.datum = (update S s).theDatum)
    (hf : S.forward P = ⟨fin fx, fin fy⟩) :
    (lineSampleToWorld S (update S s) (worldToLineSample S (update S s) P)).lat = P.lat ∧
    (lineSampleToWorld S (update S s) (worldToLineSample S (update S s) P)).lon = P.lon := by
  have hcur := transformsAreCurrent_update S s
  have hdat : S.changeDatum P (update S s).theDatum = P := by rw [← hPd]; exact hcd P
  have hw : worldToLineSample S (update S s) P
      = ⟨fin ((fx - tx) / sx), fin ((fy - ty) / sy)⟩ := by
    unfold worldToLineSample
    simp only [hP, Bool.false_eq_true, if_false, hdat, ite_self, hf]
    exact modelToImage_zero_azimuth S hcos hsin _ hcur sx sy tx ty hm hx hy ht ha hu fx fy
  have hi : imageToModel S (update S s) ⟨fin ((fx - tx) / sx), fin ((fy - ty) / sy)⟩
      = S.forward P := by
    rw [imageToModel_zero_azimuth S hcos hsin _ hcur sx sy tx ty hm ht ha hu, hf]
    congr 2 <;> field_simp
  rw [hw]
  unfold lineSampleToWorld lineSampleToWorldOut lineSampleHeightToWorld
  simp only [ossimDpt.hasNans, Dbl.isnan_fin, Bool.or_self, Bool.false_eq_true, if_false, hi]
  split <;> exact hk P

/-- The tie point goes to the pixel (0, 0) in every state that is as `updateTransform` leaves it
and whose two tie point forms agree through `forward`. -/
theorem tie_point_core (S : Services K D) (hcos : S.cosd 0 = 1) (hsin : S.sind 0 = 0)
    (t : ossimMapProjection K D) (hcur : transformsAreCurrent S t)
    (hg : hasFiniteGeometry S t) (hu : hasNativeUnits t) (hd : tiePointInDatum S t)
    (hagree : S.forward t.theUlGpt = t.theUlEastingNorthing) :
    worldToLineSample S t (getUlGpt t) = ⟨fin 0, fin 0⟩ := by
  obtain ⟨sx, sy, tx, ty, az, hm, hx, hy, ht, ha, hc⟩ := hg
  obtain ⟨-, h2⟩ := current_finite S hcos hsin t hcur sx sy tx ty az hm hx hy ht ha hc
  unfold worldToLineSample getUlGpt
  simp only [hd.1, Bool.false_eq_true, if_false, hd.2, ite_self, hagree]
  rw [modelToImage_eq, conversionBase_native t hu, h2, ht]
  exact affineApply_affX_tie _ _ _ _ _ _ (build_rule_det_ne_zero S sx sy az hx hy hc)

/-- On a state whose linear scale and two tie point forms are all set, `update` samples the
angular scale and rebuilds the transform, nothing else. -/
theorem update_resolved (S : Services K D) (s : ossimMapProjection K D)
    (hm : s.theMetersPerPixel.hasNans = false) (hg : s.theUlGpt.hasNans = false)
    (ht : s.theUlEastingNorthing.hasNans = false) :
    update S s = updateTransform S (computeDegreesPerPixel S s) := by
  simp [update, computeDegreesPerPixel, hm, hg, ht]

theorem sample_kernel_round_trip (g : ossimGpt ℚ ℕ) :
    (Sample.geographic.inverse (Sample.geographic.forward g)).lat = g.lat ∧
    (Sample.geographic.inverse (Sample.geographic.forward g)).lon = g.lon :=
  ⟨rfl, rfl⟩

theorem sample_changeDatum_same (g : ossimGpt ℚ ℕ) :
    Sample.geographic.changeDatum g g.datum = g := rfl

/-- The fields that `update` keeps on a state whose linear scale and two tie point forms are
all set. -/
theorem update_resolved_fields (S : Services K D) (s : ossimMapProjection K D)
    (hm : s.theMetersPerPixel.hasNans = false) (hg : s.theUlGpt.hasNans = false)
    (ht : s.theUlEastingNorthing.hasNans = false) :
    (update S s).theMetersPerPixel = s.theMetersPerPixel ∧
    (update S s).theUlEastingNorthing = s.theUlEastingNorthing ∧
    (update S s).theUlGpt = s.theUlGpt ∧
    (update S s).theImageToModelAzimuth = s.theImageToModelAzimuth ∧
    (update S s).theProjectionUnits = s.theProjectionUnits ∧
    (update S s).theElevationLookupFlag = s.theElevationLookupFlag ∧
    (update S s).theDatum = s.theDatum := by
  rw [update_resolved S s hm hg ht]
  exact ⟨rfl, rfl, rfl, rfl, rfl, rfl, rfl⟩

/-- The scenario of the spec after one more `update`. -/
theorem scenario_update_fields :
    (update Sample.geographic Sample.scenario).theMetersPerPixel
      = ⟨fin (1 / 1000), fin (1 / 1000)⟩ ∧
    (update Sample.geographic Sample.scenario).theUlEastingNorthing = ⟨fin 20, fin 10⟩ ∧
    (update Sample.geographic Sample.scenario).theUlGpt = Sample.gpt 10 20 ∧
    (update Sample.geographic Sample.scenario).theImageToModelAzimuth = fin 0 ∧
    (update Sample.geographic Sample.scenario).theProjectionUnits = OSSIM_METERS ∧
    (update Sample.geographic Sample.scenario).theElevationLookupFlag = false ∧
    (update Sample.geographic Sample.scenario).theDatum = some 0 := by
  obtain ⟨hm, ht, hg, ha, hu, hf, hd⟩ := scenario_fields
  obtain ⟨h1, h2, h3, h4, h5, h6, h7⟩ :=
    update_resolved_fields Sample.geographic Sample.scenario
      (by rw [hm]; simp [ossimDpt.hasNans]) (by rw [hg]; simp [ossimGpt.hasNans, Sample.gpt])
      (by rw [ht]; simp [ossimDpt.hasNans])
  rw [h1, h2, h3, h4, h5, h6, h7]
  exact ⟨hm, ht, hg, ha, hu, hf, hd⟩

/-- C6 in the scenario of the spec, at the point (3 N, 4 E). -/
theorem world_pixel_round_trip_witness :
    (lineSampleToWorld Sample.geographic (update Sample.geographic Sample.scenario)
      (worldToLineSample Sample.geographic (update Sample.geographic Sample.scenario)
        (Sample.gpt 3 4))).lat = (Sample.gpt 3 4).lat ∧
    (lineSampleToWorld Sample.geographic (update Sample.geographic Sample.scenario)
      (worldToLineSample Sample.geographic (update Sample.geographic Sample.scenario)
        (Sample.gpt 3 4))).lon = (Sample.gpt 3 4).lon :=
  world_pixel_round_trip Sample.geographic sample_cosd_zero sample_sind_zero
    sample_kernel_round_trip sample_changeDatum_same Sample.scenario (Sample.gpt 3 4)
    (1 / 1000) (1 / 1000) 20 10 4 3
    scenario_update_fields.1 (by norm_num) (by norm_num)
    scenario_update_fields.2.1 scenario_update_fields.2.2.2.1
    (Or.inr (Or.inr scenario_update_fields.2.2.2.2.1))
    (by simp [ossimGpt.isLatLonNan, Sample.gpt])
    (by rw [scenario_update_fields.2.2.2.2.2.2]; simp [Sample.gpt])
    (by simp [Sample.geographic, Sample.gpt])

/-! ## The tie point and the pixel (0, 0) -/

/-- The projection moved to datum 1, as its last `update` leaves it: the geodetic tie point has
been shifted to (11 N, 20 E), the projected tie point is still (20, 10). -/
theorem moved_fields :
    Sample.moved.theMetersPerPixel = ⟨fin 2, fin 3⟩ ∧
    Sample.moved.theUlEastingNorthing = ⟨fin 20, fin 10⟩ ∧
    Sample.moved.theUlGpt = ⟨fin 11, fin 20, fin 0, some 1⟩ ∧
    Sample.moved.theImageToModelAzimuth = fin 0 ∧
    Sample.moved.theProjectionUnits = OSSIM_METERS ∧
    Sample.moved.theDatum = some 1 := by
  simp [Sample.moved, update, setDatum, setMetersPerPixel, setUlGpt, computeDegreesPerPixel,
    computeMetersPerPixel, updateTransform, Sample.fresh, new, Sample.gpt, Sample.dpt,
    Sample.shifting, Sample.geographic, ossimDpt.hasNans, ossimGpt.hasNans, ossimDpt.makeNan]
  norm_num

/-- C7, the claim as stated fails for `update`.  A projection with tie point (10 N, 20 E) and
linear scale (2, 3) is moved to another datum by `setDatum`, which shifts the geodetic tie point
and keeps the projected one; in the state that `update` then leaves, with non-zero pixel scale
and declared unit meters, `worldToLineSample(getUlGpt())` is the pixel (0, 1/3). -/
theorem tie_point_is_pixel_origin_counterexample :
    Sample.moved.theMetersPerPixel = ⟨fin 2, fin 3⟩ ∧
    Sample.moved.theProjectionUnits = OSSIM_METERS ∧
    worldToLineSample Sample.shifting Sample.moved (getUlGpt Sample.moved)
      = ⟨fin 0, fin (1 / 3)⟩ ∧
    worldToLineSample Sample.shifting Sample.moved (getUlGpt Sample.moved)
      ≠ ⟨fin 0, fin 0⟩ := by
  obtain ⟨hm, ht, hg, ha, hu, hd⟩ := moved_fields
  have hw : worldToLineSample Sample.shifting Sample.moved (getUlGpt Sample.moved)
      = ⟨fin 0, fin (1 / 3)⟩ := by
    have hc : Sample.shifting.cosd 0 = 1 := sample_cosd_zero
    have hs : Sample.shifting.sind 0 = 0 := sample_sind_zero
    have h := modelToImage_zero_azimuth Sample.shifting hc hs
      Sample.moved (transformsAreCurrent_update _ _) 2 3 20 10 hm (by norm_num) (by norm_num)
      ht ha (Or.inr (Or.inr hu)) 20 11
    unfold worldToLineSample getUlGpt
    rw [hg, hd]
    simp only [ossimGpt.isLatLonNan, Dbl.isnan_fin, Bool.or_self, Bool.false_eq_true, if_false,
      Option.isSome_some, if_true]
    have hf : Sample.shifting.forward
        (Sample.shifting.changeDatum ⟨fin 11, fin 20, fin 0, some 1⟩ (some 1))
        = ⟨fin 20, fin 11⟩ := by
      simp [Sample.shifting, Sample.geographic]
    rw [hf, h]
    norm_num
  refine ⟨hm, hu, hw, ?_⟩
  rw [hw]
  intro h
  injection h with _ h2
  injection h2 with h3
  norm_num at h3

/-- C7, amended: the stored geodetic tie point goes to the pixel (0, 0) in every state left by
`setUlGpt`, and in every state left by `setUlEastingNorthing` or by `update` in which the stored
projected tie point is `forward` of the stored geodetic one (after `setUlEastingNorthing(p)`:
when `forward(inverse(p)) = p`).  The state has a finite non-zero pixel scale, a finite
projected tie point and azimuth, a native declared unit, and its geodetic tie point is not `nan`
and is expressed in the datum of the projection. -/
theorem tie_point_is_pixel_origin (S : Services K D) (hcos : S.cosd 0 = 1) (hsin : S.sind 0 = 0)
    (s : ossimMapProjection K D) (ulGpt : ossimGpt K D) (ulEastingNorthing : ossimDpt K) :
    (hasFiniteGeometry S (setUlGpt S s ulGpt) → hasNativeUnits (setUlGpt S s ulGpt) →
      tiePointInDatum S (setUlGpt S s ulGpt) →
      worldToLineSample S (setUlGpt S s ulGpt) (getUlGpt (setUlGpt S s ulGpt))
        = ⟨fin 0, fin 0⟩) ∧
    (hasFiniteGeometry S (setUlEastingNorthing S s ulEastingNorthing) →
      hasNativeUnits (setUlEastingNorthing S s ulEastingNorthing) →
      tiePointInDatum S (setUlEastingNorthing S s ulEastingNorthing) →
      S.forward (S.inverse ulEastingNorthing) = ulEastingNorthing →
      worldToLineSample S (setUlEastingNorthing S s ulEastingNorthing)
        (getUlGpt (setUlEastingNorthing S s ulEastingNorthing)) = ⟨fin 0, fin 0⟩) ∧
    (hasFiniteGeometry S (update S s) → hasNativeUnits (update S s) →
      tiePointInDatum S (update S s) →
      S.forward (update S s).theUlGpt = (update S s).theUlEastingNorthing →
      worldToLineSample S (update S s) (getUlGpt (update S s)) = ⟨fin 0, fin 0⟩) :=
  ⟨fun hg hu hd =>
      tie_point_core S hcos hsin _ (transformsAreCurrent_updateTransform S _) hg hu hd rfl,
    fun hg hu hd hp =>
      tie_point_core S hcos hsin _ (transformsAreCurrent_updateTransform S _) hg hu hd hp,
    fun hg hu hd ha =>
      tie_point_core S hcos hsin _ (transformsAreCurrent_update S _) hg hu hd ha⟩

/-- The scenario of the spec, the tie point set last. -/
theorem scenarioTie_fields :
    Sample.scenarioTie.theMetersPerPixel = ⟨fin (1 / 1000), fin (1 / 1000)⟩ ∧
    Sample.scenarioTie.theUlEastingNorthing = ⟨fin 20, fin 10⟩ ∧
    Sample.scenarioTie.theUlGpt = Sample.gpt 10 20 ∧
    Sample.scenarioTie.theImageToModelAzimuth = fin 0 ∧
    Sample.scenarioTie.theProjectionUnits = OSSIM_METERS ∧
    Sample.scenarioTie.theDatum = some 0 := by
  simp [Sample.scenarioTie, setDecimalDegreesPerPixel, computeMetersPerPixel, setUlGpt,
    updateTransform, Sample.fresh, new, Sample.gpt, Sample.dpt, Sample.geographic,
    ossimDpt.sub, ossimDpt.length, ossimDpt.lon, ossimDpt.lat]
  norm_num [sample_sqrt_millionth]

/-- The amended C7 in the scenario of the spec: geographic kernel, origin (0, 0), angular scale
(0.001, 0.001), tie point (10 N, 20 E) set through `setUlGpt`. -/
theorem tie_point_is_pixel_origin_witness :
    worldToLineSample Sample.geographic Sample.scenarioTie (getUlGpt Sample.scenarioTie)
      = ⟨fin 0, fin 0⟩ :=
  (tie_point_is_pixel_origin Sample.geographic sample_cosd_zero sample_sind_zero
    (setDecimalDegreesPerPixel Sample.geographic Sample.fresh
      (Sample.dpt (1 / 1000) (1 / 1000)))
    (Sample.gpt 10 20) (Sample.dpt 0 0)).1
    ⟨1 / 1000, 1 / 1000, 20, 10, 0, scenarioTie_fields.1, by norm_num, by norm_num,
      scenarioTie_fields.2.1, scenarioTie_fields.2.2.2.1,
      by norm_num [Sample.geographic, Sample.cosd, Sample.sind]⟩
    (Or.inr (Or.inr scenarioTie_fields.2.2.2.2.1))
    ⟨by
        have h : (setUlGpt Sample.geographic
            (setDecimalDegreesPerPixel Sample.geographic Sample.fresh
              (Sample.dpt (1 / 1000) (1 / 1000)))
            (Sample.gpt 10 20)).theUlGpt = Sample.gpt 10 20 := scenarioTie_fields.2.2.1
        rw [h]; simp [ossimGpt.isLatLonNan, Sample.gpt],
      by
        have h : (setUlGpt Sample.geographic
            (setDecimalDegreesPerPixel Sample.geographic Sample.fresh
              (Sample.dpt (1 / 1000) (1 / 1000)))
            (Sample.gpt 10 20)).theUlGpt = Sample.gpt 10 20 := scenarioTie_fields.2.2.1
        have hd : (setUlGpt Sample.geographic
            (setDecimalDegreesPerPixel Sample.geographic Sample.fresh
              (Sample.dpt (1 / 1000) (1 / 1000)))
            (Sample.gpt 10 20)).theDatum = some 0 := scenarioTie_fields.2.2.2.2.2
        rw [h, hd]; simp [Sample.geographic, Sample.gpt]⟩

/-! ## The parameter resolution `update` -/

theorem update_eq (S : Services K D) (s : ossimMapProjection K D) :
    update S s = updateTransform S (defaultScale S (resolveTiePoint S (resolveScale S s))) :=
  rfl

theorem resolveScale_of_linear (S : Services K D) (s : ossimMapProjection K D)
    (hm : s.theMetersPerPixel.hasNans = false) :
    resolveScale S s = computeDegreesPerPixel S s := by
  simp [resolveScale, hm]

theorem defaultScale_of_linear (S : Services K D) (s : ossimMapProjection K D)
    (hm : s.theMetersPerPixel.hasNans = false) : defaultScale S s = s := by
  simp [defaultScale, hm]

/-- The tie point resolution touches the two tie point forms only. -/
theorem resolveTiePoint_frame (S : Services K D) (s : ossimMapProjection K D) :
    (resolveTiePoint S s).theMetersPerPixel = s.theMetersPerPixel ∧
    (resolveTiePoint S s).theDegreesPerPixel = s.theDegreesPerPixel ∧
    (resolveTiePoint S s).theOrigin = s.theOrigin := by
  unfold resolveTiePoint
  split_ifs <;> exact ⟨rfl, rfl, rfl⟩

/-- The angular scale that `update` leaves when the linear scale is set: the one sampled by
`computeDegreesPerPixel`. -/
theorem update_degrees_of_linear (S : Services K D) (s : ossimMapProjection K D)
    (hm : s.theMetersPerPixel.hasNans = false) :
    (update S s).theDegreesPerPixel = (computeDegreesPerPixel S s).theDegreesPerPixel ∧
    (update S s).theMetersPerPixel = s.theMetersPerPixel := by
  have h1 := resolveTiePoint_frame S (computeDegreesPerPixel S s)
  have h2 : (resolveTiePoint S (computeDegreesPerPixel S s)).theMetersPerPixel.hasNans
      = false := by rw [h1.1]; exact hm
  rw [update_eq, resolveScale_of_linear S s hm, defaultScale_of_linear S _ h2]
  exact ⟨h1.2.1, h1.1⟩

theorem sample_sqrt_one : Sample.sqrt 1 = 1 := by
  have h : (1 : ℚ) = 1 * 1 := by norm_num
  rw [h, sample_sqrt_mul_self]
  norm_num

theorem sample_sqrt_quarter : Sample.sqrt (1 / 4) = 1 / 2 := by
  have h : (1 / 4 : ℚ) = (1 / 2) * (1 / 2) := by norm_num
  rw [h, sample_sqrt_mul_self]
  norm_num [abs_of_pos]

/-- The kernel `kinked` is a projection kernel: `inverse` gives back the latitude and longitude
that `forward` was given. -/
theorem kinked_round_trip (g : ossimGpt ℚ ℕ) :
    (Sample.kinked.inverse (Sample.kinked.forward g)).lat = g.lat ∧
    (Sample.kinked.inverse (Sample.kinked.forward g)).lon = g.lon := by
  refine ⟨?_, rfl⟩
  cases h : g.lat with
  | nan => simp [Sample.kinked, h]
  | fin y =>
    by_cases hy : 0 ≤ y
    · simp [Sample.kinked, h, hy]
    · have h2 : ¬ (0 ≤ 2 * y) := by
        intro h0
        exact hy (by linarith)
      simp [Sample.kinked, h, hy, h2]

/-- The kernel `oblique` is a projection kernel: `inverse` gives back the latitude and longitude
of every point that `forward` was given. -/
theorem oblique_round_trip (lat lon : ℚ) :
    (Sample.oblique.inverse (Sample.oblique.forward (Sample.gpt lat lon))).lat = fin lat ∧
    (Sample.oblique.inverse (Sample.oblique.forward (Sample.gpt lat lon))).lon = fin lon := by
  simp [Sample.oblique, Sample.gpt]

theorem sample_sqrt_169 : Sample.sqrt 169 = 13 := by
  have h : (169 : ℚ) = 13 * 13 := by norm_num
  rw [h, sample_sqrt_mul_self]
  norm_num [abs_of_pos]

theorem sample_sqrt_81 : Sample.sqrt 81 = 9 := by
  have h : (81 : ℚ) = 9 * 9 := by norm_num
  rw [h, sample_sqrt_mul_self]
  norm_num [abs_of_pos]

theorem sample_sqrt_169_9 : Sample.sqrt (169 / 9) = 13 / 3 := by
  have h : (169 / 9 : ℚ) = (13 / 3) * (13 / 3) := by norm_num
  rw [h, sample_sqrt_mul_self]
  norm_num [abs_of_pos]

/-- C10, the claim as stated fails.  With the kernel `oblique` (one degree of longitude moves a
point 5 east and 12 north, one degree of latitude 9 north) and a state for which only the angular
scale (1, 1) was supplied, the first `update` derives the linear scale (13, 9), the distances to
the points one degree away, and keeps the angular scale.  The second `update` finds the linear
scale set and samples the angular scale back from it, one linear step along the easting axis and
one along the northing axis: it stores (13/3, 1).  The step of 13 along the easting axis is not
the step of one degree along the parallel, which ends at (5, 12).  The direction of the latitude
sample plays no part: the point one degree south of the origin is at the distance 9 as well,
and the latitude scale 1 comes back. -/
theorem update_idempotent_counterexample :
    (update Sample.oblique Sample.angularOnly).theDegreesPerPixel = Sample.dpt 1 1 ∧
    (update Sample.oblique Sample.angularOnly).theMetersPerPixel = Sample.dpt 13 9 ∧
    Sample.oblique.forward { Sample.gpt 0 0 with lon := fin 0 + fin 1 } = Sample.dpt 5 12 ∧
    ((Sample.oblique.forward { Sample.gpt 0 0 with lat := fin 0 + fin 1 }).sub
      (Sample.oblique.forward (Sample.gpt 0 0))).length Sample.sqrt = fin 9 ∧
    ((Sample.oblique.forward { Sample.gpt 0 0 with lat := fin 0 - fin 1 }).sub
      (Sample.oblique.forward (Sample.gpt 0 0))).length Sample.sqrt = fin 9 ∧
    (update Sample.oblique (update Sample.oblique Sample.angularOnly)).theDegreesPerPixel
      = Sample.dpt (13 / 3) 1 ∧
    update Sample.oblique (update Sample.oblique Sample.angularOnly)
      ≠ update Sample.oblique Sample.angularOnly := by
  have h1 : (update Sample.oblique Sample.angularOnly).theDegreesPerPixel = Sample.dpt 1 1 := by
    simp [update, Sample.angularOnly, Sample.fresh, new, computeMetersPerPixel, updateTransform,
      ossimDpt.hasNans, ossimGpt.hasNans, ossimDpt.makeNan, Sample.dpt, Sample.gpt,
      Sample.oblique, Sample.geographic, ossimDpt.sub, ossimDpt.length, ossimDpt.lon,
      ossimDpt.lat]
  have h2 : (update Sample.oblique Sample.angularOnly).theMetersPerPixel = Sample.dpt 13 9 := by
    simp [update, Sample.angularOnly, Sample.fresh, new, computeMetersPerPixel, updateTransform,
      ossimDpt.hasNans, ossimGpt.hasNans, ossimDpt.makeNan, Sample.dpt, Sample.gpt,
      Sample.oblique, Sample.geographic, ossimDpt.sub, ossimDpt.length, ossimDpt.lon,
      ossimDpt.lat]
    norm_num [sample_sqrt_169, sample_sqrt_81]
  have h0 : (update Sample.oblique Sample.angularOnly).theOrigin = Sample.gpt 0 0 := by
    simp [update, Sample.angularOnly, Sample.fresh, new, computeMetersPerPixel, updateTransform,
      ossimDpt.hasNans, ossimGpt.hasNans, ossimDpt.makeNan, Sample.dpt, Sample.gpt,
      Sample.oblique, Sample.geographic, ossimDpt.sub, ossimDpt.length, ossimDpt.lon,
      ossimDpt.lat]
  have h3 : (update Sample.oblique (update Sample.oblique Sample.angularOnly)).theDegreesPerPixel
      = Sample.dpt (13 / 3) 1 := by
    rw [(update_degrees_of_linear Sample.oblique _ (by rw [h2]; rfl)).1]
    generalize update Sample.oblique Sample.angularOnly = u at h1 h2 h0
    simp [computeDegreesPerPixel, h2, h0, Sample.dpt, Sample.gpt, Sample.oblique,
      Sample.geographic]
    norm_num [sample_sqrt_169_9, sample_sqrt_one]
  have he : Sample.oblique.forward { Sample.gpt 0 0 with lon := fin 0 + fin 1 }
      = Sample.dpt 5 12 := by
    simp [Sample.oblique, Sample.gpt, Sample.dpt]
  have hn : ((Sample.oblique.forward { Sample.gpt 0 0 with lat := fin 0 + fin 1 }).sub
      (Sample.oblique.forward (Sample.gpt 0 0))).length Sample.sqrt = fin 9 := by
    simp [Sample.oblique, Sample.gpt, ossimDpt.sub, ossimDpt.length]
    norm_num [sample_sqrt_81]
  have hs : ((Sample.oblique.forward { Sample.gpt 0 0 with lat := fin 0 - fin 1 }).sub
      (Sample.oblique.forward (Sample.gpt 0 0))).length Sample.sqrt = fin 9 := by
    simp [Sample.oblique, Sample.gpt, ossimDpt.sub, ossimDpt.length]
    norm_num [sample_sqrt_81]
  refine ⟨h1, h2, he, hn, hs, h3, ?_⟩
  intro h
  rw [h, h1] at h3
  simp [Sample.dpt] at h3
  norm_num at h3

theorem updateTransform_idem (S : Services K D) (x : ossimMapProjection K D) :
    updateTransform S (updateTransform S x) = updateTransform S x := rfl

/-- The angular scale that `computeDegreesPerPixel` samples depends on the origin and on the
linear scale only. -/
theorem computeDegreesPerPixel_congr (S : Services K D) (x y : ossimMapProjection K D)
    (ho : x.theOrigin = y.theOrigin) (hm : x.theMetersPerPixel = y.theMetersPerPixel) :
    (computeDegreesPerPixel S x).theDegreesPerPixel
      = (computeDegreesPerPixel S y).theDegreesPerPixel := by
  simp only [computeDegreesPerPixel, ho, hm]

theorem computeDegreesPerPixel_fixed (S : Services K D) (x : ossimMapProjection K D)
    (h : (computeDegreesPerPixel S x).theDegreesPerPixel = x.theDegreesPerPixel) :
    computeDegreesPerPixel S x = x := by
  cases x
  simp only [computeDegreesPerPixel] at h ⊢
  rw [h]

/-- The tie point resolution reads and writes the tie point forms and reads the origin, so it
commutes with `updateTransform` up to the two matrices. -/
theorem resolveTiePoint_updateTransform (S : Services K D) (x : ossimMapProjection K D) :
    resolveTiePoint S (updateTransform S x) =
      { updateTransform S x with
        theUlGpt := (resolveTiePoint S x).theUlGpt
        theUlEastingNorthing := (resolveTiePoint S x).theUlEastingNorthing } := by
  have e1 : (updateTransform S x).theUlGpt = x.theUlGpt := rfl
  have e2 : (updateTransform S x).theUlEastingNorthing = x.theUlEastingNorthing := rfl
  have e3 : (updateTransform S x).theOrigin = x.theOrigin := rfl
  unfold resolveTiePoint
  simp only [e1, e2, e3]
  split_ifs <;> rfl

theorem resolveTiePoint_fixed_updateTransform (S : Services K D) (x : ossimMapProjection K D)
    (h : resolveTiePoint S x = x) :
    resolveTiePoint S (updateTransform S x) = updateTransform S x := by
  rw [resolveTiePoint_updateTransform, h]
  rfl

/-- The tie point resolution is idempotent as soon as one tie point form is set, or the kernel
gives the origin back from its projection. -/
theorem resolveTiePoint_idem (S : Services K D) (a : ossimMapProjection K D)
    (htie : a.theUlGpt.hasNans = false ∨ a.theUlEastingNorthing.hasNans = false ∨
      S.inverse (S.forward a.theOrigin) = a.theOrigin) :
    resolveTiePoint S (resolveTiePoint S a) = resolveTiePoint S a := by
  unfold resolveTiePoint
  cases h1 : a.theUlEastingNorthing.hasNans <;> cases h2 : a.theUlGpt.hasNans <;>
    simp only [h1, h2, Bool.not_false, Bool.not_true, Bool.and_true, Bool.and_false,
      Bool.false_eq_true, if_false, if_true, Bool.and_self]
  · cases h3 : (S.inverse a.theUlEastingNorthing).hasNans <;> simp [h1, h3]
  · cases h3 : (S.forward a.theUlGpt).hasNans <;> simp [h2, h3]
  · cases h3 : (S.forward a.theOrigin).hasNans <;> cases h4 : a.theOrigin.hasNans <;>
      simp [h3, h4]
    rcases htie with h | h | h
    · rw [h2] at h; exact absurd h (by simp)
    · rw [h1] at h; exact absurd h (by simp)
    · exact h

/-- C10, amended: `update` is idempotent when the linear scale is set before the call.  For
every kernel and every state whose meters-per-pixel has no `nan`, and in which a tie point form
is set or the kernel gives the origin back from its projection, the state after `update();
update()` equals the state after one `update()` in every field. -/
theorem update_idempotent (S : Services K D) (s : ossimMapProjection K D)
    (hm : s.theMetersPerPixel.hasNans = false)
    (htie : s.theUlGpt.hasNans = false ∨ s.theUlEastingNorthing.hasNans = false ∨
      S.inverse (S.forward s.theOrigin) = s.theOrigin) :
    update S (update S s) = update S s := by
  have hf := resolveTiePoint_frame S (computeDegreesPerPixel S s)
  have hb : (resolveTiePoint S (computeDegreesPerPixel S s)).theMetersPerPixel.hasNans
      = false := by rw [hf.1]; exact hm
  have hu : update S s
      = updateTransform S (resolveTiePoint S (computeDegreesPerPixel S s)) := by
    rw [update_eq, resolveScale_of_linear S s hm, defaultScale_of_linear S _ hb]
  rw [hu, update_eq]
  have hb2 : (updateTransform S
      (resolveTiePoint S (computeDegreesPerPixel S s))).theMetersPerPixel.hasNans = false := hb
  have h1 : resolveScale S
      (updateTransform S (resolveTiePoint S (computeDegreesPerPixel S s)))
      = updateTransform S (resolveTiePoint S (computeDegreesPerPixel S s)) := by
    rw [resolveScale_of_linear S _ hb2]
    apply computeDegreesPerPixel_fixed
    have e : (updateTransform S
        (resolveTiePoint S (computeDegreesPerPixel S s))).theDegreesPerPixel
        = (computeDegreesPerPixel S s).theDegreesPerPixel := hf.2.1
    rw [e]
    exact computeDegreesPerPixel_congr S _ _ hf.2.2 hf.1
  have h2 : resolveTiePoint S
      (updateTransform S (resolveTiePoint S (computeDegreesPerPixel S s)))
      = updateTransform S (resolveTiePoint S (computeDegreesPerPixel S s)) :=
    resolveTiePoint_fixed_updateTransform S _
      (resolveTiePoint_idem S (computeDegreesPerPixel S s) htie)
  rw [h1, h2, defaultScale_of_linear S _ hb2, updateTransform_idem]

/-- The amended C10 on a concrete state: the sample projection with linear scale (2, 3). -/
theorem update_idempotent_witness :
    update Sample.geographic (update Sample.geographic (Sample.raw 0))
      = update Sample.geographic (Sample.raw 0) :=
  update_idempotent Sample.geographic (Sample.raw 0)
    (by simp [Sample.raw, Sample.dpt, ossimDpt.hasNans])
    (Or.inl (by simp [Sample.raw, Sample.gpt, ossimGpt.hasNans]))

/-! ## The tie point setters -/

/-- C11: whichever tie point form was last set is authoritative and the other is derived
through the kernel.  After `setUlEastingNorthing(p)` the stored projected tie point is `p` and
the stored geodetic tie point is `inverse(p)`; after `setUlGpt(g)` with `g` in the datum of the
projection the stored geodetic tie point is `g` and the stored projected one is
`forward(g)`. -/
theorem tie_point_setters (S : Services K D) (s : ossimMapProjection K D) (p : ossimDpt K)
    (g : ossimGpt K D) (hg : g.datum = s.theDatum) :
    (setUlEastingNorthing S s p).theUlEastingNorthing = p ∧
    (setUlEastingNorthing S s p).theUlGpt = S.inverse p ∧
    (setUlGpt S s g).theUlGpt = g ∧
    (setUlGpt S s g).theUlEastingNorthing = S.forward g := by
  refine ⟨rfl, rfl, ?_, ?_⟩ <;> simp [setUlGpt, updateTransform, hg]

/-- C11 on a concrete state: the tie point (10 N, 20 E) on datum 0, and the model point
(20, 10). -/
theorem tie_point_setters_witness :
    (setUlEastingNorthing Sample.geographic Sample.fresh (Sample.dpt 20 10)).theUlEastingNorthing
      = Sample.dpt 20 10 ∧
    (setUlEastingNorthing Sample.geographic Sample.fresh (Sample.dpt 20 10)).theUlGpt
      = Sample.geographic.inverse (Sample.dpt 20 10) ∧
    (setUlGpt Sample.geographic Sample.fresh (Sample.gpt 10 20)).theUlGpt = Sample.gpt 10 20 ∧
    (setUlGpt Sample.geographic Sample.fresh (Sample.gpt 10 20)).theUlEastingNorthing
      = Sample.geographic.forward (Sample.gpt 10 20) :=
  tie_point_setters Sample.geographic Sample.fresh (Sample.dpt 20 10) (Sample.gpt 10 20)
    (by simp [Sample.gpt, Sample.fresh, new])

/-! ## Scaling -/

/-- The two scale forms that `applyScale` leaves, whatever `recenter`. -/
theorem applyScale_scale (S : Services K D) (s : ossimMapProjection K D)
    (scale : ossimDpt K) (recenter : Bool) :
    (applyScale S s scale recenter).theDegreesPerPixel
      = ⟨s.theDegreesPerPixel.x * scale.x, s.theDegreesPerPixel.y * scale.y⟩ ∧
    (applyScale S s scale recenter).theMetersPerPixel
      = ⟨s.theMetersPerPixel.x * scale.x, s.theMetersPerPixel.y * scale.y⟩ := by
  constructor <;>
    · unfold applyScale
      cases recenter <;> cases S.isGeographic <;> rfl

/-- C12: `applyScale((kx, ky), recenter)` multiplies the x and y components of both the angular
and the linear scale by `kx` and `ky`, whatever `recenter`; when `recenter` is false both forms
of the upper-left tie point are unchanged. -/
theorem applyScale_multiplies (S : Services K D) (s : ossimMapProjection K D)
    (scale : ossimDpt K) (recenter : Bool) :
    (applyScale S s scale recenter).theDegreesPerPixel
      = ⟨s.theDegreesPerPixel.x * scale.x, s.theDegreesPerPixel.y * scale.y⟩ ∧
    (applyScale S s scale recenter).theMetersPerPixel
      = ⟨s.theMetersPerPixel.x * scale.x, s.theMetersPerPixel.y * scale.y⟩ ∧
    (applyScale S s scale false).theUlGpt = s.theUlGpt ∧
    (applyScale S s scale false).theUlEastingNorthing = s.theUlEastingNorthing := by
  refine ⟨?_, ?_, rfl, rfl⟩ <;>
    · unfold applyScale
      cases recenter <;> cases S.isGeographic <;> rfl

/-- Moving out by half a pixel and back in by half a scaled pixel, seen from the scaled
pixel. -/
theorem recenter_minus (a b : Dbl K) (k : K) :
    a - b / fin 2 + b * fin k / fin 2 - b * fin k / fin 2 = a - b / fin 2 := by
  cases a <;> cases b <;> simp

/-- The same with the signs of the line axis. -/
theorem recenter_plus (a b : Dbl K) (k : K) :
    a + b / fin 2 - b * fin k / fin 2 + b * fin k / fin 2 = a + b / fin 2 := by
  cases a <;> cases b <;> simp

/-- C13: recentering keeps the footprint edge fixed.  With a finite factor `(kx, ky)`, in
projected mode `applyScale((kx, ky), true)` moves the projected tie point by half the old pixel
outward and half the new pixel inward, so that `UL easting - metersPerPixel.x / 2` and
`UL northing + metersPerPixel.y / 2` are unchanged; in geographic mode, the geodetic tie point
carrying the datum of the projection, `UL lat + degreesPerPixel.lat / 2` and
`UL lon - degreesPerPixel.lon / 2` are unchanged. -/
theorem applyScale_recenter (S : Services K D) (s : ossimMapProjection K D) (kx ky : K) :
    (S.isGeographic = false →
      (applyScale S s ⟨fin kx, fin ky⟩ true).theUlEastingNorthing
        = ⟨s.theUlEastingNorthing.x - s.theMetersPerPixel.x / fin 2
              + (applyScale S s ⟨fin kx, fin ky⟩ true).theMetersPerPixel.x / fin 2,
            s.theUlEastingNorthing.y + s.theMetersPerPixel.y / fin 2
              - (applyScale S s ⟨fin kx, fin ky⟩ true).theMetersPerPixel.y / fin 2⟩ ∧
      (applyScale S s ⟨fin kx, fin ky⟩ true).theUlEastingNorthing.x
          - (applyScale S s ⟨fin kx, fin ky⟩ true).theMetersPerPixel.x / fin 2
        = s.theUlEastingNorthing.x - s.theMetersPerPixel.x / fin 2 ∧
      (applyScale S s ⟨fin kx, fin ky⟩ true).theUlEastingNorthing.y
          + (applyScale S s ⟨fin kx, fin ky⟩ true).theMetersPerPixel.y / fin 2
        = s.theUlEastingNorthing.y + s.theMetersPerPixel.y / fin 2) ∧
    (S.isGeographic = true → s.theUlGpt.datum = s.theDatum →
      (applyScale S s ⟨fin kx, fin ky⟩ true).theUlGpt.lat
          + (applyScale S s ⟨fin kx, fin ky⟩ true).theDegreesPerPixel.lat / fin 2
        = s.theUlGpt.lat + s.theDegreesPerPixel.lat / fin 2 ∧
      (applyScale S s ⟨fin kx, fin ky⟩ true).theUlGpt.lon
          - (applyScale S s ⟨fin kx, fin ky⟩ true).theDegreesPerPixel.lon / fin 2
        = s.theUlGpt.lon - s.theDegreesPerPixel.lon / fin 2) := by
  constructor
  · intro hgeo
    simp only [applyScale, hgeo, setUlTiePointsDpt, setUlEastingNorthing, updateTransform,
      Bool.false_eq_true, if_false, if_true]
    exact ⟨trivial, recenter_minus _ _ kx, recenter_plus _ _ ky⟩
  · intro hgeo hd
    simp only [applyScale, hgeo, setUlTiePointsGpt, setUlGpt, updateTransform, if_true,
      ossimDpt.lat, ossimDpt.lon, hd, ne_eq, not_true_eq_false, if_false]
    exact ⟨recenter_plus _ _ ky, recenter_minus _ _ kx⟩

/-- C13 on concrete states: the sample projection rescaled by (2, 2) about its centre, with the
planar kernel and with the geographic one. -/
theorem applyScale_recenter_witness :
    ((applyScale Sample.planar (Sample.raw 0) ⟨fin 2, fin 2⟩ true).theUlEastingNorthing.x
        - (applyScale Sample.planar (Sample.raw 0) ⟨fin 2, fin 2⟩ true).theMetersPerPixel.x
          / fin 2
      = (Sample.raw 0).theUlEastingNorthing.x - (Sample.raw 0).theMetersPerPixel.x / fin 2) ∧
    ((applyScale Sample.geographic (Sample.raw 0) ⟨fin 2, fin 2⟩ true).theUlGpt.lat
        + (applyScale Sample.geographic (Sample.raw 0) ⟨fin 2, fin 2⟩ true).theDegreesPerPixel.lat
          / fin 2
      = (Sample.raw 0).theUlGpt.lat + (Sample.raw 0).theDegreesPerPixel.lat / fin 2) :=
  ⟨((applyScale_recenter Sample.planar (Sample.raw 0) 2 2).1 rfl).2.1,
    ((applyScale_recenter Sample.geographic (Sample.raw 0) 2 2).2 rfl
      (by simp [Sample.raw, Sample.gpt, Sample.fresh, new])).1⟩

/-- Scaling by `k` and then by `1 / k` gives a value back. -/
theorem scale_back (a : Dbl K) (k : K) (hk : k ≠ 0) : a * fin k * fin (1 / k) = a := by
  cases a with
  | nan => rfl
  | fin x =>
    simp only [Dbl.fin_mul_fin]
    congr 1
    field_simp

/-- Two recenterings, by `k` and by `1 / k`, give a finite coordinate back (the sample axis). -/
theorem recenter_back_minus (a b k : K) (hk : k ≠ 0) :
    fin a - fin b / fin 2 + fin b * fin k / fin 2 - fin b * fin k / fin 2
      + fin b * fin k * fin (1 / k) / fin 2 = fin a := by
  simp only [Dbl.fin_mul_fin, Dbl.fin_div_fin, two_ne_zero, if_false, Dbl.fin_sub_fin,
    Dbl.fin_add_fin]
  congr 1
  field_simp

/-- Two recenterings, by `k` and by `1 / k`, give a finite coordinate back (the line axis). -/
theorem recenter_back_plus (a b k : K) (hk : k ≠ 0) :
    fin a + fin b / fin 2 - fin b * fin k / fin 2 + fin b * fin k / fin 2
      - fin b * fin k * fin (1 / k) / fin 2 = fin a := by
  simp only [Dbl.fin_mul_fin, Dbl.fin_div_fin, two_ne_zero, if_false, Dbl.fin_sub_fin,
    Dbl.fin_add_fin]
  congr 1
  field_simp

/-- The tie point that `applyScale` leaves when it recenters in projected mode. -/
theorem applyScale_projected (S : Services K D) (s : ossimMapProjection K D)
    (scale : ossimDpt K) (hgeo : S.isGeographic = false) :
    (applyScale S s scale true).theUlEastingNorthing
      = ⟨s.theUlEastingNorthing.x - s.theMetersPerPixel.x / fin 2
            + s.theMetersPerPixel.x * scale.x / fin 2,
          s.theUlEastingNorthing.y + s.theMetersPerPixel.y / fin 2
            - s.theMetersPerPixel.y * scale.y / fin 2⟩ ∧
    (applyScale S s scale true).theUlGpt
      = S.inverse (applyScale S s scale true).theUlEastingNorthing := by
  simp only [applyScale, hgeo, setUlTiePointsDpt, setUlEastingNorthing, updateTransform,
    Bool.false_eq_true, if_false, if_true, and_self]

/-- The tie point that `applyScale` leaves when it recenters in geographic mode, the geodetic
tie point carrying the datum of the projection. -/
theorem applyScale_geographic (S : Services K D) (s : ossimMapProjection K D)
    (scale : ossimDpt K) (hgeo : S.isGeographic = true) (hd : s.theUlGpt.datum = s.theDatum) :
    (applyScale S s scale true).theUlGpt
      = { s.theUlGpt with
          lat := s.theUlGpt.lat + s.theDegreesPerPixel.y / fin 2
            - s.theDegreesPerPixel.y * scale.y / fin 2
          lon := s.theUlGpt.lon - s.theDegreesPerPixel.x / fin 2
            + s.theDegreesPerPixel.x * scale.x / fin 2 } ∧
    (applyScale S s scale true).theUlEastingNorthing
      = S.forward (applyScale S s scale true).theUlGpt ∧
    (applyScale S s scale true).theDatum = s.theDatum := by
  simp only [applyScale, hgeo, setUlTiePointsGpt, setUlGpt, updateTransform, if_true,
    ossimDpt.lat, ossimDpt.lon, hd, ne_eq, not_true_eq_false, if_false, and_self]

/-- C14: for a state whose two tie point forms are consistent through the kernel, with finite
scale and tie point (the geodetic one carrying the datum of the projection), and for `k > 0`,
`applyScale((k, k), true)` followed by `applyScale((1/k, 1/k), true)` restores both forms of the
tie point and both forms of the pixel scale. -/
theorem applyScale_round_trip (S : Services K D) (s : ossimMapProjection K D) (k : K)
    (hk : 0 < k) (mx my dx dy ex ey la lo : K)
    (hm : s.theMetersPerPixel = ⟨fin mx, fin my⟩)
    (hdeg : s.theDegreesPerPixel = ⟨fin dx, fin dy⟩)
    (hE : s.theUlEastingNorthing = ⟨fin ex, fin ey⟩)
    (hla : s.theUlGpt.lat = fin la) (hlo : s.theUlGpt.lon = fin lo)
    (hd : s.theUlGpt.datum = s.theDatum)
    (hc1 : s.theUlEastingNorthing = S.forward s.theUlGpt)
    (hc2 : s.theUlGpt = S.inverse s.theUlEastingNorthing) :
    (applyScale S (applyScale S s ⟨fin k, fin k⟩ true) ⟨fin (1 / k), fin (1 / k)⟩ true).theUlGpt
      = s.theUlGpt ∧
    (applyScale S (applyScale S s ⟨fin k, fin k⟩ true)
      ⟨fin (1 / k), fin (1 / k)⟩ true).theUlEastingNorthing = s.theUlEastingNorthing ∧
    (applyScale S (applyScale S s ⟨fin k, fin k⟩ true)
      ⟨fin (1 / k), fin (1 / k)⟩ true).theMetersPerPixel = s.theMetersPerPixel ∧
    (applyScale S (applyScale S s ⟨fin k, fin k⟩ true)
      ⟨fin (1 / k), fin (1 / k)⟩ true).theDegreesPerPixel = s.theDegreesPerPixel := by
  have hk0 : k ≠ 0 := ne_of_gt hk
  have hms := applyScale_scale S (applyScale S s ⟨fin k, fin k⟩ true)
    ⟨fin (1 / k), fin (1 / k)⟩ true
  have hm1 := applyScale_scale S s ⟨fin k, fin k⟩ true
  have hscale :
      (applyScale S (applyScale S s ⟨fin k, fin k⟩ true)
        ⟨fin (1 / k), fin (1 / k)⟩ true).theMetersPerPixel = s.theMetersPerPixel ∧
      (applyScale S (applyScale S s ⟨fin k, fin k⟩ true)
        ⟨fin (1 / k), fin (1 / k)⟩ true).theDegreesPerPixel = s.theDegreesPerPixel := by
    constructor
    · rw [hms.2, hm1.2]
      simp only [scale_back _ k hk0]
    · rw [hms.1, hm1.1]
      simp only [scale_back _ k hk0]
  cases hgeo : S.isGeographic
  · have h1 := applyScale_projected S s ⟨fin k, fin k⟩ hgeo
    have h2 := applyScale_projected S (applyScale S s ⟨fin k, fin k⟩ true)
      ⟨fin (1 / k), fin (1 / k)⟩ hgeo
    have hEN : (applyScale S (applyScale S s ⟨fin k, fin k⟩ true)
        ⟨fin (1 / k), fin (1 / k)⟩ true).theUlEastingNorthing = s.theUlEastingNorthing := by
      rw [h2.1, h1.1, hm1.2, hm, hE]
      simp only [recenter_back_minus _ _ k hk0, recenter_back_plus _ _ k hk0]
    refine ⟨?_, hEN, hscale⟩
    rw [h2.2, hEN, ← hc2]
  · have h1 := applyScale_geographic S s ⟨fin k, fin k⟩ hgeo hd
    have hd1 : (applyScale S s ⟨fin k, fin k⟩ true).theUlGpt.datum
        = (applyScale S s ⟨fin k, fin k⟩ true).theDatum := by
      rw [h1.1, h1.2.2]
      exact hd
    have h2 := applyScale_geographic S (applyScale S s ⟨fin k, fin k⟩ true)
      ⟨fin (1 / k), fin (1 / k)⟩ hgeo hd1
    have hG : (applyScale S (applyScale S s ⟨fin k, fin k⟩ true)
        ⟨fin (1 / k), fin (1 / k)⟩ true).theUlGpt = s.theUlGpt := by
      rw [h2.1, h1.1, hm1.1, hdeg]
      simp only [hla, hlo, recenter_back_minus _ _ k hk0, recenter_back_plus _ _ k hk0]
      rw [← hla, ← hlo]
    refine ⟨hG, ?_, hscale⟩
    rw [h2.2.1, hG, ← hc1]

/-- C14 on a concrete state: the sample projection (scale (2, 3), tie point (7 N, 5 E), that is
(5, 7) in model space) rescaled by 2 and then by 1/2. -/
theorem applyScale_round_trip_witness :
    (applyScale Sample.geographic
      (applyScale Sample.geographic (Sample.raw 0) ⟨fin 2, fin 2⟩ true)
      ⟨fin (1 / 2), fin (1 / 2)⟩ true).theUlGpt = (Sample.raw 0).theUlGpt ∧
    (applyScale Sample.geographic
      (applyScale Sample.geographic (Sample.raw 0) ⟨fin 2, fin 2⟩ true)
      ⟨fin (1 / 2), fin (1 / 2)⟩ true).theUlEastingNorthing
        = (Sample.raw 0).theUlEastingNorthing ∧
    (applyScale Sample.geographic
      (applyScale Sample.geographic (Sample.raw 0) ⟨fin 2, fin 2⟩ true)
      ⟨fin (1 / 2), fin (1 / 2)⟩ true).theMetersPerPixel = (Sample.raw 0).theMetersPerPixel ∧
    (applyScale Sample.geographic
      (applyScale Sample.geographic (Sample.raw 0) ⟨fin 2, fin 2⟩ true)
      ⟨fin (1 / 2), fin (1 / 2)⟩ true).theDegreesPerPixel = (Sample.raw 0).theDegreesPerPixel :=
  applyScale_round_trip Sample.geographic (Sample.raw 0) 2 (by norm_num) 2 3 2 3 5 7 7 5
    rfl rfl rfl rfl rfl (by simp [Sample.raw, Sample.gpt, Sample.fresh, new])
    (by simp [Sample.raw, Sample.gpt, Sample.dpt, Sample.geographic])
    (by simp [Sample.raw, Sample.gpt, Sample.dpt, Sample.geographic])

/-! ## Rounding and snapping -/

/-- The rounding of the source, `static_cast<int>(x > 0 ? x + 0.5 : x - 0.5)`, is the
round-half-away-from-zero of the spec wherever the conversion to `int` is defined. -/
theorem round_fin [FloorRing K] (x : K) :
    round (fin x) = if fitsInt (roundHalfAwayFromZero x) then
      fin ((roundHalfAwayFromZero x : ℤ) : K) else nan := by
  have key : (if 0 ≤ (if 0 < x then x + 1 / 2 else x - 1 / 2)
      then ⌊(if 0 < x then x + 1 / 2 else x - 1 / 2)⌋
      else ⌈(if 0 < x then x + 1 / 2 else x - 1 / 2)⌉) = roundHalfAwayFromZero x := by
    unfold roundHalfAwayFromZero
    rcases lt_trichotomy 0 x with h | h | h
    · have h1 : (0 : K) ≤ x + 1 / 2 := by linarith
      rw [if_pos h, if_pos h1, if_pos (le_of_lt h)]
    · subst h
      have h1 : ¬ (0 : K) ≤ 0 - 1 / 2 := by norm_num
      rw [if_neg (lt_irrefl _), if_neg h1, if_pos (le_refl _)]
      have e1 : ⌈(0 : K) - 1 / 2⌉ = 0 := by
        rw [Int.ceil_eq_iff]; norm_num
      have e2 : ⌊(0 : K) + 1 / 2⌋ = 0 := by
        rw [Int.floor_eq_iff]; norm_num
      rw [e1, e2]
    · have h1 : ¬ (0 : K) ≤ x - 1 / 2 := by
        intro h0; linarith
      rw [if_neg (not_lt.2 (le_of_lt h)), if_neg h1, if_neg (not_le.2 h)]
      have : -x + 1 / 2 = -(x - 1 / 2) := by ring
      rw [this, Int.floor_neg, neg_neg]
  unfold round castInt
  simp only [key, fitsInt]
  split_ifs <;> rfl

/-- The round-half-away-from-zero of a real is within one half of it. -/
theorem roundHalfAwayFromZero_near [FloorRing K] (x : K) :
    |((roundHalfAwayFromZero x : ℤ) : K) - x| ≤ 1 / 2 := by
  unfold roundHalfAwayFromZero
  by_cases h : 0 ≤ x
  · rw [if_pos h, abs_le]
    have h1 := Int.floor_le (x + 1 / 2)
    have h2 := Int.lt_floor_add_one (x + 1 / 2)
    constructor <;> linarith
  · rw [if_neg h, abs_le]
    have h1 := Int.floor_le (-x + 1 / 2)
    have h2 := Int.lt_floor_add_one (-x + 1 / 2)
    push_cast
    constructor <;> linarith

/-- An integer rounds to itself. -/
theorem roundHalfAwayFromZero_intCast [FloorRing K] (n : ℤ) :
    roundHalfAwayFromZero ((n : ℤ) : K) = n := by
  unfold roundHalfAwayFromZero
  have e2 : ⌊(1 / 2 : K)⌋ = 0 := by
    rw [Int.floor_eq_iff]; norm_num
  by_cases h : (0 : K) ≤ (n : K)
  · rw [if_pos h, Int.floor_int_add, e2, add_zero]
  · rw [if_neg h]
    have : (-(n : K) + 1 / 2) = ((-n : ℤ) : K) + 1 / 2 := by push_cast; ring
    rw [this, Int.floor_int_add, e2, add_zero, neg_neg]

/-- The rounding step of the snap methods on finite values, the multiple not zero. -/
theorem snap_fin [FloorRing K] (a c : K) (hc : c ≠ 0) :
    snap (fin a) (fin c) = if fitsInt (roundHalfAwayFromZero (a / c)) then
      fin ((roundHalfAwayFromZero (a / c) : ℤ) * c) else nan := by
  unfold snap
  rw [Dbl.fin_div_fin, if_neg hc, round_fin]
  split_ifs <;> rfl

/-- Snapping a snapped value changes nothing. -/
theorem snap_idem [FloorRing K] (d cm : Dbl K) : snap (snap d cm) cm = snap d cm := by
  cases d with
  | nan => simp [snap, round]
  | fin a =>
    cases cm with
    | nan => simp [snap, round]
    | fin c =>
      by_cases hc : c = 0
      · subst hc
        simp [snap, round]
      · rw [snap_fin a c hc]
        by_cases hf : fitsInt (roundHalfAwayFromZero (a / c))
        · rw [if_pos hf, snap_fin _ c hc, mul_div_cancel_right₀ _ hc,
            roundHalfAwayFromZero_intCast, if_pos hf]
        · rw [if_neg hf]
          simp [snap, round]

/-- Snapping about an offset a value that was snapped about it changes nothing. -/
theorem snap_offset_idem [FloorRing K] (d fe cm : Dbl K) :
    snap (snap (d - fe) cm + fe - fe) cm + fe = snap (d - fe) cm + fe := by
  cases fe with
  | nan => simp
  | fin f =>
    cases h : snap (d - fin f) cm with
    | nan => simp [snap, round]
    | fin v =>
      have e : (fin v + fin f - fin f : Dbl K) = fin v := by simp
      rw [e, ← h, snap_idem]

/-- C15: snap idempotence.  For every state, every multiple and every unit, applying
`snapTiePointTo(m, u)` twice leaves the same state as applying it once: the same tie point in
both forms and the same transform. -/
theorem snapTiePointTo_idempotent [FloorRing K] (S : Services K D)
    (s : ossimMapProjection K D) (multiple : Dbl K) (unitType : ossimUnitType) :
    snapTiePointTo S (snapTiePointTo S s multiple unitType) multiple unitType
      = snapTiePointTo S s multiple unitType := by
  cases hgeo : S.isGeographic
  · simp only [snapTiePointTo, hgeo, updateTransform, Bool.false_eq_true, if_false,
      false_and, not_false_eq_true, true_and, snap_offset_idem]
  · simp only [snapTiePointTo, hgeo, updateTransform, if_true, true_and, not_true_eq_false,
      false_and, if_false, snap_idem]

/-- A quotient within the range of `int` rounds to a value that fits `int`. -/
theorem fitsInt_of_abs_le [FloorRing K] (x : K) (h : |x| ≤ 2147483647) :
    fitsInt (roundHalfAwayFromZero x) := by
  have hn := abs_le.1 (roundHalfAwayFromZero_near x)
  have hx := abs_le.1 h
  have h1 : ((-2147483648 : ℤ) : K) < (roundHalfAwayFromZero x : ℤ) + 1 := by
    push_cast; linarith
  have h2 : ((roundHalfAwayFromZero x : ℤ) : K) < ((2147483647 : ℤ) : K) + 1 := by
    push_cast; linarith
  have h3 : (-2147483648 : ℤ) < roundHalfAwayFromZero x + 1 := by exact_mod_cast h1
  have h4 : roundHalfAwayFromZero x < (2147483647 : ℤ) + 1 := by exact_mod_cast h2
  unfold fitsInt
  constructor <;> omega

/-- A snapped coordinate is within half a multiple of the coordinate it comes from. -/
theorem snap_near [FloorRing K] (e fe m : K) (hm : 0 < m) :
    |fe + m * ((roundHalfAwayFromZero ((e - fe) / m) : ℤ) : K) - e| ≤ m / 2 := by
  have h := roundHalfAwayFromZero_near ((e - fe) / m)
  have e1 : fe + m * ((roundHalfAwayFromZero ((e - fe) / m) : ℤ) : K) - e
      = m * (((roundHalfAwayFromZero ((e - fe) / m) : ℤ) : K) - (e - fe) / m) := by
    field_simp
    ring
  rw [e1, abs_mul, abs_of_pos hm]
  calc m * |((roundHalfAwayFromZero ((e - fe) / m) : ℤ) : K) - (e - fe) / m|
      ≤ m * (1 / 2) := mul_le_mul_of_nonneg_left h (le_of_lt hm)
    _ = m / 2 := by ring

/-- C16, the claim as stated fails outside the range of `int`.  In projected mode, with unit
meters, multiple 1, no false easting and the tie point easting 3000000000, the claimed new
easting is `0 + 1 * R(3000000000 / 1) = 3000000000`; the source rounds through
`ossim::round<int>`, no `int` holds that value, and the new easting is not finite. -/
theorem snapTiePointTo_rounds_counterexample :
    Sample.planar.isGeographic = false ∧
    Sample.far.theUlEastingNorthing.x = fin 3000000000 ∧
    Sample.far.theFalseEastingNorthing.x = fin 0 ∧
    (0 + 1 * ((roundHalfAwayFromZero ((3000000000 - 0 : ℚ) / 1) : ℤ) : ℚ) : ℚ) = 3000000000 ∧
    (snapTiePointTo Sample.planar Sample.far (fin 1) OSSIM_METERS).theUlEastingNorthing.x
      = nan ∧
    (snapTiePointTo Sample.planar Sample.far (fin 1) OSSIM_METERS).theUlEastingNorthing.x
      ≠ fin (0 + 1 * ((roundHalfAwayFromZero ((3000000000 - 0 : ℚ) / 1) : ℤ) : ℚ)) := by
  have hq : ((3000000000 - 0 : ℚ) / 1) = ((3000000000 : ℤ) : ℚ) := by norm_num
  have hR : roundHalfAwayFromZero ((3000000000 - 0 : ℚ) / 1) = 3000000000 := by
    rw [hq, roundHalfAwayFromZero_intCast]
  have hx : (snapTiePointTo Sample.planar Sample.far (fin 1)
      OSSIM_METERS).theUlEastingNorthing.x = nan := by
    have hs : snap (fin (3000000000 - 0 : ℚ)) (fin 1) = nan := by
      rw [snap_fin _ _ one_ne_zero, hR, if_neg]
      unfold fitsInt
      omega
    simp only [snapTiePointTo, Sample.planar, Sample.geographic, updateTransform, Sample.far,
      Sample.raw, Sample.fresh, new, Sample.dpt, Bool.false_eq_true, if_false, false_and,
      not_false_eq_true, true_and, ne_eq, not_true_eq_false, and_false, Dbl.fin_sub_fin, hs,
      Dbl.nan_add]
  refine ⟨rfl, rfl, rfl, ?_, hx, ?_⟩
  · rw [hR]; norm_num
  · rw [hx]; exact fun h => Dbl.noConfusion h

/-- C16, amended: `snapTiePointTo` rounds to the nearest grid multiple wherever the rounded
quotient fits the `int` of `ossim::round<int>`.  In projected mode with unit meters and multiple
`m > 0` the new easting is `FE + m * R((old easting - FE) / m)` and the new northing
`FN + m * R((old northing - FN) / m)`, each within `m / 2` of the old coordinate, and the
geodetic tie point becomes `inverse` of the new projected one.  In geographic mode with unit
degrees the latitude and longitude become `m * R(lat / m)` and `m * R(lon / m)`, each within
`m / 2` of the old one, and the projected tie point becomes `forward` of the new geodetic
one. -/
theorem snapTiePointTo_rounds [FloorRing K] (S : Services K D) (s : ossimMapProjection K D)
    (m : K) (hm : 0 < m) :
    (S.isGeographic = false → ∀ e n fe fn : K,
      s.theUlEastingNorthing = ⟨fin e, fin n⟩ → s.theFalseEastingNorthing = ⟨fin fe, fin fn⟩ →
      fitsInt (roundHalfAwayFromZero ((e - fe) / m)) →
      fitsInt (roundHalfAwayFromZero ((n - fn) / m)) →
      (snapTiePointTo S s (fin m) OSSIM_METERS).theUlEastingNorthing
        = ⟨fin (fe + m * ((roundHalfAwayFromZero ((e - fe) / m) : ℤ) : K)),
            fin (fn + m * ((roundHalfAwayFromZero ((n - fn) / m) : ℤ) : K))⟩ ∧
      |fe + m * ((roundHalfAwayFromZero ((e - fe) / m) : ℤ) : K) - e| ≤ m / 2 ∧
      |fn + m * ((roundHalfAwayFromZero ((n - fn) / m) : ℤ) : K) - n| ≤ m / 2 ∧
      (snapTiePointTo S s (fin m) OSSIM_METERS).theUlGpt
        = S.inverse (snapTiePointTo S s (fin m) OSSIM_METERS).theUlEastingNorthing) ∧
    (S.isGeographic = true → ∀ la lo : K,
      s.theUlGpt.lat = fin la → s.theUlGpt.lon = fin lo →
      fitsInt (roundHalfAwayFromZero (la / m)) →
      fitsInt (roundHalfAwayFromZero (lo / m)) →
      (snapTiePointTo S s (fin m) OSSIM_DEGREES).theUlGpt.lat
        = fin (m * ((roundHalfAwayFromZero (la / m) : ℤ) : K)) ∧
      (snapTiePointTo S s (fin m) OSSIM_DEGREES).theUlGpt.lon
        = fin (m * ((roundHalfAwayFromZero (lo / m) : ℤ) : K)) ∧
      |m * ((roundHalfAwayFromZero (la / m) : ℤ) : K) - la| ≤ m / 2 ∧
      |m * ((roundHalfAwayFromZero (lo / m) : ℤ) : K) - lo| ≤ m / 2 ∧
      (snapTiePointTo S s (fin m) OSSIM_DEGREES).theUlEastingNorthing
        = S.forward (snapTiePointTo S s (fin m) OSSIM_DEGREES).theUlGpt) := by
  have hm0 : m ≠ 0 := ne_of_gt hm
  constructor
  · intro hgeo e n fe fn hE hF h1 h2
    refine ⟨?_, snap_near e fe m hm, snap_near n fn m hm, ?_⟩
    · simp only [snapTiePointTo, hgeo, updateTransform, Bool.false_eq_true, if_false,
        false_and, not_false_eq_true, true_and, ne_eq, not_true_eq_false, hE, hF,
        Dbl.fin_sub_fin, snap_fin _ _ hm0, if_pos h1, if_pos h2, Dbl.fin_add_fin]
      congr 2 <;> ring
    · simp only [snapTiePointTo, hgeo, updateTransform, Bool.false_eq_true, if_false,
        false_and, not_false_eq_true, true_and, ne_eq, not_true_eq_false]
  · intro hgeo la lo hla hlo h1 h2
    have z1 := snap_near la 0 m hm
    have z2 := snap_near lo 0 m hm
    simp only [sub_zero, zero_add] at z1 z2
    refine ⟨?_, ?_, z1, z2, ?_⟩
    · simp only [snapTiePointTo, hgeo, updateTransform, if_true, true_and, ne_eq,
        not_true_eq_false, and_false, if_false, false_and, hla, snap_fin _ _ hm0, if_pos h1,
        mul_comm]
    · simp only [snapTiePointTo, hgeo, updateTransform, if_true, true_and, ne_eq,
        not_true_eq_false, and_false, if_false, false_and, hlo, snap_fin _ _ hm0, if_pos h2,
        mul_comm]
    · simp only [snapTiePointTo, hgeo, updateTransform, if_true, true_and, ne_eq,
        not_true_eq_false, and_false, if_false, false_and]

/-- The amended C16 on a concrete state: the planar kernel, tie point (5, 7), no false easting,
multiple 2: the tie point becomes (6, 8). -/
theorem snapTiePointTo_rounds_witness :
    (snapTiePointTo Sample.planar (Sample.raw 0) (fin 2) OSSIM_METERS).theUlEastingNorthing
      = ⟨fin (0 + 2 * ((roundHalfAwayFromZero ((5 - 0 : ℚ) / 2) : ℤ) : ℚ)),
          fin (0 + 2 * ((roundHalfAwayFromZero ((7 - 0 : ℚ) / 2) : ℤ) : ℚ))⟩ ∧
    |0 + 2 * ((roundHalfAwayFromZero ((5 - 0 : ℚ) / 2) : ℤ) : ℚ) - 5| ≤ 2 / 2 :=
  have h := (snapTiePointTo_rounds Sample.planar (Sample.raw 0) 2 (by norm_num)).1 rfl
    5 7 0 0 rfl rfl
    (fitsInt_of_abs_le _ (by rw [abs_le]; constructor <;> norm_num))
    (fitsInt_of_abs_le _ (by rw [abs_le]; constructor <;> norm_num))
  ⟨h.1, h.2.1⟩

/-- The snapped offset from a reference value is an integer multiple of the pixel scale. -/
theorem snap_offset_isIntegerMultiple [FloorRing K] (v o p : K) (hp : p ≠ 0)
    (hf : fitsInt (roundHalfAwayFromZero ((v - o) / p))) :
    isIntegerMultiple (snap (fin v - fin o) (fin p) + fin o - fin o) (fin p) := by
  refine ⟨roundHalfAwayFromZero ((v - o) / p), p, rfl, ?_⟩
  rw [Dbl.fin_sub_fin, snap_fin _ _ hp, if_pos hf]
  simp

/-- C17, the claim as stated fails in projected mode.  The planar kernel sends the origin
(0 N, 0.005 E) to the model point (1/2, 0); with no false easting, linear scale (1, 1) and tie
point easting 16/5, `snapTiePointToOrigin` rounds the easting about the false easting 0 to 3,
which is 5/2 pixels from the projected origin, not an integer multiple of the pixel scale 1. -/
theorem snapTiePointToOrigin_aligns_counterexample :
    Sample.planar.isGeographic = false ∧
    (snapTiePointToOrigin Sample.planar Sample.offOrigin).theUlEastingNorthing.x = fin 3 ∧
    (Sample.planar.forward (snapTiePointToOrigin Sample.planar Sample.offOrigin).theOrigin).x
      = fin (1 / 2) ∧
    (snapTiePointToOrigin Sample.planar Sample.offOrigin).theMetersPerPixel.x = fin 1 ∧
    ¬ isIntegerMultiple
      ((snapTiePointToOrigin Sample.planar Sample.offOrigin).theUlEastingNorthing.x
        - (Sample.planar.forward
            (snapTiePointToOrigin Sample.planar Sample.offOrigin).theOrigin).x)
      (snapTiePointToOrigin Sample.planar Sample.offOrigin).theMetersPerPixel.x := by
  have hR : roundHalfAwayFromZero ((16 / 5 - 0 : ℚ) / 1) = 3 := by
    unfold roundHalfAwayFromZero
    rw [if_pos (by norm_num), Int.floor_eq_iff]
    constructor <;> norm_num
  have hs : snap (fin (16 / 5 - 0 : ℚ)) (fin 1) = fin 3 := by
    rw [snap_fin _ _ one_ne_zero, hR, if_pos (by unfold fitsInt; omega)]
    norm_num
  have hx : (snapTiePointToOrigin Sample.planar Sample.offOrigin).theUlEastingNorthing.x
      = fin 3 := by
    simp only [snapTiePointToOrigin, Sample.planar, Sample.geographic, updateTransform,
      Sample.offOrigin, Sample.raw, Sample.fresh, new, Sample.dpt, Bool.false_eq_true,
      if_false, Dbl.fin_sub_fin, hs, Dbl.fin_add_fin, add_zero]
  have ho : (Sample.planar.forward
      (snapTiePointToOrigin Sample.planar Sample.offOrigin).theOrigin).x = fin (1 / 2) := by
    simp [snapTiePointToOrigin, Sample.planar, Sample.geographic, updateTransform,
      Sample.offOrigin, Sample.gpt]
    norm_num
  have hmx : (snapTiePointToOrigin Sample.planar Sample.offOrigin).theMetersPerPixel.x
      = fin 1 := by
    simp [snapTiePointToOrigin, Sample.planar, Sample.geographic, updateTransform,
      Sample.offOrigin, Sample.dpt]
  refine ⟨rfl, hx, ho, hmx, ?_⟩
  rw [hx, ho, hmx]
  rintro ⟨n, p, hp, hd⟩
  injection hp with hp
  subst hp
  simp only [Dbl.fin_sub_fin] at hd
  injection hd with hd
  have h2 : ((2 * n : ℤ) : ℚ) = ((5 : ℤ) : ℚ) := by
    push_cast
    linarith
  have h3 : 2 * n = 5 := by exact_mod_cast h2
  omega

/-- C17, amended: `snapTiePointToOrigin` aligns the tie point to a pixel boundary.  With finite
non-zero pixel scale, wherever the rounded quotient fits the `int` of `ossim::round<int>`: in
geographic mode the difference between the geodetic tie point and the origin latitude and
longitude is, on each axis, an integer multiple of the angular pixel scale on that axis; in
projected mode the difference between the projected tie point and the false easting/northing is,
on each axis, an integer multiple of the linear pixel scale on that axis. -/
theorem snapTiePointToOrigin_aligns [FloorRing K] (S : Services K D)
    (s : ossimMapProjection K D) :
    (S.isGeographic = true → ∀ la lo oa oo dx dy : K,
      s.theUlGpt.lat = fin la → s.theUlGpt.lon = fin lo →
      s.theOrigin.lat = fin oa → s.theOrigin.lon = fin oo →
      s.theDegreesPerPixel = ⟨fin dx, fin dy⟩ → dx ≠ 0 → dy ≠ 0 →
      fitsInt (roundHalfAwayFromZero ((la - oa) / dy)) →
      fitsInt (roundHalfAwayFromZero ((lo - oo) / dx)) →
      isIntegerMultiple
        ((snapTiePointToOrigin S s).theUlGpt.lat - (snapTiePointToOrigin S s).theOrigin.lat)
        (snapTiePointToOrigin S s).theDegreesPerPixel.lat ∧
      isIntegerMultiple
        ((snapTiePointToOrigin S s).theUlGpt.lon - (snapTiePointToOrigin S s).theOrigin.lon)
        (snapTiePointToOrigin S s).theDegreesPerPixel.lon) ∧
    (S.isGeographic = false → ∀ e n fe fn mx my : K,
      s.theUlEastingNorthing = ⟨fin e, fin n⟩ → s.theFalseEastingNorthing = ⟨fin fe, fin fn⟩ →
      s.theMetersPerPixel = ⟨fin mx, fin my⟩ → mx ≠ 0 → my ≠ 0 →
      fitsInt (roundHalfAwayFromZero ((e - fe) / mx)) →
      fitsInt (roundHalfAwayFromZero ((n - fn) / my)) →
      isIntegerMultiple
        ((snapTiePointToOrigin S s).theUlEastingNorthing.x
          - (snapTiePointToOrigin S s).theFalseEastingNorthing.x)
        (snapTiePointToOrigin S s).theMetersPerPixel.x ∧
      isIntegerMultiple
        ((snapTiePointToOrigin S s).theUlEastingNorthing.y
          - (snapTiePointToOrigin S s).theFalseEastingNorthing.y)
        (snapTiePointToOrigin S s).theMetersPerPixel.y) := by
  constructor
  · intro hgeo la lo oa oo dx dy hla hlo hoa hoo hdeg hdx hdy h1 h2
    simp only [snapTiePointToOrigin, hgeo, updateTransform, if_true, hla, hlo, hoa, hoo, hdeg,
      ossimDpt.lat, ossimDpt.lon]
    exact ⟨snap_offset_isIntegerMultiple la oa dy hdy h1,
      snap_offset_isIntegerMultiple lo oo dx hdx h2⟩
  · intro hgeo e n fe fn mx my hE hF hM hmx hmy h1 h2
    simp only [snapTiePointToOrigin, hgeo, updateTransform, Bool.false_eq_true, if_false, hE,
      hF, hM]
    exact ⟨snap_offset_isIntegerMultiple e fe mx hmx h1,
      snap_offset_isIntegerMultiple n fn my hmy h2⟩

/-- The amended C17 on a concrete state: the planar kernel, tie point (5, 7), no false easting,
linear scale (2, 3). -/
theorem snapTiePointToOrigin_aligns_witness :
    isIntegerMultiple
      ((snapTiePointToOrigin Sample.planar (Sample.raw 0)).theUlEastingNorthing.x
        - (snapTiePointToOrigin Sample.planar (Sample.raw 0)).theFalseEastingNorthing.x)
      (snapTiePointToOrigin Sample.planar (Sample.raw 0)).theMetersPerPixel.x :=
  ((snapTiePointToOrigin_aligns Sample.planar (Sample.raw 0)).2 rfl 5 7 0 0 2 3 rfl rfl rfl
    (by norm_num) (by norm_num)
    (fitsInt_of_abs_le _ (by rw [abs_le]; constructor <;> norm_num))
    (fitsInt_of_abs_le _ (by rw [abs_le]; constructor <;> norm_num))).1

/-! ## The two equalities -/

/-- C18: `operator==` returns true if and only if the class names match, the other object is a
map projection, and either both stored PCS codes are non-zero, not the sentinel 32767 and equal,
or the datums are equal, the origins are not different, the false easting/northing are not
different, the declared units are equal and not unknown, and the forward transforms are not
different. -/
theorem operatorEq_iff (C : Comparisons K D) (className projectionClassName : String)
    (self : ossimMapProjection K D) (projection : Option (ossimMapProjection K D)) :
    operatorEq C className self projectionClassName projection = true ↔
      className = projectionClassName ∧ ∃ mapProj, projection = some mapProj ∧
        ((self.thePcsCode ≠ 0 ∧ mapProj.thePcsCode ≠ 0 ∧ self.thePcsCode ≠ 32767 ∧
            mapProj.thePcsCode ≠ 32767 ∧ self.thePcsCode = mapProj.thePcsCode) ∨
          (self.theDatum = mapProj.theDatum ∧
            C.gptNe self.theOrigin mapProj.theOrigin = false ∧
            C.dptNe self.theFalseEastingNorthing mapProj.theFalseEastingNorthing = false ∧
            self.theProjectionUnits = mapProj.theProjectionUnits ∧
            self.theProjectionUnits ≠ OSSIM_UNIT_UNKNOWN ∧
            C.matrixNe self.theModelTransform mapProj.theModelTransform = false)) := by
  unfold operatorEq
  by_cases hc : className = projectionClassName
  · cases projection with
    | none => simp [hc]
    | some mapProj =>
      simp only [hc, ne_eq, not_true_eq_false, if_false, Option.some.injEq, exists_eq_left',
        true_and]
      by_cases hp : self.thePcsCode ≠ 0 ∧ mapProj.thePcsCode ≠ 0 ∧ self.thePcsCode ≠ 32767 ∧
          self.thePcsCode = mapProj.thePcsCode
      · rw [if_pos hp]
        simp only [true_iff]
        exact Or.inl ⟨hp.1, hp.2.1, hp.2.2.1, hp.2.2.2 ▸ hp.2.2.1, hp.2.2.2⟩
      · rw [if_neg hp]
        have hp2 : ¬ (self.thePcsCode ≠ 0 ∧ mapProj.thePcsCode ≠ 0 ∧
            self.thePcsCode ≠ 32767 ∧ mapProj.thePcsCode ≠ 32767 ∧
            self.thePcsCode = mapProj.thePcsCode) :=
          fun h => hp ⟨h.1, h.2.1, h.2.2.1, h.2.2.2.2⟩
        simp only [hp2, false_or]
        by_cases h1 : self.theDatum = mapProj.theDatum <;>
          cases h2 : C.gptNe self.theOrigin mapProj.theOrigin <;>
          cases h3 : C.dptNe self.theFalseEastingNorthing mapProj.theFalseEastingNorthing <;>
          by_cases h4 : self.theProjectionUnits = mapProj.theProjectionUnits <;>
          by_cases h5 : self.theProjectionUnits = OSSIM_UNIT_UNKNOWN <;>
          cases h6 : C.matrixNe self.theModelTransform mapProj.theModelTransform <;>
          simp [h1, h4, h5]
  · simp [hc]

/-- The sample projection resolved by `update`, field by field. -/
theorem resolved_fields :
    Sample.resolved.thePcsCode = 0 ∧
    Sample.resolved.theDatum = some 0 ∧
    Sample.resolved.theOrigin = Sample.gpt 0 0 ∧
    Sample.resolved.theFalseEastingNorthing = ⟨fin 0, fin 0⟩ ∧
    Sample.resolved.theProjectionUnits = OSSIM_METERS ∧
    Sample.resolved.theMetersPerPixel = Sample.dpt 2 3 ∧
    Sample.resolved.theUlEastingNorthing = Sample.dpt 5 7 ∧
    Sample.resolved.theModelTransform 0 0 = fin 2 := by
  have h : Sample.resolved = updateTransform Sample.geographic
      (computeDegreesPerPixel Sample.geographic (Sample.raw 0)) :=
    update_resolved Sample.geographic (Sample.raw 0)
      (by simp [Sample.raw, Sample.dpt, ossimDpt.hasNans])
      (by simp [Sample.raw, Sample.gpt, ossimGpt.hasNans])
      (by simp [Sample.raw, Sample.dpt, ossimDpt.hasNans])
  rw [h]
  simp [updateTransform, computeDegreesPerPixel, Sample.raw, Sample.fresh, new, Sample.gpt,
    Sample.dpt, ossimMatrix4x4.set]

/-- The coarser sample projection resolved by `update`, field by field. -/
theorem coarser_fields :
    Sample.coarser.thePcsCode = 0 ∧
    Sample.coarser.theDatum = some 0 ∧
    Sample.coarser.theOrigin = Sample.gpt 0 0 ∧
    Sample.coarser.theFalseEastingNorthing = ⟨fin 0, fin 0⟩ ∧
    Sample.coarser.theProjectionUnits = OSSIM_METERS ∧
    Sample.coarser.theMetersPerPixel = Sample.dpt 4 6 ∧
    Sample.coarser.theUlEastingNorthing = Sample.dpt 5 7 ∧
    Sample.coarser.theModelTransform 0 0 = fin 4 := by
  have h : Sample.coarser = updateTransform Sample.geographic
      (computeDegreesPerPixel Sample.geographic
        { Sample.raw 0 with theMetersPerPixel := Sample.dpt 4 6 }) :=
    update_resolved Sample.geographic _
      (by simp [Sample.dpt, ossimDpt.hasNans])
      (by simp [Sample.raw, Sample.gpt, ossimGpt.hasNans])
      (by simp [Sample.raw, Sample.dpt, ossimDpt.hasNans])
  rw [h]
  simp [updateTransform, computeDegreesPerPixel, Sample.raw, Sample.fresh, new, Sample.gpt,
    Sample.dpt, ossimMatrix4x4.set]

/-- C19, the code at the failing input.  Two projections of the same class, both resolved by
`update`, with the same datum, origin, false easting/northing and declared unit meters, no PCS
code, the same tie point, and linear pixel scales (2, 3) and (4, 6): their forward transforms
differ in the entry `m[0][0]` (2 against 4) and `operator==` returns false. -/
theorem operatorEq_sees_image_geometry :
    Sample.resolved.theDatum = Sample.coarser.theDatum ∧
    Sample.exact.gptNe Sample.resolved.theOrigin Sample.coarser.theOrigin = false ∧
    Sample.exact.dptNe Sample.resolved.theFalseEastingNorthing
      Sample.coarser.theFalseEastingNorthing = false ∧
    Sample.resolved.theProjectionUnits = Sample.coarser.theProjectionUnits ∧
    Sample.resolved.theProjectionUnits = OSSIM_METERS ∧
    Sample.resolved.theUlEastingNorthing = Sample.coarser.theUlEastingNorthing ∧
    Sample.resolved.theModelTransform 0 0 = fin 2 ∧
    Sample.coarser.theModelTransform 0 0 = fin 4 ∧
    operatorEq Sample.exact "ossimLlxyProjection" Sample.resolved
      "ossimLlxyProjection" (some Sample.coarser) = false := by
  obtain ⟨a1, a2, a3, a4, a5, -, a7, a8⟩ := resolved_fields
  obtain ⟨b1, b2, b3, b4, b5, -, b7, b8⟩ := coarser_fields
  have hM : Sample.exact.matrixNe Sample.resolved.theModelTransform
      Sample.coarser.theModelTransform = true := by
    simp only [Sample.exact, Sample.sameMatrix, Bool.not_eq_true', decide_eq_false_iff_not]
    intro h
    have h00 := h 0 0
    rw [a8, b8] at h00
    simp [Sample.same] at h00
  have hO : Sample.exact.gptNe Sample.resolved.theOrigin Sample.coarser.theOrigin = false := by
    rw [a3, b3]
    simp [Sample.exact, Sample.sameGpt, Sample.same, Sample.gpt]
  have hF : Sample.exact.dptNe Sample.resolved.theFalseEastingNorthing
      Sample.coarser.theFalseEastingNorthing = false := by
    rw [a4, b4]
    simp [Sample.exact, Sample.sameDpt, Sample.same]
  refine ⟨by rw [a2, b2], hO, hF, by rw [a5, b5], a5, by rw [a7, b7], a8, b8, ?_⟩
  unfold operatorEq
  simp only [ne_eq, not_true_eq_false, if_false, a1, b1, false_and, a2, b2, hO, hF,
    Bool.false_eq_true, a5, b5, false_or, hM, if_true]
  simp

/-- A matrix of finite entries compares equal to itself entry by entry. -/
theorem sameMatrix_ofFinite (m : Matrix (Fin 4) (Fin 4) ℚ) :
    Sample.sameMatrix (ofFinite m) (ofFinite m) = true := by
  simp [Sample.sameMatrix, ofFinite, Sample.same]

/-- C20, the claim as stated fails in full mode when a datum is missing.  The sample
projection on datum 0 and the same projection with a null datum pass every member comparison;
in the full comparison `isEqualTo` compares the datums only when both are present, and returns
true although the datums are not equal by value. -/
theorem isEqualTo_iff_counterexample :
    Sample.built.theDatum = some 0 ∧
    isEqualTo Sample.exact Sample.built (some { Sample.built with theDatum := none }) true
      OSSIM_COMPARE_FULL = true ∧
    ¬ datumsEqualByValue Sample.exact Sample.built.theDatum
        ({ Sample.built with theDatum := none } : ossimMapProjection ℚ ℕ).theDatum
        OSSIM_COMPARE_FULL := by
  have hd : Sample.built.theDatum = some 0 := by
    simp [Sample.built, updateTransform, Sample.raw, Sample.fresh, new, Sample.gpt]
  have hM : Sample.built.theModelTransform
      = ofFinite (affM (2 * Sample.geographic.cosd 0) (3 * Sample.geographic.sind 0)
          (-2 * Sample.geographic.sind 0) (3 * Sample.geographic.cosd 0) 5 7) :=
    (updateTransform_finite Sample.geographic sample_cosd_zero sample_sind_zero (Sample.raw 0)
      2 3 5 7 0 rfl (by norm_num) (by norm_num) rfl rfl
      (by norm_num [Sample.geographic, Sample.cosd, Sample.sind])).1
  refine ⟨hd, ?_, ?_⟩
  · unfold isEqualTo
    simp only [hM, hd, sameMatrix_ofFinite, Sample.exact]
    simp [Sample.built, updateTransform, Sample.raw, Sample.fresh, new, Sample.gpt, Sample.dpt,
      Sample.wgs84, Sample.sameGpt, Sample.sameDpt, Sample.same]
  · rw [hd]
    simp [datumsEqualByValue]

/-- C20, amended: `isEqualTo(obj, mode)` returns true if and only if `obj` is a map projection,
the base class comparison succeeds, the ellipsoid, origin, both pixel scale forms, both tie point
forms and the false easting/northing compare equal under `mode`, the stored PCS code, the
elevation lookup flag and the declared unit are equal, the forward transforms compare equal,
and: in full mode the datums are equal by value whenever both projections have one (they are
not compared when one is null); in every other mode the two datum pointers are the same. -/
theorem isEqualTo_iff (C : Comparisons K D) (self : ossimMapProjection K D)
    (obj : Option (ossimMapProjection K D)) (baseIsEqualTo : Bool)
    (compareType : ossimCompareType) :
    isEqualTo C self obj baseIsEqualTo compareType = true ↔
      ∃ mapProj, obj = some mapProj ∧ baseIsEqualTo = true ∧
        C.ellipsoidIsEqualTo self.theEllipsoid mapProj.theEllipsoid compareType = true ∧
        C.gptIsEqualTo self.theOrigin mapProj.theOrigin compareType = true ∧
        C.dptIsEqualTo self.theMetersPerPixel mapProj.theMetersPerPixel compareType = true ∧
        C.dptIsEqualTo self.theDegreesPerPixel mapProj.theDegreesPerPixel compareType = true ∧
        C.gptIsEqualTo self.theUlGpt mapProj.theUlGpt compareType = true ∧
        C.dptIsEqualTo self.theUlEastingNorthing mapProj.theUlEastingNorthing compareType
          = true ∧
        C.dptIsEqualTo self.theFalseEastingNorthing mapProj.theFalseEastingNorthing
          compareType = true ∧
        self.thePcsCode = mapProj.thePcsCode ∧
        self.theElevationLookupFlag = mapProj.theElevationLookupFlag ∧
        C.matrixIsEqualTo self.theModelTransform mapProj.theModelTransform = true ∧
        self.theProjectionUnits = mapProj.theProjectionUnits ∧
        (if compareType = OSSIM_COMPARE_FULL then
          ∀ d e, self.theDatum = some d → mapProj.theDatum = some e →
            C.datumIsEqualTo d e compareType = true
        else self.theDatum = mapProj.theDatum) := by
  unfold isEqualTo
  cases obj with
  | none => simp
  | some mapProj =>
    simp only [Option.some.injEq, exists_eq_left']
    cases baseIsEqualTo with
    | false => simp
    | true =>
      simp only [if_true, true_and]
      by_cases hc : compareType = OSSIM_COMPARE_FULL
      · simp only [hc, if_true]
        cases h1 : self.theDatum <;> cases h2 : mapProj.theDatum <;>
          simp [Bool.and_eq_true, and_assoc]
      · simp only [hc, if_false]
        simp [Bool.and_eq_true, and_assoc]

/-! ## The datum and the PCS code -/

/-- The scale resolution writes the two scale forms and the transforms only. -/
theorem resolveScale_frame (S : Services K D) (s : ossimMapProjection K D) :
    (resolveScale S s).theDatum = s.theDatum ∧
    (resolveScale S s).theEllipsoid = s.theEllipsoid ∧
    (resolveScale S s).theOrigin = s.theOrigin ∧
    (resolveScale S s).thePcsCode = s.thePcsCode ∧
    (resolveScale S s).theUlGpt = s.theUlGpt ∧
    (resolveScale S s).theUlEastingNorthing = s.theUlEastingNorthing := by
  unfold resolveScale
  split_ifs <;> exact ⟨rfl, rfl, rfl, rfl, rfl, rfl⟩

/-- The default scale writes the two scale forms and the transforms only. -/
theorem defaultScale_frame (S : Services K D) (s : ossimMapProjection K D) :
    (defaultScale S s).theDatum = s.theDatum ∧
    (defaultScale S s).theEllipsoid = s.theEllipsoid ∧
    (defaultScale S s).theOrigin = s.theOrigin ∧
    (defaultScale S s).thePcsCode = s.thePcsCode ∧
    (defaultScale S s).theUlGpt = s.theUlGpt ∧
    (defaultScale S s).theUlEastingNorthing = s.theUlEastingNorthing := by
  unfold defaultScale
  split_ifs <;> exact ⟨rfl, rfl, rfl, rfl, rfl, rfl⟩

/-- The tie point resolution keeps the datum, the ellipsoid and the PCS code. -/
theorem resolveTiePoint_keeps (S : Services K D) (s : ossimMapProjection K D) :
    (resolveTiePoint S s).theDatum = s.theDatum ∧
    (resolveTiePoint S s).theEllipsoid = s.theEllipsoid ∧
    (resolveTiePoint S s).thePcsCode = s.thePcsCode := by
  unfold resolveTiePoint
  split_ifs <;> exact ⟨rfl, rfl, rfl⟩

/-- The fields that `update` never writes. -/
theorem update_frame (S : Services K D) (s : ossimMapProjection K D) :
    (update S s).theDatum = s.theDatum ∧
    (update S s).theEllipsoid = s.theEllipsoid ∧
    (update S s).theOrigin = s.theOrigin ∧
    (update S s).thePcsCode = s.thePcsCode := by
  obtain ⟨a1, a2, a3, a4, -, -⟩ := resolveScale_frame S s
  obtain ⟨b1, b2, b4⟩ := resolveTiePoint_keeps S (resolveScale S s)
  obtain ⟨-, -, b3⟩ := resolveTiePoint_frame S (resolveScale S s)
  obtain ⟨c1, c2, c3, c4, -, -⟩ := defaultScale_frame S (resolveTiePoint S (resolveScale S s))
  rw [update_eq]
  refine ⟨?_, ?_, ?_, ?_⟩
  · exact c1.trans (b1.trans a1)
  · exact c2.trans (b2.trans a2)
  · exact c3.trans (b3.trans a3)
  · exact c4.trans (b4.trans a4)

/-- The tie point forms that `update` leaves are those that its second block leaves on the
forms it found. -/
theorem update_tie (S : Services K D) (s : ossimMapProjection K D) :
    (update S s).theUlGpt = (resolveTiePoint S (resolveScale S s)).theUlGpt ∧
    (update S s).theUlEastingNorthing
      = (resolveTiePoint S (resolveScale S s)).theUlEastingNorthing ∧
    (resolveScale S s).theUlGpt = s.theUlGpt ∧
    (resolveScale S s).theUlEastingNorthing = s.theUlEastingNorthing ∧
    (resolveScale S s).theOrigin = s.theOrigin := by
  obtain ⟨-, -, a3, -, a5, a6⟩ := resolveScale_frame S s
  obtain ⟨-, -, -, -, c5, c6⟩ := defaultScale_frame S (resolveTiePoint S (resolveScale S s))
  rw [update_eq]
  exact ⟨c5, c6, a5, a6, a3⟩

/-- The geodetic tie point that `update` leaves is the one it found, the origin, or a point that
the kernel gave back. -/
theorem update_tie_cases (S : Services K D) (s : ossimMapProjection K D) :
    (update S s).theUlGpt = s.theUlGpt ∨ (update S s).theUlGpt = s.theOrigin ∨
      ∃ p, (update S s).theUlGpt = S.inverse p := by
  obtain ⟨h1, -, h3, -, h5⟩ := update_tie S s
  rw [h1]
  unfold resolveTiePoint
  split_ifs
  · exact Or.inl h3
  · exact Or.inr (Or.inr ⟨_, rfl⟩)
  · exact Or.inr (Or.inl h5)
  · exact Or.inl h3

/-- C21: the postcondition of `setDatum`.  For a datum `d` that is not the current one and has
an ellipsoid, with a datum service whose `changeDatum` gives points in the datum asked for and
a kernel that gives points in `d`: after `setDatum(d)` the datum is `d`, the cached ellipsoid is
the ellipsoid of `d`, the origin and the geodetic tie point carry `d`, and the stored PCS code
is 0, so that the next `getPcsCode()` stores what the registry answers. -/
theorem setDatum_postcondition (S : Services K D) (s : ossimMapProjection K D) (d : D)
    (e : ossimEllipsoid K) (hne : s.theDatum ≠ some d) (he : S.datumEllipsoid d = some e)
    (hshift : ∀ g, (S.changeDatum g (some d)).datum = some d)
    (hkernel : ∀ p, (S.inverse p).datum = some d) :
    (setDatum S s (some d)).theDatum = some d ∧
    (setDatum S s (some d)).theEllipsoid = e ∧
    (setDatum S s (some d)).theOrigin.datum = some d ∧
    (setDatum S s (some d)).theUlGpt.datum = some d ∧
    (setDatum S s (some d)).thePcsCode = 0 ∧
    (getPcsCode S (setDatum S s (some d))).2.thePcsCode
      = (if S.findProjectionCode (setDatum S s (some d)) = 0 then 32767
          else S.findProjectionCode (setDatum S s (some d))) := by
  have hset : setDatum S s (some d)
      = { update S
            { s with
              theDatum := some d
              theEllipsoid := (S.datumEllipsoid d).getD s.theEllipsoid
              theOrigin := S.changeDatum s.theOrigin (some d)
              theUlGpt := S.changeDatum s.theUlGpt (some d) } with thePcsCode := 0 } := by
    simp only [setDatum, if_neg hne]
  obtain ⟨f1, f2, f3, -⟩ := update_frame S
    { s with
      theDatum := some d
      theEllipsoid := (S.datumEllipsoid d).getD s.theEllipsoid
      theOrigin := S.changeDatum s.theOrigin (some d)
      theUlGpt := S.changeDatum s.theUlGpt (some d) }
  have htie := update_tie_cases S
    { s with
      theDatum := some d
      theEllipsoid := (S.datumEllipsoid d).getD s.theEllipsoid
      theOrigin := S.changeDatum s.theOrigin (some d)
      theUlGpt := S.changeDatum s.theUlGpt (some d) }
  have hp : (setDatum S s (some d)).thePcsCode = 0 := by rw [hset]
  refine ⟨?_, ?_, ?_, ?_, hp, ?_⟩
  · rw [hset]; exact f1
  · rw [hset]
    show (update S _).theEllipsoid = e
    rw [f2, he]
    rfl
  · rw [hset]
    show (update S _).theOrigin.datum = some d
    rw [f3]
    exact hshift _
  · rw [hset]
    show (update S _).theUlGpt.datum = some d
    rcases htie with h | h | ⟨p, h⟩
    · rw [h]; exact hshift _
    · rw [h]; exact hshift _
    · rw [h]; exact hkernel p
  · simp only [getPcsCode, hp, if_true]
    split_ifs <;> rfl

/-- C21 on a concrete state: the sample projection on datum 0 moved to datum 1. -/
theorem setDatum_postcondition_witness :
    (setDatum { Sample.geographic with inverse := fun p => ⟨p.y, p.x, fin 0, some 1⟩ }
      (Sample.raw 0) (some 1)).theDatum = some 1 ∧
    (setDatum { Sample.geographic with inverse := fun p => ⟨p.y, p.x, fin 0, some 1⟩ }
      (Sample.raw 0) (some 1)).theUlGpt.datum = some 1 ∧
    (setDatum { Sample.geographic with inverse := fun p => ⟨p.y, p.x, fin 0, some 1⟩ }
      (Sample.raw 0) (some 1)).thePcsCode = 0 :=
  have h := setDatum_postcondition
    { Sample.geographic with inverse := fun p => ⟨p.y, p.x, fin 0, some 1⟩ } (Sample.raw 0) 1
    Sample.wgs84 (by simp [Sample.raw, Sample.fresh, new, Sample.gpt]) rfl (fun _ => rfl)
    (fun _ => rfl)
  ⟨h.1, h.2.2.2.1, h.2.2.2.2.1⟩

/-- C22: `getPcsCode` is a lazy memoized lookup that hides the sentinel.  The call never
returns 32767; a stored code 0 is replaced by the answer of the registry, or by 32767 when the
registry answers 0, and a stored code that is not 0 is kept; the call returns 0 exactly when the
code stored after the call is 32767 and the stored code otherwise; nothing else in the state
changes; the code stored after the call is not 0, and a second call returns the same value and
leaves the same state whatever the registry would answer. -/
theorem getPcsCode_memoizes (S T : Services K D) (s : ossimMapProjection K D) :
    (getPcsCode S s).1 ≠ 32767 ∧
    (getPcsCode S s).2.thePcsCode
      = (if s.thePcsCode = 0 then
          (if S.findProjectionCode s = 0 then 32767 else S.findProjectionCode s)
        else s.thePcsCode) ∧
    ((getPcsCode S s).1 = 0 ↔ (getPcsCode S s).2.thePcsCode = 32767) ∧
    (getPcsCode S s).1
      = (if (getPcsCode S s).2.thePcsCode = 32767 then 0 else (getPcsCode S s).2.thePcsCode) ∧
    (getPcsCode S s).2 = { s with thePcsCode := (getPcsCode S s).2.thePcsCode } ∧
    (getPcsCode S s).2.thePcsCode ≠ 0 ∧
    getPcsCode T (getPcsCode S s).2 = getPcsCode S s := by
  unfold getPcsCode
  rcases s with ⟨e, o, d, m, g, u, en, fe, c, fl, mt, im, pu, az⟩
  dsimp only
  generalize S.findProjectionCode _ = f
  by_cases h0 : c = 0
  · subst h0
    by_cases h1 : f = 0
    · subst h1
      simp
    · by_cases h2 : f = 32767
      · subst h2
        simp
      · simp [h1, h2]
  · by_cases h2 : c = 32767
    · subst h2
      simp
    · simp [h0, h2]

/-! ## Loading and saving -/

/-- The loop of `loadState` writes the cell `[0][0]` only, and leaves the last element there. -/
theorem fillTransform_eq (m : ossimMatrix4x4 K) (elements : List (Dbl K)) :
    fillTransform m elements
      = match elements.getLast? with
        | some e => m.set 0 0 e
        | none => m := by
  have hf : ∀ (l : List (Dbl K)) (m : ossimMatrix4x4 K),
      l.foldl (fun m e => m.set 0 0 e) m
        = match l.getLast? with
          | some e => m.set 0 0 e
          | none => m := by
    intro l
    induction l with
    | nil => intro m; rfl
    | cons a l ih =>
      intro m
      rw [List.foldl_cons, ih]
      cases l with
      | nil => rfl
      | cons b l2 =>
        obtain ⟨e, he⟩ : ∃ e, (b :: l2).getLast? = some e :=
          ⟨_, List.getLast?_eq_getLast _ (List.cons_ne_nil b l2)⟩
        have h : (a :: b :: l2).getLast? = some e := by
          rw [List.getLast?_cons_cons, he]
        rw [h, he]
        funext r c
        simp only [ossimMatrix4x4.set]
        split_ifs <;> rfl
  exact hf elements m

/-- The parameters that `loadState` reads from the sample keyword list, whatever transform the
list holds. -/
theorem keywords_parameters (es : Option (List (Dbl ℚ))) :
    (loadParameters Sample.planar 0 Sample.fresh
      { Sample.keywords with IMAGE_MODEL_TRANSFORM_MATRIX_KW := es }).theMetersPerPixel
        = Sample.dpt 2 3 ∧
    (loadParameters Sample.planar 0 Sample.fresh
      { Sample.keywords with IMAGE_MODEL_TRANSFORM_MATRIX_KW := es }).theUlEastingNorthing
        = Sample.dpt 5 7 ∧
    (loadParameters Sample.planar 0 Sample.fresh
      { Sample.keywords with IMAGE_MODEL_TRANSFORM_MATRIX_KW := es }).theDegreesPerPixel
        = ossimDpt.makeNan ∧
    (loadParameters Sample.planar 0 Sample.fresh
      { Sample.keywords with IMAGE_MODEL_TRANSFORM_MATRIX_KW := es }).theImageToModelAzimuth
        = fin 0 ∧
    (loadParameters Sample.planar 0 Sample.fresh
      { Sample.keywords with IMAGE_MODEL_TRANSFORM_MATRIX_KW := es }).theOrigin
        = Sample.gpt 0 0 ∧
    (loadParameters Sample.planar 0 Sample.fresh
      { Sample.keywords with IMAGE_MODEL_TRANSFORM_MATRIX_KW := es }).theDatum = some 0 := by
  simp [loadParameters, loadOrigin, loadPixelScale, loadTiePoint, loadFalseEastingNorthing,
    loadPixelType, loadOriginalMapUnits, Sample.keywords, ossimKeywordlist.empty, Sample.fresh,
    new, Sample.planar, Sample.geographic, Sample.gpt, Sample.dpt, Sample.wgs84]

/-- The fields that `updateFromTransform` never writes. -/
theorem updateFromTransform_frame (S : Services K D) (u : ossimMapProjection K D) :
    (updateFromTransform S u).theModelTransform = u.theModelTransform ∧
    (updateFromTransform S u).theInverseModelTransform = u.theInverseModelTransform ∧
    (updateFromTransform S u).theUlGpt = u.theUlGpt ∧
    (updateFromTransform S u).theUlEastingNorthing.y = u.theUlEastingNorthing.y ∧
    (updateFromTransform S u).theOrigin = u.theOrigin ∧
    (updateFromTransform S u).theDatum = u.theDatum ∧
    (updateFromTransform S u).theEllipsoid = u.theEllipsoid ∧
    (updateFromTransform S u).theFalseEastingNorthing = u.theFalseEastingNorthing ∧
    (updateFromTransform S u).thePcsCode = u.thePcsCode ∧
    (updateFromTransform S u).theElevationLookupFlag = u.theElevationLookupFlag ∧
    (updateFromTransform S u).theProjectionUnits = u.theProjectionUnits :=
  ⟨rfl, rfl, rfl, rfl, rfl, rfl, rfl, rfl, rfl, rfl, rfl⟩

/-- The last part of `loadState` tags the origin and the tie point with the datum and reads a
missing origin off the transform; it writes a scale only when both forms are unset. -/
theorem loadDefaults_frame (S : Services K D) (u : ossimMapProjection K D) :
    (loadDefaults S u).theModelTransform = u.theModelTransform ∧
    (loadDefaults S u).theInverseModelTransform = u.theInverseModelTransform ∧
    (loadDefaults S u).theUlEastingNorthing = u.theUlEastingNorthing ∧
    (loadDefaults S u).theImageToModelAzimuth = u.theImageToModelAzimuth ∧
    (loadDefaults S u).theDatum = u.theDatum ∧
    (loadDefaults S u).theEllipsoid = u.theEllipsoid ∧
    (loadDefaults S u).theFalseEastingNorthing = u.theFalseEastingNorthing ∧
    (loadDefaults S u).thePcsCode = u.thePcsCode ∧
    (loadDefaults S u).theElevationLookupFlag = u.theElevationLookupFlag ∧
    (loadDefaults S u).theProjectionUnits = u.theProjectionUnits := by
  unfold loadDefaults
  cases u.theDatum.isSome <;> cases S.isGeographic <;>
    cases (u.theMetersPerPixel.hasNans && u.theDegreesPerPixel.hasNans) <;>
    cases u.theOrigin.hasNans <;>
    first
      | exact ⟨rfl, rfl, rfl, rfl, rfl, rfl, rfl, rfl, rfl, rfl⟩
      | (simp only [Bool.false_eq_true, if_false, if_true]
         split_ifs <;> exact ⟨rfl, rfl, rfl, rfl, rfl, rfl, rfl, rfl, rfl, rfl⟩)

/-- The forward transform that `loadState` leaves for a list with a transform of sixteen
elements: the transform built from the scale and tie point read from the list, with the last of
the sixteen elements in the cell `[0][0]`. -/
theorem loadState_transform (S : Services K D) (wgs84 : D) (s : ossimMapProjection K D)
    (kwl : ossimKeywordlist K D) (elements : List (Dbl K)) (e : Dbl K)
    (hk : kwl.IMAGE_MODEL_TRANSFORM_MATRIX_KW = some elements) (hl : elements.length = 16)
    (he : elements.getLast? = some e) :
    (loadState S wgs84 s kwl).theModelTransform
      = (updateTransform S (loadParameters S wgs84 s kwl)).theModelTransform.set 0 0 e := by
  unfold loadState
  rw [(loadDefaults_frame S _).1]
  simp only [loadTransform, hk, hl, ne_eq, not_true_eq_false, if_false, fillTransform_eq, he]
  rfl

/-- The last part of `loadState` keeps a linear scale that is set, and the angular scale with
it. -/
theorem loadDefaults_scale (S : Services K D) (u : ossimMapProjection K D)
    (h : u.theMetersPerPixel.hasNans = false) :
    (loadDefaults S u).theMetersPerPixel = u.theMetersPerPixel ∧
    (loadDefaults S u).theDegreesPerPixel = u.theDegreesPerPixel := by
  unfold loadDefaults
  cases u.theDatum.isSome <;> cases u.theOrigin.hasNans <;>
    simp only [h, Bool.false_and, Bool.false_eq_true, if_false, if_true] <;>
    first
      | exact ⟨rfl, rfl⟩
      | (split_ifs <;> exact ⟨rfl, rfl⟩)

/-- The origin and the geodetic tie point that the last part of `loadState` leaves. -/
theorem loadDefaults_points (S : Services K D) (u : ossimMapProjection K D) :
    (loadDefaults S u).theUlGpt
      = (if u.theDatum.isSome then { u.theUlGpt with datum := u.theDatum } else u.theUlGpt) ∧
    (loadDefaults S u).theOrigin
      = (if (if u.theDatum.isSome then ({ u.theOrigin with datum := u.theDatum } : ossimGpt K D)
            else u.theOrigin).hasNans then
          { (if u.theDatum.isSome then ({ u.theOrigin with datum := u.theDatum } : ossimGpt K D)
              else u.theOrigin) with
            lon := u.theModelTransform 0 3, lat := u.theModelTransform 1 3 }
        else
          (if u.theDatum.isSome then ({ u.theOrigin with datum := u.theDatum } : ossimGpt K D)
            else u.theOrigin)) := by
  unfold loadDefaults
  cases u.theDatum.isSome <;> cases S.isGeographic <;>
    cases (u.theMetersPerPixel.hasNans && u.theDegreesPerPixel.hasNans) <;>
    simp only [Bool.false_eq_true, if_false, if_true] <;>
    first
      | exact ⟨rfl, rfl⟩
      | (split_ifs <;> exact ⟨rfl, rfl⟩)

/-- The origin and the geodetic tie point that the last part of `loadState` leaves depend on
the datum, the origin, the tie point and the forward transform only. -/
theorem loadDefaults_congr (S : Services K D) (x y : ossimMapProjection K D)
    (hd : x.theDatum = y.theDatum) (ho : x.theOrigin = y.theOrigin)
    (hg : x.theUlGpt = y.theUlGpt) (hm : x.theModelTransform = y.theModelTransform) :
    (loadDefaults S x).theOrigin = (loadDefaults S y).theOrigin ∧
    (loadDefaults S x).theUlGpt = (loadDefaults S y).theUlGpt := by
  rw [(loadDefaults_points S x).1, (loadDefaults_points S y).1, (loadDefaults_points S x).2,
    (loadDefaults_points S y).2, hd, ho, hg, hm]
  exact ⟨rfl, rfl⟩

/-- The parameters read from a list do not depend on the transform that the list holds. -/
theorem loadParameters_transform_key (S : Services K D) (wgs84 : D)
    (s : ossimMapProjection K D) (kwl : ossimKeywordlist K D) (es : Option (List (Dbl K))) :
    loadParameters S wgs84 s { kwl with IMAGE_MODEL_TRANSFORM_MATRIX_KW := es }
      = loadParameters S wgs84 s kwl := rfl

/-- The state that `loadState` leaves for a list without a transform. -/
theorem loadState_no_transform (S : Services K D) (wgs84 : D) (s : ossimMapProjection K D)
    (kwl : ossimKeywordlist K D) (hk : kwl.IMAGE_MODEL_TRANSFORM_MATRIX_KW = none) :
    loadState S wgs84 s kwl
      = loadDefaults S (updateTransform S (loadParameters S wgs84 s kwl)) := by
  simp only [loadState, loadTransform, hk]

/-- The state that `loadState` leaves for a list with a transform that has not sixteen
elements: `updateFromTransform` runs on the transform built from the scale and tie point. -/
theorem loadState_malformed (S : Services K D) (wgs84 : D) (s : ossimMapProjection K D)
    (kwl : ossimKeywordlist K D) (elements : List (Dbl K))
    (hk : kwl.IMAGE_MODEL_TRANSFORM_MATRIX_KW = some elements) (hl : elements.length ≠ 16) :
    loadState S wgs84 s kwl
      = loadDefaults S
          (updateFromTransform S (updateTransform S (loadParameters S wgs84 s kwl))) := by
  simp only [loadState, loadTransform, hk, hl, ne_eq, not_false_eq_true, if_true]
  rfl

/-- The six cells that `updateTransform` writes at azimuth 0, where the source takes the cosine
1 and the sine 0 without a call of the math library. -/
theorem updateTransform_cells_at_zero (S : Services K D) (s : ossimMapProjection K D)
    (ha : s.theImageToModelAzimuth = fin 0) :
    (updateTransform S s).theModelTransform 0 0 = s.theMetersPerPixel.x * fin 1 ∧
    (updateTransform S s).theModelTransform 0 1 = s.theMetersPerPixel.y * fin 0 ∧
    (updateTransform S s).theModelTransform 1 0 = -s.theMetersPerPixel.x * fin 0 ∧
    (updateTransform S s).theModelTransform 1 1 = s.theMetersPerPixel.y * fin 1 ∧
    (updateTransform S s).theModelTransform 0 3 = s.theUlEastingNorthing.x ∧
    (updateTransform S s).theModelTransform 1 3 = s.theUlEastingNorthing.y := by
  simp [updateTransform, ossimMatrix4x4.set, ha]

/-- C23, the code at the failing input.  The keyword list holds the linear scale (2, 3), the
tie point (5, 7) and a transform of sixteen elements `e0 .. e15`, row-major for the scale (4, 6)
and the tie point (10, 20).  After `loadState` the cell `[0][0]` holds `e15 = 1`, not `e0 = 4`,
and the cells `[0][3]`, `[1][1]`, `[1][3]` hold 5, 3, 7 from the scale and tie point, not
`e3 = 10`, `e5 = 6`, `e7 = 20`: the loop never advances its index. -/
theorem loadState_transform_override_fails :
    Sample.keywords.IMAGE_MODEL_TRANSFORM_MATRIX_KW
      = some [fin 4, fin 0, fin 0, fin 10, fin 0, fin 6, fin 0, fin 20,
          fin 0, fin 0, fin 1, fin 0, fin 0, fin 0, fin 0, fin 1] ∧
    (loadState Sample.planar 0 Sample.fresh Sample.keywords).theModelTransform 0 0 = fin 1 ∧
    (loadState Sample.planar 0 Sample.fresh Sample.keywords).theModelTransform 0 3 = fin 5 ∧
    (loadState Sample.planar 0 Sample.fresh Sample.keywords).theModelTransform 1 1 = fin 3 ∧
    (loadState Sample.planar 0 Sample.fresh Sample.keywords).theModelTransform 1 3 = fin 7 := by
  have k := keywords_parameters none
  simp only [loadParameters_transform_key] at k
  obtain ⟨k1, k2, -, k4, -, -⟩ := k
  obtain ⟨-, -, -, c4, c5, c6⟩ := updateTransform_cells_at_zero Sample.planar
    (loadParameters Sample.planar 0 Sample.fresh Sample.keywords) k4
  have h := loadState_transform Sample.planar 0 Sample.fresh Sample.keywords _ (fin 1) rfl rfl rfl
  rw [h]
  refine ⟨rfl, ?_, ?_, ?_, ?_⟩
  · simp [ossimMatrix4x4.set]
  · simp only [ossimMatrix4x4.set]
    rw [if_neg (by decide), c5, k2]
    rfl
  · simp only [ossimMatrix4x4.set]
    rw [if_neg (by decide), c4, k1]
    simp [Sample.dpt]
  · simp only [ossimMatrix4x4.set]
    rw [if_neg (by decide), c6, k2]
    rfl

/-- What `updateFromTransform` reads back from the transform that `updateTransform` has just
built at azimuth 0 from a finite linear scale `(sx, sy)`: the scale `(|sx|, |sy|)`, the northing
of the tie point in both coordinates, and the azimuth `acosd(sx / |sx|)`. -/
theorem updateFromTransform_at_zero (S : Services K D) (p : ossimMapProjection K D) (sx sy : K)
    (hm : p.theMetersPerPixel = ⟨fin sx, fin sy⟩) (ha : p.theImageToModelAzimuth = fin 0)
    (hsqrt : ∀ x : K, S.sqrt (x * x) = |x|) :
    (updateFromTransform S (updateTransform S p)).theMetersPerPixel = ⟨fin |sx|, fin |sy|⟩ ∧
    (updateFromTransform S (updateTransform S p)).theUlEastingNorthing
      = ⟨p.theUlEastingNorthing.y, p.theUlEastingNorthing.y⟩ ∧
    (updateFromTransform S (updateTransform S p)).theImageToModelAzimuth
      = (fin sx / fin |sx|).map S.acosd := by
  obtain ⟨c1, -, c3, c4, -, c6⟩ := updateTransform_cells_at_zero S p ha
  have e1 : sx * sx + -sx * 0 * (-sx * 0) = sx * sx := by ring
  have e2 : -sx * 0 * (-sx * 0) + sy * sy = sy * sy := by ring
  have hen : (updateTransform S p).theUlEastingNorthing = p.theUlEastingNorthing := rfl
  simp only [updateFromTransform, computeDegreesPerPixel, c1, c3, c4, c6, hm, hen,
    Dbl.fin_mul_fin, Dbl.neg_fin, Dbl.fin_add_fin, Dbl.map_fin, mul_one, e1, e2, hsqrt,
    and_self]

/-- The angular scale that `updateFromTransform` leaves is sampled from the linear scale it has
just read back. -/
theorem updateFromTransform_degrees (S : Services K D) (u : ossimMapProjection K D) :
    (updateFromTransform S u).theDegreesPerPixel
      = (computeDegreesPerPixel S
          { u with theMetersPerPixel := (updateFromTransform S u).theMetersPerPixel
            }).theDegreesPerPixel := rfl

/-- With the planar kernel, a finite origin and a finite linear scale, the sampled angular scale
is set. -/
theorem planar_degrees_set (s : ossimMapProjection ℚ ℕ) (a b sx sy : ℚ)
    (ho : s.theOrigin = Sample.gpt a b) (hm : s.theMetersPerPixel = ⟨fin sx, fin sy⟩) :
    (computeDegreesPerPixel Sample.planar s).theDegreesPerPixel.hasNans = false := by
  simp [computeDegreesPerPixel, ho, hm, Sample.planar, Sample.geographic, Sample.gpt,
    ossimDpt.hasNans, Dbl.isnan]

/-- C24, the claim as stated fails.  The keyword list holds the linear scale (2, 3), the tie
point (5, 7) and a transform of three elements.  Loaded without the transform key the angular
scale stays unset; loaded with the malformed transform, `updateFromTransform` still runs and
derives the angular scale from the linear one, so that the two states differ in a pixel scale
form. -/
theorem malformed_transform_ignored_counterexample :
    Sample.malformed.IMAGE_MODEL_TRANSFORM_MATRIX_KW = some [fin 1, fin 2, fin 3] ∧
    (loadState Sample.planar 0 Sample.fresh
      { Sample.malformed with IMAGE_MODEL_TRANSFORM_MATRIX_KW := none }).theDegreesPerPixel
        = ossimDpt.makeNan ∧
    (loadState Sample.planar 0 Sample.fresh Sample.malformed).theDegreesPerPixel.hasNans
      = false := by
  have k := keywords_parameters none
  simp only [loadParameters_transform_key] at k
  obtain ⟨k1, k2, k3, k4, k5, -⟩ := k
  have hp : loadParameters Sample.planar 0 Sample.fresh Sample.malformed
      = loadParameters Sample.planar 0 Sample.fresh Sample.keywords := rfl
  have hq : loadParameters Sample.planar 0 Sample.fresh
      { Sample.malformed with IMAGE_MODEL_TRANSFORM_MATRIX_KW := none }
      = loadParameters Sample.planar 0 Sample.fresh Sample.keywords := rfl
  refine ⟨rfl, ?_, ?_⟩
  · rw [loadState_no_transform _ _ _ _ rfl, hq]
    have h : (updateTransform Sample.planar
        (loadParameters Sample.planar 0 Sample.fresh Sample.keywords)).theMetersPerPixel.hasNans
        = false := by
      show (loadParameters Sample.planar 0 Sample.fresh Sample.keywords).theMetersPerPixel.hasNans
        = false
      rw [k1]
      rfl
    rw [(loadDefaults_scale _ _ h).2]
    exact k3
  · rw [loadState_malformed _ _ _ _ [fin 1, fin 2, fin 3] rfl (by decide), hp]
    obtain ⟨u1, -, -⟩ := updateFromTransform_at_zero Sample.planar
      (loadParameters Sample.planar 0 Sample.fresh Sample.keywords) 2 3 k1 k4
      sample_sqrt_mul_self
    have h : (updateFromTransform Sample.planar (updateTransform Sample.planar
        (loadParameters Sample.planar 0 Sample.fresh Sample.keywords))).theMetersPerPixel.hasNans
        = false := by
      rw [u1]
      rfl
    rw [(loadDefaults_scale _ _ h).2, updateFromTransform_degrees]
    exact planar_degrees_set _ 0 0 |2| |3| k5 u1

/-- C24, amended: a transform value that is not empty and has not sixteen elements leaves the
forward and inverse transform, the geodetic tie point, the northing of the projected tie point,
the origin, the datum, the ellipsoid, the false easting/northing, the PCS code, the elevation
lookup flag and the declared unit as loading the same list without the transform key does; the
linear scale and the azimuth are the same too when the linear scale read from the list is finite
and positive on both axes and the azimuth is 0 (with an exact square root and `acosd(1) = 0`).
The angular scale is not covered: `updateFromTransform` still runs and derives it from the
linear scale. -/
theorem malformed_transform_ignored (S : Services K D) (wgs84 : D)
    (s : ossimMapProjection K D) (kwl : ossimKeywordlist K D) (elements : List (Dbl K))
    (hk : kwl.IMAGE_MODEL_TRANSFORM_MATRIX_KW = some elements) (hl : elements.length ≠ 16) :
    (loadState S wgs84 s kwl).theModelTransform
      = (loadState S wgs84 s
          { kwl with IMAGE_MODEL_TRANSFORM_MATRIX_KW := none }).theModelTransform ∧
    (loadState S wgs84 s kwl).theInverseModelTransform
      = (loadState S wgs84 s
          { kwl with IMAGE_MODEL_TRANSFORM_MATRIX_KW := none }).theInverseModelTransform ∧
    (loadState S wgs84 s kwl).theUlGpt
      = (loadState S wgs84 s { kwl with IMAGE_MODEL_TRANSFORM_MATRIX_KW := none }).theUlGpt ∧
    (loadState S wgs84 s kwl).theUlEastingNorthing.y
      = (loadState S wgs84 s
          { kwl with IMAGE_MODEL_TRANSFORM_MATRIX_KW := none }).theUlEastingNorthing.y ∧
    (loadState S wgs84 s kwl).theOrigin
      = (loadState S wgs84 s { kwl with IMAGE_MODEL_TRANSFORM_MATRIX_KW := none }).theOrigin ∧
    (loadState S wgs84 s kwl).theDatum
      = (loadState S wgs84 s { kwl with IMAGE_MODEL_TRANSFORM_MATRIX_KW := none }).theDatum ∧
    (loadState S wgs84 s kwl).theEllipsoid
      = (loadState S wgs84 s { kwl with IMAGE_MODEL_TRANSFORM_MATRIX_KW := none }).theEllipsoid ∧
    (loadState S wgs84 s kwl).theFalseEastingNorthing
      = (loadState S wgs84 s
          { kwl with IMAGE_MODEL_TRANSFORM_MATRIX_KW := none }).theFalseEastingNorthing ∧
    (loadState S wgs84 s kwl).thePcsCode
      = (loadState S wgs84 s { kwl with IMAGE_MODEL_TRANSFORM_MATRIX_KW := none }).thePcsCode ∧
    (loadState S wgs84 s kwl).theElevationLookupFlag
      = (loadState S wgs84 s
          { kwl with IMAGE_MODEL_TRANSFORM_MATRIX_KW := none }).theElevationLookupFlag ∧
    (loadState S wgs84 s kwl).theProjectionUnits
      = (loadState S wgs84 s
          { kwl with IMAGE_MODEL_TRANSFORM_MATRIX_KW := none }).theProjectionUnits ∧
    (∀ sx sy : K, 0 < sx → 0 < sy →
      (loadParameters S wgs84 s kwl).theMetersPerPixel = ⟨fin sx, fin sy⟩ →
      (loadParameters S wgs84 s kwl).theImageToModelAzimuth = fin 0 →
      (∀ x : K, S.sqrt (x * x) = |x|) → S.acosd 1 = 0 →
      (loadState S wgs84 s kwl).theMetersPerPixel
        = (loadState S wgs84 s
            { kwl with IMAGE_MODEL_TRANSFORM_MATRIX_KW := none }).theMetersPerPixel ∧
      (loadState S wgs84 s kwl).theImageToModelAzimuth
        = (loadState S wgs84 s
            { kwl with IMAGE_MODEL_TRANSFORM_MATRIX_KW := none }).theImageToModelAzimuth) := by
  have hb : loadState S wgs84 s { kwl with IMAGE_MODEL_TRANSFORM_MATRIX_KW := none }
      = loadDefaults S (updateTransform S (loadParameters S wgs84 s kwl)) :=
    loadState_no_transform S wgs84 s { kwl with IMAGE_MODEL_TRANSFORM_MATRIX_KW := none } rfl
  rw [hb, loadState_malformed S wgs84 s kwl elements hk hl]
  obtain ⟨a1, a2, a3, a4, a5, a6, a7, a8, a9, a10⟩ := loadDefaults_frame S
    (updateFromTransform S (updateTransform S (loadParameters S wgs84 s kwl)))
  obtain ⟨b1, b2, b3, b4, b5, b6, b7, b8, b9, b10⟩ := loadDefaults_frame S
    (updateTransform S (loadParameters S wgs84 s kwl))
  obtain ⟨c1, c2⟩ := loadDefaults_congr S
    (updateFromTransform S (updateTransform S (loadParameters S wgs84 s kwl)))
    (updateTransform S (loadParameters S wgs84 s kwl)) rfl rfl rfl rfl
  refine ⟨a1.trans b1.symm, a2.trans b2.symm, c2, ?_, c1, a5.trans b5.symm, a6.trans b6.symm,
    a7.trans b7.symm, a8.trans b8.symm, a9.trans b9.symm, a10.trans b10.symm, ?_⟩
  · exact (congrArg ossimDpt.y a3).trans (congrArg ossimDpt.y b3).symm
  · intro sx sy hx hy hm ha hsqrt hacos
    obtain ⟨u1, -, u3⟩ := updateFromTransform_at_zero S (loadParameters S wgs84 s kwl) sx sy
      hm ha hsqrt
    rw [abs_of_pos hx, abs_of_pos hy] at u1
    rw [abs_of_pos hx, Dbl.fin_div_fin, if_neg (ne_of_gt hx), Dbl.map_fin, div_self (ne_of_gt hx),
      hacos] at u3
    have h1 : (updateFromTransform S
        (updateTransform S (loadParameters S wgs84 s kwl))).theMetersPerPixel.hasNans
        = false := by
      rw [u1]
      rfl
    have h2 : (updateTransform S (loadParameters S wgs84 s kwl)).theMetersPerPixel.hasNans
        = false := by
      show (loadParameters S wgs84 s kwl).theMetersPerPixel.hasNans = false
      rw [hm]
      rfl
    rw [(loadDefaults_scale S _ h1).1, (loadDefaults_scale S _ h2).1, a4, b4, u1, u3]
    exact ⟨hm.symm, ha.symm⟩

/-- The amended C24 on a concrete list: the linear scale (2, 3), the tie point (5, 7) and a
transform of three elements, loaded into a fresh projection of the planar kernel. -/
theorem malformed_transform_ignored_witness :
    (loadState Sample.planar 0 Sample.fresh Sample.malformed).theModelTransform
      = (loadState Sample.planar 0 Sample.fresh
          { Sample.malformed with IMAGE_MODEL_TRANSFORM_MATRIX_KW := none }).theModelTransform ∧
    (loadState Sample.planar 0 Sample.fresh Sample.malformed).theMetersPerPixel
      = (loadState Sample.planar 0 Sample.fresh
          { Sample.malformed with IMAGE_MODEL_TRANSFORM_MATRIX_KW := none }).theMetersPerPixel :=
  have h := malformed_transform_ignored Sample.planar 0 Sample.fresh Sample.malformed
    [fin 1, fin 2, fin 3] rfl (by decide)
  ⟨h.1, (h.2.2.2.2.2.2.2.2.2.2.2 2 3 (by norm_num) (by norm_num)
    (keywords_parameters (some [fin 1, fin 2, fin 3])).1
    (keywords_parameters (some [fin 1, fin 2, fin 3])).2.2.2.1
    sample_sqrt_mul_self (by norm_num [Sample.planar, Sample.geographic, Sample.acosd])).1⟩

/-- What `updateFromTransform` reads from a transform with finite cells `[0][0]`, `[1][0]`,
`[1][1]`: the two square roots of the source, the cell `[1][3]` as easting, the northing as it
was, and the arc cosine of the cell `[0][0]` over the first square root. -/
theorem updateFromTransform_cells (S : Services K D) (u : ossimMapProjection K D) (a c d : K)
    (h00 : u.theModelTransform 0 0 = fin a) (h10 : u.theModelTransform 1 0 = fin c)
    (h11 : u.theModelTransform 1 1 = fin d) :
    (updateFromTransform S u).theMetersPerPixel
      = ⟨fin (S.sqrt (a * a + c * c)), fin (S.sqrt (c * c + d * d))⟩ ∧
    (updateFromTransform S u).theUlEastingNorthing
      = ⟨u.theModelTransform 1 3, u.theUlEastingNorthing.y⟩ ∧
    (updateFromTransform S u).theImageToModelAzimuth
      = (fin a / fin (S.sqrt (a * a + c * c))).map S.acosd := by
  simp only [updateFromTransform, computeDegreesPerPixel, h00, h10, h11, Dbl.fin_mul_fin,
    Dbl.fin_add_fin, Dbl.map_fin, and_self]

/-- A projected tie point that is set is kept by `update`. -/
theorem update_keeps_projected_tie (S : Services K D) (s : ossimMapProjection K D)
    (h : s.theUlEastingNorthing.hasNans = false) :
    (update S s).theUlEastingNorthing = s.theUlEastingNorthing := by
  obtain ⟨-, h2, -, h4, -⟩ := update_tie S s
  have h5 : (resolveScale S s).theUlEastingNorthing.hasNans = false := by
    rw [h4]
    exact h
  rw [h2]
  unfold resolveTiePoint
  simp only [h5, Bool.false_and, Bool.false_eq_true, if_false, Bool.and_false]
  split_ifs <;> exact h4

/-- The sample square root at 9. -/
theorem sample_sqrt_nine : Sample.sqrt 9 = 3 := by
  have h : (9 : ℚ) = 3 * 3 := by norm_num
  rw [h, sample_sqrt_mul_self]
  norm_num [abs_of_pos]

/-- The sample projection `surveyed`, field by field. -/
theorem surveyed_fields :
    Sample.surveyed.theMetersPerPixel = Sample.dpt 2 3 ∧
    Sample.surveyed.theUlEastingNorthing = Sample.dpt 5 7 ∧
    Sample.surveyed.theImageToModelAzimuth = fin 0 ∧
    Sample.surveyed.theProjectionUnits = OSSIM_METERS ∧
    Sample.surveyed.thePcsCode = 0 ∧
    Sample.surveyed.theModelTransform
      = ofFinite (affM (2 * 1) (3 * 0) (-2 * 0) (3 * 1) 5 7) ∧
    Sample.surveyed.theOrigin = Sample.gpt 0 0 ∧
    Sample.surveyed.theDatum = some 0 ∧
    Sample.surveyed.theEllipsoid = Sample.wgs84 ∧
    Sample.surveyed.theFalseEastingNorthing = ⟨fin 0, fin 0⟩ ∧
    Sample.surveyed.theElevationLookupFlag = false := by
  have hq : Sample.surveyed
      = updateTransform Sample.planar (computeDegreesPerPixel Sample.planar
          (setMetersPerPixel Sample.planar
            (setUlEastingNorthing Sample.planar Sample.fresh (Sample.dpt 5 7))
            (Sample.dpt 2 3))) :=
    update_resolved Sample.planar _ rfl
      (by simp [setMetersPerPixel, setUlEastingNorthing, updateTransform,
        computeDegreesPerPixel, Sample.planar, Sample.geographic, Sample.dpt, ossimGpt.hasNans,
        Dbl.isnan])
      rfl
  have hM := (updateTransform_finite Sample.planar
    (by norm_num [Sample.planar, Sample.geographic, Sample.cosd])
    (by norm_num [Sample.planar, Sample.geographic, Sample.sind])
    (computeDegreesPerPixel Sample.planar
      (setMetersPerPixel Sample.planar
        (setUlEastingNorthing Sample.planar Sample.fresh (Sample.dpt 5 7))
        (Sample.dpt 2 3))) 2 3 5 7 0 rfl (by norm_num) (by norm_num) rfl rfl
    (by norm_num [Sample.planar, Sample.geographic, Sample.cosd, Sample.sind])).1
  rw [hq]
  refine ⟨rfl, rfl, rfl, rfl, rfl, ?_, rfl, rfl, rfl, rfl, rfl⟩
  rw [hM]
  simp [Sample.planar, Sample.geographic, Sample.cosd, Sample.sind]

/-- The sixteen elements that `saveState` prints, cell by cell. -/
theorem transformElements_eq (m : ossimMatrix4x4 K) :
    transformElements m
      = [m 0 0, m 0 1, m 0 2, m 0 3, m 1 0, m 1 1, m 1 2, m 1 3,
          m 2 0, m 2 1, m 2 2, m 2 3, m 3 0, m 3 1, m 3 2, m 3 3] := rfl

/-- The keys that `saveState` writes for the sample projection `surveyed`: scale and tie point
in meters and the sixteen elements of the transform, among the others. -/
theorem surveyed_saved :
    (saveState Sample.planar Sample.surveyed).1.PIXEL_SCALE_UNITS_KW = some OSSIM_METERS ∧
    (saveState Sample.planar Sample.surveyed).1.PIXEL_SCALE_XY_KW = some (Sample.dpt 2 3) ∧
    (saveState Sample.planar Sample.surveyed).1.TIE_POINT_UNITS_KW = some OSSIM_METERS ∧
    (saveState Sample.planar Sample.surveyed).1.TIE_POINT_XY_KW = some (Sample.dpt 5 7) ∧
    (saveState Sample.planar Sample.surveyed).1.PIXEL_TYPE_KW = none ∧
    (saveState Sample.planar Sample.surveyed).1.IMAGE_MODEL_TRANSFORM_MATRIX_KW
      = some [fin 2, fin 0, fin 0, fin 5, fin 0, fin 3, fin 0, fin 7,
          fin 0, fin 0, fin 1, fin 0, fin 0, fin 0, fin 0, fin 1] ∧
    (saveState Sample.planar Sample.surveyed).1.ELEVATION_LOOKUP_FLAG_KW = some false ∧
    (saveState Sample.planar Sample.surveyed).1.ellipsoid = some Sample.wgs84 ∧
    (saveState Sample.planar Sample.surveyed).1.PCS_CODE_KW = some 0 ∧
    (saveState Sample.planar Sample.surveyed).1.DATUM_KW = some 0 ∧
    (saveState Sample.planar Sample.surveyed).1.ORIGIN_LATITUDE_KW = some (fin 0) ∧
    (saveState Sample.planar Sample.surveyed).1.CENTRAL_MERIDIAN_KW = some (fin 0) ∧
    (saveState Sample.planar Sample.surveyed).1.FALSE_EASTING_NORTHING_UNITS_KW
      = some OSSIM_METERS ∧
    (saveState Sample.planar Sample.surveyed).1.FALSE_EASTING_NORTHING_KW
      = some ⟨fin 0, fin 0⟩ ∧
    (saveState Sample.planar Sample.surveyed).1.ORIGINAL_MAP_UNITS_KW = some OSSIM_METERS := by
  obtain ⟨f1, f2, f3, f4, f5, f6, f7, f8, f9, f10, f11⟩ := surveyed_fields
  have hne : Sample.surveyed.theModelTransform ≠ ossimMatrix4x4.identity := by
    intro h
    have h00 := congrFun (congrFun h 0) 0
    rw [f6] at h00
    simp [ofFinite, affM, ossimMatrix4x4.identity] at h00
  have hel : transformElements Sample.surveyed.theModelTransform
      = [fin 2, fin 0, fin 0, fin 5, fin 0, fin 3, fin 0, fin 7,
          fin 0, fin 0, fin 1, fin 0, fin 0, fin 0, fin 0, fin 1] := by
    rw [transformElements_eq, f6]
    simp [ofFinite, affM]
  have hg : Sample.planar.isGeographic = false := rfl
  have hc : (getPcsCode Sample.planar Sample.surveyed).2
      = { Sample.surveyed with thePcsCode := 32767 } := by
    simp [getPcsCode, f5, Sample.planar, Sample.geographic]
  have hc1 : (getPcsCode Sample.planar Sample.surveyed).1 = 0 := by
    simp [getPcsCode, f5, Sample.planar, Sample.geographic]
  simp only [saveState, hc, hc1, hg, hne, hel, f1, f2, f4, f7, f8, f9, f10, f11,
    Bool.false_eq_true, if_false, ne_eq, not_false_eq_true, if_true, not_true_eq_false]
  simp [Sample.gpt, ossimKeywordlist.empty]

/-- The state that `loadState` leaves for a list with a transform of sixteen elements:
`updateFromTransform` runs on the transform built from the scale and tie point read from the
list, with the last of the sixteen elements in the cell `[0][0]`. -/
theorem loadState_override (S : Services K D) (wgs84 : D) (s : ossimMapProjection K D)
    (kwl : ossimKeywordlist K D) (elements : List (Dbl K)) (e : Dbl K)
    (hk : kwl.IMAGE_MODEL_TRANSFORM_MATRIX_KW = some elements) (hl : elements.length = 16)
    (he : elements.getLast? = some e) :
    loadState S wgs84 s kwl
      = loadDefaults S (updateFromTransform S
          { updateTransform S (loadParameters S wgs84 s kwl) with
            theModelTransform :=
              (updateTransform S (loadParameters S wgs84 s kwl)).theModelTransform.set 0 0 e
            theInverseModelTransform :=
              ((updateTransform S (loadParameters S wgs84 s kwl)).theModelTransform.set
                0 0 e).i }) := by
  simp only [loadState, loadTransform, hk, hl, ne_eq, not_true_eq_false, if_false,
    fillTransform_eq, he]

/-- The first part of `loadState` keeps the azimuth. -/
theorem loadOrigin_azimuth (S : Services K D) (wgs84 : D) (s : ossimMapProjection K D)
    (kwl : ossimKeywordlist K D) :
    (loadOrigin S wgs84 s kwl).theImageToModelAzimuth = s.theImageToModelAzimuth := by
  unfold loadOrigin
  cases kwl.ELEVATION_LOOKUP_FLAG_KW <;> cases kwl.ellipsoid <;> cases kwl.PCS_CODE_KW <;>
    cases kwl.DATUM_KW <;> cases kwl.ORIGIN_LATITUDE_KW <;> cases kwl.CENTRAL_MERIDIAN_KW <;>
    (dsimp only; split <;> rfl)

/-- The false easting and northing part of `loadState` keeps the scale, the tie point and the
azimuth. -/
theorem loadFalseEastingNorthing_frame (S : Services K D) (s : ossimMapProjection K D)
    (kwl : ossimKeywordlist K D) :
    (loadFalseEastingNorthing S s kwl).theMetersPerPixel = s.theMetersPerPixel ∧
    (loadFalseEastingNorthing S s kwl).theDegreesPerPixel = s.theDegreesPerPixel ∧
    (loadFalseEastingNorthing S s kwl).theUlEastingNorthing = s.theUlEastingNorthing ∧
    (loadFalseEastingNorthing S s kwl).theImageToModelAzimuth = s.theImageToModelAzimuth := by
  unfold loadFalseEastingNorthing
  cases kwl.FALSE_EASTING_NORTHING_KW with
  | none =>
    cases kwl.FALSE_EASTING_KW <;> cases kwl.FALSE_NORTHING_KW <;> exact ⟨rfl, rfl, rfl, rfl⟩
  | some en =>
    cases kwl.FALSE_EASTING_NORTHING_UNITS_KW with
    | none => exact ⟨rfl, rfl, rfl, rfl⟩
    | some u => cases u <;> exact ⟨rfl, rfl, rfl, rfl⟩

/-- The scale, tie point and azimuth that `loadState` reads from a list which gives the pixel
scale and the tie point in meters and no pixel type. -/
theorem loadParameters_meters (S : Services K D) (wgs84 : D) (s : ossimMapProjection K D)
    (kwl : ossimKeywordlist K D) (scale tie : ossimDpt K)
    (h1 : kwl.PIXEL_SCALE_UNITS_KW = some OSSIM_METERS)
    (h2 : kwl.PIXEL_SCALE_XY_KW = some scale)
    (h3 : kwl.TIE_POINT_UNITS_KW = some OSSIM_METERS)
    (h4 : kwl.TIE_POINT_XY_KW = some tie)
    (h5 : kwl.PIXEL_TYPE_KW = none) :
    (loadParameters S wgs84 s kwl).theMetersPerPixel = scale ∧
    (loadParameters S wgs84 s kwl).theDegreesPerPixel = ossimDpt.makeNan ∧
    (loadParameters S wgs84 s kwl).theUlEastingNorthing = tie ∧
    (loadParameters S wgs84 s kwl).theImageToModelAzimuth = s.theImageToModelAzimuth := by
  have hs : loadPixelScale S (loadOrigin S wgs84 s kwl) kwl
      = { loadOrigin S wgs84 s kwl with
          theMetersPerPixel := scale, theDegreesPerPixel := ossimDpt.makeNan } := by
    simp only [loadPixelScale, h1, h2]
  have ht : loadTiePoint S (loadPixelScale S (loadOrigin S wgs84 s kwl) kwl) kwl
      = { loadPixelScale S (loadOrigin S wgs84 s kwl) kwl with
          theUlGpt :=
            { (loadPixelScale S (loadOrigin S wgs84 s kwl) kwl).theUlGpt.makeNan with
              hgt := fin 0 }
          theUlEastingNorthing := tie } := by
    simp only [loadTiePoint, h3, h4]
  obtain ⟨e1, e2, e3, e4⟩ := loadFalseEastingNorthing_frame S
    (loadTiePoint S (loadPixelScale S (loadOrigin S wgs84 s kwl) kwl) kwl) kwl
  have hu : ∀ x : ossimMapProjection K D,
      (loadOriginalMapUnits x kwl).theMetersPerPixel = x.theMetersPerPixel ∧
      (loadOriginalMapUnits x kwl).theDegreesPerPixel = x.theDegreesPerPixel ∧
      (loadOriginalMapUnits x kwl).theUlEastingNorthing = x.theUlEastingNorthing ∧
      (loadOriginalMapUnits x kwl).theImageToModelAzimuth = x.theImageToModelAzimuth := by
    intro x
    unfold loadOriginalMapUnits
    cases kwl.ORIGINAL_MAP_UNITS_KW <;> exact ⟨rfl, rfl, rfl, rfl⟩
  have hp : ∀ x : ossimMapProjection K D, loadPixelType x kwl = x := by
    intro x
    simp only [loadPixelType, h5]
  obtain ⟨u1, u2, u3, u4⟩ := hu (loadFalseEastingNorthing S
    (loadTiePoint S (loadPixelScale S (loadOrigin S wgs84 s kwl) kwl) kwl) kwl)
  simp only [loadParameters, hp]
  rw [u1, u2, u3, u4, e1, e2, e3, e4, ht, hs]
  exact ⟨rfl, rfl, rfl, loadOrigin_azimuth S wgs84 s kwl⟩

/-- The parameters that `loadState` reads from the saved list of the sample projection
`surveyed`. -/
theorem surveyed_saved_parameters :
    (loadParameters Sample.planar 0 Sample.fresh
      (saveState Sample.planar Sample.surveyed).1).theMetersPerPixel = Sample.dpt 2 3 ∧
    (loadParameters Sample.planar 0 Sample.fresh
      (saveState Sample.planar Sample.surveyed).1).theUlEastingNorthing = Sample.dpt 5 7 ∧
    (loadParameters Sample.planar 0 Sample.fresh
      (saveState Sample.planar Sample.surveyed).1).theImageToModelAzimuth = fin 0 := by
  obtain ⟨g1, g2, g3, g4, g5, -⟩ := surveyed_saved
  obtain ⟨h1, -, h3, h4⟩ := loadParameters_meters Sample.planar 0 Sample.fresh
    (saveState Sample.planar Sample.surveyed).1 _ _ g1 g2 g3 g4 g5
  exact ⟨h1, h3, h4⟩

/-- The sample projection `surveyed` saved and loaded again: the linear scale and the projected
tie point of the reloaded state. -/
theorem reloaded_fields :
    Sample.reloaded.theMetersPerPixel = Sample.dpt 1 3 ∧
    Sample.reloaded.theUlEastingNorthing = Sample.dpt 7 7 := by
  obtain ⟨-, -, -, -, -, g6, -⟩ := surveyed_saved
  obtain ⟨p1, p2, p3⟩ := surveyed_saved_parameters
  obtain ⟨-, -, c3, c4, -, c6⟩ := updateTransform_cells_at_zero Sample.planar
    (loadParameters Sample.planar 0 Sample.fresh (saveState Sample.planar Sample.surveyed).1) p3
  have hr := loadState_override Sample.planar 0 Sample.fresh
    (saveState Sample.planar Sample.surveyed).1 _ (fin 1) g6 rfl rfl
  have h10 : ((updateTransform Sample.planar (loadParameters Sample.planar 0 Sample.fresh
      (saveState Sample.planar Sample.surveyed).1)).theModelTransform.set 0 0 (fin 1)) 1 0
      = fin (-2 * 0) := by
    simp only [ossimMatrix4x4.set]
    rw [if_neg (by decide), c3, p1]
    rfl
  have h11 : ((updateTransform Sample.planar (loadParameters Sample.planar 0 Sample.fresh
      (saveState Sample.planar Sample.surveyed).1)).theModelTransform.set 0 0 (fin 1)) 1 1
      = fin (3 * 1) := by
    simp only [ossimMatrix4x4.set]
    rw [if_neg (by decide), c4, p1]
    rfl
  have h13 : ((updateTransform Sample.planar (loadParameters Sample.planar 0 Sample.fresh
      (saveState Sample.planar Sample.surveyed).1)).theModelTransform.set 0 0 (fin 1)) 1 3
      = fin 7 := by
    simp only [ossimMatrix4x4.set]
    rw [if_neg (by decide), c6, p2]
    rfl
  obtain ⟨u1, u2, -⟩ := updateFromTransform_cells Sample.planar
    { updateTransform Sample.planar (loadParameters Sample.planar 0 Sample.fresh
        (saveState Sample.planar Sample.surveyed).1) with
      theModelTransform :=
        (updateTransform Sample.planar (loadParameters Sample.planar 0 Sample.fresh
          (saveState Sample.planar Sample.surveyed).1)).theModelTransform.set 0 0 (fin 1)
      theInverseModelTransform :=
        ((updateTransform Sample.planar (loadParameters Sample.planar 0 Sample.fresh
          (saveState Sample.planar Sample.surveyed).1)).theModelTransform.set 0 0 (fin 1)).i }
    1 (-2 * 0) (3 * 1) (by simp [ossimMatrix4x4.set]) h10 h11
  have e1 : ((1 : ℚ) * 1 + -2 * 0 * (-2 * 0)) = 1 := by norm_num
  have e2 : ((-2 : ℚ) * 0 * (-2 * 0) + 3 * 1 * (3 * 1)) = 9 := by norm_num
  have hs1 : Sample.planar.sqrt 1 = 1 := sample_sqrt_one
  have hs9 : Sample.planar.sqrt 9 = 3 := sample_sqrt_nine
  rw [e1, e2, hs1, hs9] at u1
  have hen : (updateTransform Sample.planar (loadParameters Sample.planar 0 Sample.fresh
      (saveState Sample.planar Sample.surveyed).1)).theUlEastingNorthing.y = fin 7 := by
    show (loadParameters Sample.planar 0 Sample.fresh
      (saveState Sample.planar Sample.surveyed).1).theUlEastingNorthing.y = fin 7
    rw [p2]
    rfl
  simp only [h13, hen] at u2
  unfold Sample.reloaded
  rw [hr, (loadDefaults_scale _ _ (by rw [u1]; rfl)).1, (loadDefaults_frame _ _).2.2.1, u1, u2]
  exact ⟨rfl, rfl⟩

/-- The method `getPcsCode` writes the PCS code only. -/
theorem getPcsCode_frame (S : Services K D) (s : ossimMapProjection K D) :
    (getPcsCode S s).2
      = { s with thePcsCode :=
          if s.thePcsCode = 0 then
            (if S.findProjectionCode s = 0 then 32767 else S.findProjectionCode s)
          else s.thePcsCode } := by
  unfold getPcsCode
  dsimp only
  split_ifs <;> rfl

/-- The keys that `saveState` writes whatever the kernel, the keys of the scale and tie point
that it writes for a projected kernel, and the transform key that it leaves out for an identity
transform. -/
theorem saveState_keys (S : Services K D) (s : ossimMapProjection K D) :
    (saveState S s).1.FALSE_EASTING_NORTHING_KW = some s.theFalseEastingNorthing ∧
    (saveState S s).1.FALSE_EASTING_NORTHING_UNITS_KW = some OSSIM_METERS ∧
    (saveState S s).1.ELEVATION_LOOKUP_FLAG_KW = some s.theElevationLookupFlag ∧
    (saveState S s).1.PCS_CODE_KW = some (getPcsCode S s).1 ∧
    (saveState S s).1.PIXEL_TYPE_KW = none ∧
    (S.isGeographic = false →
      (saveState S s).1.PIXEL_SCALE_UNITS_KW = some OSSIM_METERS ∧
      (saveState S s).1.PIXEL_SCALE_XY_KW = some s.theMetersPerPixel ∧
      (saveState S s).1.TIE_POINT_UNITS_KW = some OSSIM_METERS ∧
      (saveState S s).1.TIE_POINT_XY_KW = some s.theUlEastingNorthing) ∧
    (s.theModelTransform = ossimMatrix4x4.identity →
      (saveState S s).1.IMAGE_MODEL_TRANSFORM_MATRIX_KW = none) := by
  have hf := getPcsCode_frame S s
  generalize (if s.thePcsCode = 0 then
      (if S.findProjectionCode s = 0 then 32767 else S.findProjectionCode s)
    else s.thePcsCode) = c at hf
  simp only [saveState, hf]
  refine ⟨trivial, trivial, trivial, trivial, trivial, ?_, ?_⟩
  · intro hg
    simp only [hg, Bool.false_eq_true, if_false, and_self]
  · intro hm
    simp only [hm, ne_eq, not_true_eq_false, if_false]

/-- The elevation lookup flag and the PCS code that the first part of `loadState` reads, and
the false easting/northing that it keeps. -/
theorem loadOrigin_fields (S : Services K D) (wgs84 : D) (s : ossimMapProjection K D)
    (kwl : ossimKeywordlist K D) :
    (loadOrigin S wgs84 s kwl).theElevationLookupFlag
      = kwl.ELEVATION_LOOKUP_FLAG_KW.getD s.theElevationLookupFlag ∧
    (loadOrigin S wgs84 s kwl).thePcsCode = kwl.PCS_CODE_KW.getD 0 := by
  unfold loadOrigin
  cases kwl.ELEVATION_LOOKUP_FLAG_KW <;> cases kwl.ellipsoid <;> cases kwl.PCS_CODE_KW <;>
    cases kwl.DATUM_KW <;> cases kwl.ORIGIN_LATITUDE_KW <;> cases kwl.CENTRAL_MERIDIAN_KW <;>
    (dsimp only; split <;> exact ⟨rfl, rfl⟩)

/-- The pixel scale part of `loadState` keeps the elevation lookup flag and the PCS code. -/
theorem loadPixelScale_keeps (S : Services K D) (s : ossimMapProjection K D)
    (kwl : ossimKeywordlist K D) :
    (loadPixelScale S s kwl).theElevationLookupFlag = s.theElevationLookupFlag ∧
    (loadPixelScale S s kwl).thePcsCode = s.thePcsCode := by
  unfold loadPixelScale
  cases kwl.PIXEL_SCALE_UNITS_KW with
  | none =>
    cases kwl.METERS_PER_PIXEL_X_KW <;> cases kwl.METERS_PER_PIXEL_Y_KW <;>
      cases kwl.DECIMAL_DEGREES_PER_PIXEL_LAT <;> cases kwl.DECIMAL_DEGREES_PER_PIXEL_LON <;>
      exact ⟨rfl, rfl⟩
  | some u =>
    cases kwl.PIXEL_SCALE_XY_KW with
    | none => exact ⟨rfl, rfl⟩
    | some sc => cases u <;> exact ⟨rfl, rfl⟩

/-- The tie point part of `loadState` keeps the elevation lookup flag and the PCS code. -/
theorem loadTiePoint_keeps (S : Services K D) (s : ossimMapProjection K D)
    (kwl : ossimKeywordlist K D) :
    (loadTiePoint S s kwl).theElevationLookupFlag = s.theElevationLookupFlag ∧
    (loadTiePoint S s kwl).thePcsCode = s.thePcsCode := by
  unfold loadTiePoint
  cases kwl.TIE_POINT_UNITS_KW with
  | none =>
    cases kwl.TIE_POINT_EASTING_KW <;> cases kwl.TIE_POINT_NORTHING_KW <;>
      cases kwl.TIE_POINT_LAT_KW <;> cases kwl.TIE_POINT_LON_KW <;> exact ⟨rfl, rfl⟩
  | some u =>
    cases kwl.TIE_POINT_XY_KW with
    | none => exact ⟨rfl, rfl⟩
    | some tie => cases u <;> exact ⟨rfl, rfl⟩

/-- The false easting/northing that `loadState` reads from a list which gives it in meters; the
elevation lookup flag and the PCS code are kept. -/
theorem loadFalseEastingNorthing_meters (S : Services K D) (s : ossimMapProjection K D)
    (kwl : ossimKeywordlist K D) (v : ossimDpt K)
    (h1 : kwl.FALSE_EASTING_NORTHING_UNITS_KW = some OSSIM_METERS)
    (h2 : kwl.FALSE_EASTING_NORTHING_KW = some v) :
    loadFalseEastingNorthing S s kwl = { s with theFalseEastingNorthing := v } := by
  simp only [loadFalseEastingNorthing, h1, h2]

/-- The transform part of `loadState` keeps the false easting/northing, the elevation lookup
flag, the PCS code and the northing of the projected tie point. -/
theorem loadTransform_keeps (S : Services K D) (s : ossimMapProjection K D)
    (kwl : ossimKeywordlist K D) :
    (loadTransform S s kwl).theFalseEastingNorthing = s.theFalseEastingNorthing ∧
    (loadTransform S s kwl).theElevationLookupFlag = s.theElevationLookupFlag ∧
    (loadTransform S s kwl).thePcsCode = s.thePcsCode ∧
    (loadTransform S s kwl).theUlEastingNorthing.y = s.theUlEastingNorthing.y := by
  unfold loadTransform
  cases kwl.IMAGE_MODEL_TRANSFORM_MATRIX_KW with
  | none => exact ⟨rfl, rfl, rfl, rfl⟩
  | some es =>
    dsimp only
    split_ifs <;> exact ⟨rfl, rfl, rfl, rfl⟩

/-- What loading the keys of `saveState` gives back: the false easting/northing, the elevation
lookup flag, the PCS code as `getPcsCode` returned it and, for a projected kernel, the northing
of the projected tie point; the linear scale and the projected tie point when no transform is
written. -/
theorem loadState_saveState_fields (S : Services K D) (wgs84 : D)
    (s f : ossimMapProjection K D) :
    (loadState S wgs84 f (saveState S s).1).theFalseEastingNorthing
      = s.theFalseEastingNorthing ∧
    (loadState S wgs84 f (saveState S s).1).theElevationLookupFlag
      = s.theElevationLookupFlag ∧
    (loadState S wgs84 f (saveState S s).1).thePcsCode = (getPcsCode S s).1 ∧
    (S.isGeographic = false →
      (loadState S wgs84 f (saveState S s).1).theUlEastingNorthing.y
        = s.theUlEastingNorthing.y) ∧
    (S.isGeographic = false → s.theModelTransform = ossimMatrix4x4.identity →
      s.theMetersPerPixel.hasNans = false →
      (loadState S wgs84 f (saveState S s).1).theMetersPerPixel = s.theMetersPerPixel ∧
      (loadState S wgs84 f (saveState S s).1).theUlEastingNorthing
        = s.theUlEastingNorthing) := by
  obtain ⟨k1, k2, k3, k4, k5, k6, k7⟩ := saveState_keys S s
  obtain ⟨d1, d2, d3, -, -, -, d7, d8, d9, -⟩ := loadDefaults_frame S
    (loadTransform S (loadParameters S wgs84 f (saveState S s).1) (saveState S s).1)
  obtain ⟨t1, t2, t3, t4⟩ := loadTransform_keeps S
    (loadParameters S wgs84 f (saveState S s).1) (saveState S s).1
  have hp : ∀ x : ossimMapProjection K D, loadPixelType x (saveState S s).1 = x := by
    intro x
    simp only [loadPixelType, k5]
  have hu : ∀ x : ossimMapProjection K D,
      (loadOriginalMapUnits x (saveState S s).1).theFalseEastingNorthing
        = x.theFalseEastingNorthing ∧
      (loadOriginalMapUnits x (saveState S s).1).theElevationLookupFlag
        = x.theElevationLookupFlag ∧
      (loadOriginalMapUnits x (saveState S s).1).thePcsCode = x.thePcsCode := by
    intro x
    unfold loadOriginalMapUnits
    cases (saveState S s).1.ORIGINAL_MAP_UNITS_KW <;> exact ⟨rfl, rfl, rfl⟩
  have hfe := loadFalseEastingNorthing_meters S
    (loadTiePoint S (loadPixelScale S (loadOrigin S wgs84 f (saveState S s).1)
      (saveState S s).1) (saveState S s).1) (saveState S s).1 _ k2 k1
  obtain ⟨o1, o2⟩ := loadOrigin_fields S wgs84 f (saveState S s).1
  obtain ⟨s1, s2⟩ := loadPixelScale_keeps S (loadOrigin S wgs84 f (saveState S s).1)
    (saveState S s).1
  obtain ⟨p1, p2⟩ := loadTiePoint_keeps S
    (loadPixelScale S (loadOrigin S wgs84 f (saveState S s).1) (saveState S s).1)
    (saveState S s).1
  have hP : loadParameters S wgs84 f (saveState S s).1
      = loadOriginalMapUnits
          { loadTiePoint S (loadPixelScale S (loadOrigin S wgs84 f (saveState S s).1)
              (saveState S s).1) (saveState S s).1 with
            theFalseEastingNorthing := s.theFalseEastingNorthing } (saveState S s).1 := by
    simp only [loadParameters, hp, hfe]
  have hFE : (loadParameters S wgs84 f (saveState S s).1).theFalseEastingNorthing
      = s.theFalseEastingNorthing := by
    rw [hP, (hu _).1]
  have hflag : (loadParameters S wgs84 f (saveState S s).1).theElevationLookupFlag
      = s.theElevationLookupFlag := by
    rw [hP, (hu _).2.1]
    show (loadTiePoint S _ _).theElevationLookupFlag = _
    rw [p1, s1, o1, k3]
    rfl
  have hpcs : (loadParameters S wgs84 f (saveState S s).1).thePcsCode = (getPcsCode S s).1 := by
    rw [hP, (hu _).2.2]
    show (loadTiePoint S _ _).thePcsCode = _
    rw [p2, s2, o2, k4]
    rfl
  have hL : loadState S wgs84 f (saveState S s).1
      = loadDefaults S
          (loadTransform S (loadParameters S wgs84 f (saveState S s).1) (saveState S s).1) :=
    rfl
  rw [hL]
  refine ⟨?_, ?_, ?_, ?_, ?_⟩
  · rw [d7, t1, hFE]
  · rw [d9, t2, hflag]
  · rw [d8, t3, hpcs]
  · intro hg
    obtain ⟨g1, g2, g3, g4⟩ := k6 hg
    obtain ⟨-, -, m3, -⟩ := loadParameters_meters S wgs84 f (saveState S s).1 _ _ g1 g2 g3 g4 k5
    rw [d3, t4, m3]
  · intro hg hm hn
    obtain ⟨g1, g2, g3, g4⟩ := k6 hg
    obtain ⟨m1, -, m3, -⟩ := loadParameters_meters S wgs84 f (saveState S s).1 _ _ g1 g2 g3 g4 k5
    have hT : loadTransform S (loadParameters S wgs84 f (saveState S s).1) (saveState S s).1
        = updateTransform S (loadParameters S wgs84 f (saveState S s).1) := by
      simp only [loadTransform, k7 hm]
    rw [hT]
    have hfin : (updateTransform S
        (loadParameters S wgs84 f (saveState S s).1)).theMetersPerPixel.hasNans = false := by
      show (loadParameters S wgs84 f (saveState S s).1).theMetersPerPixel.hasNans = false
      rw [m1]
      exact hn
    rw [(loadDefaults_scale S _ hfin).1, (loadDefaults_frame S _).2.2.1]
    exact ⟨m1, m3⟩

/-- The keys of the scale and tie point that `saveState` writes for a geographic kernel: the
angular scale and the geodetic tie point in degrees, and no key for the unit of the scale. -/
theorem saveState_geographic_keys (S : Services K D) (s : ossimMapProjection K D)
    (hg : S.isGeographic = true) :
    (saveState S s).1.PIXEL_SCALE_UNITS_KW = none ∧
    (saveState S s).1.PIXEL_SCALE_XY_KW = some s.theDegreesPerPixel ∧
    (saveState S s).1.TIE_POINT_UNITS_KW = some OSSIM_DEGREES ∧
    (saveState S s).1.TIE_POINT_XY_KW = some ⟨s.theUlGpt.lon, s.theUlGpt.lat⟩ ∧
    (saveState S s).1.METERS_PER_PIXEL_X_KW = none ∧
    (saveState S s).1.METERS_PER_PIXEL_Y_KW = none ∧
    (saveState S s).1.DECIMAL_DEGREES_PER_PIXEL_LAT = none ∧
    (saveState S s).1.DECIMAL_DEGREES_PER_PIXEL_LON = none := by
  have hf := getPcsCode_frame S s
  generalize (if s.thePcsCode = 0 then
      (if S.findProjectionCode s = 0 then 32767 else S.findProjectionCode s)
    else s.thePcsCode) = c at hf
  simp only [saveState, hf, hg, if_true, and_self]

/-- The tie point part of `loadState` keeps the two scale forms. -/
theorem loadTiePoint_scale (S : Services K D) (s : ossimMapProjection K D)
    (kwl : ossimKeywordlist K D) :
    (loadTiePoint S s kwl).theMetersPerPixel = s.theMetersPerPixel ∧
    (loadTiePoint S s kwl).theDegreesPerPixel = s.theDegreesPerPixel := by
  unfold loadTiePoint
  cases kwl.TIE_POINT_UNITS_KW with
  | none =>
    cases kwl.TIE_POINT_EASTING_KW <;> cases kwl.TIE_POINT_NORTHING_KW <;>
      cases kwl.TIE_POINT_LAT_KW <;> cases kwl.TIE_POINT_LON_KW <;> exact ⟨rfl, rfl⟩
  | some u =>
    cases kwl.TIE_POINT_XY_KW with
    | none => exact ⟨rfl, rfl⟩
    | some tie => cases u <;> exact ⟨rfl, rfl⟩

/-- A list without the key of the scale unit and without the older scale keys leaves both scale
forms unset, whatever it holds under the key of the scale itself. -/
theorem loadParameters_scale_unread (S : Services K D) (wgs84 : D) (s : ossimMapProjection K D)
    (kwl : ossimKeywordlist K D)
    (h1 : kwl.PIXEL_SCALE_UNITS_KW = none)
    (h2 : kwl.METERS_PER_PIXEL_X_KW = none) (h3 : kwl.METERS_PER_PIXEL_Y_KW = none)
    (h4 : kwl.DECIMAL_DEGREES_PER_PIXEL_LAT = none)
    (h5 : kwl.DECIMAL_DEGREES_PER_PIXEL_LON = none)
    (h6 : kwl.PIXEL_TYPE_KW = none) :
    (loadParameters S wgs84 s kwl).theMetersPerPixel = ossimDpt.makeNan ∧
    (loadParameters S wgs84 s kwl).theDegreesPerPixel = ossimDpt.makeNan := by
  have hs : loadPixelScale S (loadOrigin S wgs84 s kwl) kwl
      = { loadOrigin S wgs84 s kwl with
          theMetersPerPixel := ossimDpt.makeNan, theDegreesPerPixel := ossimDpt.makeNan } := by
    simp only [loadPixelScale, h1, h2, h3, h4, h5]
  obtain ⟨t1, t2⟩ := loadTiePoint_scale S (loadPixelScale S (loadOrigin S wgs84 s kwl) kwl) kwl
  obtain ⟨e1, e2, -, -⟩ := loadFalseEastingNorthing_frame S
    (loadTiePoint S (loadPixelScale S (loadOrigin S wgs84 s kwl) kwl) kwl) kwl
  have hu : ∀ x : ossimMapProjection K D,
      (loadOriginalMapUnits x kwl).theMetersPerPixel = x.theMetersPerPixel ∧
      (loadOriginalMapUnits x kwl).theDegreesPerPixel = x.theDegreesPerPixel := by
    intro x
    unfold loadOriginalMapUnits
    cases kwl.ORIGINAL_MAP_UNITS_KW <;> exact ⟨rfl, rfl⟩
  have hp : ∀ x : ossimMapProjection K D, loadPixelType x kwl = x := by
    intro x
    simp only [loadPixelType, h6]
  obtain ⟨u1, u2⟩ := hu (loadFalseEastingNorthing S
    (loadTiePoint S (loadPixelScale S (loadOrigin S wgs84 s kwl) kwl) kwl) kwl)
  simp only [loadParameters, hp]
  rw [u1, u2, e1, e2, t1, t2, hs]
  exact ⟨rfl, rfl⟩

/-- For a geographic kernel the scale that `saveState` writes is not read back: after the
parameters are read from the saved list, both scale forms are unset, whatever the saved state
and whatever the state loaded into. -/
theorem loadParameters_saveState_geographic (S : Services K D) (wgs84 : D)
    (s f : ossimMapProjection K D) (hg : S.isGeographic = true) :
    (saveState S s).1.PIXEL_SCALE_XY_KW = some s.theDegreesPerPixel ∧
    (loadParameters S wgs84 f (saveState S s).1).theMetersPerPixel = ossimDpt.makeNan ∧
    (loadParameters S wgs84 f (saveState S s).1).theDegreesPerPixel = ossimDpt.makeNan := by
  obtain ⟨k1, k2, -, -, k5, k6, k7, k8⟩ := saveState_geographic_keys S s hg
  obtain ⟨-, -, -, -, k9, -⟩ := saveState_keys S s
  exact ⟨k2, loadParameters_scale_unread S wgs84 f (saveState S s).1 k1 k5 k6 k7 k8 k9⟩

/-- The linear scale that `updateFromTransform` derives from a transform whose cell `[1][0]` is
`nan`, and the state that the angular scale is sampled from. -/
theorem updateFromTransform_nan (S : Services K D) (u : ossimMapProjection K D)
    (h10 : u.theModelTransform 1 0 = nan) :
    (updateFromTransform S u).theMetersPerPixel = ossimDpt.makeNan ∧
    (updateFromTransform S u).theDegreesPerPixel
      = (computeDegreesPerPixel S
          { u with theMetersPerPixel := ossimDpt.makeNan }).theDegreesPerPixel := by
  simp only [updateFromTransform, computeDegreesPerPixel, h10, Dbl.nan_mul, Dbl.add_nan,
    Dbl.nan_add, Dbl.map_nan, ossimDpt.makeNan, and_self]

/-- The default angular scale of `loadState` for a geographic kernel, when both scale forms
are unset. -/
theorem loadDefaults_geographic (S : Services K D) (u : ossimMapProjection K D)
    (hg : S.isGeographic = true) (hm : u.theMetersPerPixel.hasNans = true)
    (hd : u.theDegreesPerPixel.hasNans = true) :
    (loadDefaults S u).theMetersPerPixel = u.theMetersPerPixel ∧
    (loadDefaults S u).theDegreesPerPixel
      = ⟨fin 1 / S.metersPerDegree.y, fin 1 / S.metersPerDegree.y⟩ := by
  unfold loadDefaults
  cases u.theDatum.isSome <;> cases u.theOrigin.hasNans <;>
    simp only [hg, hm, hd, Bool.and_self, Bool.false_eq_true, if_false, if_true] <;>
    first
      | exact ⟨rfl, rfl⟩
      | (split_ifs <;> exact ⟨rfl, rfl⟩)

/-- An angular scale that is set is kept by `update` when the linear scale is not set. -/
theorem update_degrees_of_angular (S : Services K D) (s : ossimMapProjection K D)
    (hd : s.theDegreesPerPixel.hasNans = false) (hm : s.theMetersPerPixel.hasNans = true) :
    (update S s).theDegreesPerPixel = s.theDegreesPerPixel := by
  have h1 : resolveScale S s = computeMetersPerPixel S s := by
    simp [resolveScale, hd, hm]
  obtain ⟨-, r2, -⟩ := resolveTiePoint_frame S (computeMetersPerPixel S s)
  have h2 : defaultScale S (resolveTiePoint S (computeMetersPerPixel S s))
      = resolveTiePoint S (computeMetersPerPixel S s) := by
    have h3 : (resolveTiePoint S (computeMetersPerPixel S s)).theDegreesPerPixel.hasNans
        = false := by
      rw [r2]
      exact hd
    simp [defaultScale, h3]
  rw [update_eq, h1, h2]
  exact r2

/-- The sample projection `resolved` has the angular scale (2, 3). -/
theorem resolved_degrees : Sample.resolved.theDegreesPerPixel = Sample.dpt 2 3 := by
  have h : Sample.resolved = updateTransform Sample.geographic
      (computeDegreesPerPixel Sample.geographic (Sample.raw 0)) :=
    update_resolved Sample.geographic (Sample.raw 0)
      (by simp [Sample.raw, Sample.dpt, ossimDpt.hasNans])
      (by simp [Sample.raw, Sample.gpt, ossimGpt.hasNans])
      (by simp [Sample.raw, Sample.dpt, ossimDpt.hasNans])
  rw [h]
  have h4 : Sample.sqrt 4 = 2 := by
    have e : (4 : ℚ) = 2 * 2 := by norm_num
    rw [e, sample_sqrt_mul_self]
    norm_num [abs_of_pos]
  simp [updateTransform, computeDegreesPerPixel, Sample.raw, Sample.fresh, new, Sample.gpt,
    Sample.dpt, Sample.geographic]
  norm_num [h4, sample_sqrt_nine]

/-- The sample projection `resolved` saved and loaded again: both scale forms of the reloaded
state. -/
theorem restored_fields :
    Sample.restored.theMetersPerPixel = ossimDpt.makeNan ∧
    Sample.restored.theDegreesPerPixel = Sample.dpt (1 / 110574) (1 / 110574) := by
  obtain ⟨-, -, -, -, -, -, -, f8⟩ := resolved_fields
  obtain ⟨-, p1, -⟩ := loadParameters_saveState_geographic Sample.geographic 0
    Sample.resolved Sample.fresh rfl
  have hc : (getPcsCode Sample.geographic Sample.resolved).2.theModelTransform
      = Sample.resolved.theModelTransform := by
    rw [getPcsCode_frame]
  have hne : Sample.resolved.theModelTransform ≠ ossimMatrix4x4.identity := by
    intro h
    have h00 := congrFun (congrFun h 0) 0
    rw [f8] at h00
    simp [ossimMatrix4x4.identity] at h00
  have hk : (saveState Sample.geographic Sample.resolved).1.IMAGE_MODEL_TRANSFORM_MATRIX_KW
      = some (transformElements Sample.resolved.theModelTransform) := by
    simp only [saveState, hc, ne_eq, hne, not_false_eq_true, if_true]
  have hr := loadState_override Sample.geographic 0 Sample.fresh
    (saveState Sample.geographic Sample.resolved).1 _ (Sample.resolved.theModelTransform 3 3)
    hk rfl rfl
  have h10 : ((updateTransform Sample.geographic (loadParameters Sample.geographic 0
      Sample.fresh (saveState Sample.geographic Sample.resolved).1)).theModelTransform.set
        0 0 (Sample.resolved.theModelTransform 3 3)) 1 0 = nan := by
    simp [updateTransform, ossimMatrix4x4.set, p1, ossimDpt.makeNan]
  obtain ⟨u1, u2⟩ := updateFromTransform_nan Sample.geographic
    { updateTransform Sample.geographic (loadParameters Sample.geographic 0 Sample.fresh
        (saveState Sample.geographic Sample.resolved).1) with
      theModelTransform :=
        (updateTransform Sample.geographic (loadParameters Sample.geographic 0 Sample.fresh
          (saveState Sample.geographic Sample.resolved).1)).theModelTransform.set 0 0
            (Sample.resolved.theModelTransform 3 3)
      theInverseModelTransform :=
        ((updateTransform Sample.geographic (loadParameters Sample.geographic 0 Sample.fresh
          (saveState Sample.geographic Sample.resolved).1)).theModelTransform.set 0 0
            (Sample.resolved.theModelTransform 3 3)).i } h10
  have u3 : (computeDegreesPerPixel Sample.geographic
      { ({ updateTransform Sample.geographic (loadParameters Sample.geographic 0 Sample.fresh
            (saveState Sample.geographic Sample.resolved).1) with
          theModelTransform :=
            (updateTransform Sample.geographic (loadParameters Sample.geographic 0
              Sample.fresh (saveState Sample.geographic Sample.resolved).1)).theModelTransform.set
                0 0 (Sample.resolved.theModelTransform 3 3)
          theInverseModelTransform :=
            ((updateTransform Sample.geographic (loadParameters Sample.geographic 0
              Sample.fresh (saveState Sample.geographic Sample.resolved).1)).theModelTransform.set
                0 0 (Sample.resolved.theModelTransform 3 3)).i } :
            ossimMapProjection ℚ ℕ) with
        theMetersPerPixel := ossimDpt.makeNan }).theDegreesPerPixel.hasNans = true := by
    simp [computeDegreesPerPixel, Sample.geographic, ossimDpt.makeNan, ossimDpt.hasNans]
  rw [← u2] at u3
  unfold Sample.restored
  rw [hr]
  obtain ⟨d1, d2⟩ := loadDefaults_geographic Sample.geographic _ rfl (by rw [u1]; rfl) u3
  rw [d1, d2, u1]
  refine ⟨rfl, ?_⟩
  simp [Sample.geographic, Sample.dpt]

/-- Under exact comparison of the members, two projections whose linear scales differ are not
equal, whatever the comparison type. -/
theorem isEqualTo_exact_of_meters (a b : ossimMapProjection ℚ ℕ)
    (h : Sample.sameDpt a.theMetersPerPixel b.theMetersPerPixel = false)
    (compareType : ossimCompareType) :
    isEqualTo Sample.exact a (some b) true compareType = false := by
  simp [isEqualTo, Sample.exact, h]

/-- Under exact comparison of the members, two projections whose angular scales differ are not
equal, whatever the comparison type. -/
theorem isEqualTo_exact_of_degrees (a b : ossimMapProjection ℚ ℕ)
    (h : Sample.sameDpt a.theDegreesPerPixel b.theDegreesPerPixel = false)
    (compareType : ossimCompareType) :
    isEqualTo Sample.exact a (some b) true compareType = false := by
  simp [isEqualTo, Sample.exact, h]

/-- C25, the code departs from the claim, for a projected and for a geographic kernel.

Projected: the projection `surveyed` of the planar kernel, resolved by `update`, has the linear
scale (2, 3) and the projected tie point (5, 7).  `saveState` writes both, in meters, and the
sixteen elements of the transform; `loadState` into a fresh projection of the same kernel leaves
the linear scale (1, 3) and the projected tie point (7, 7), a following `update` keeps both, and
`isEqualTo` between the original and the reloaded state is false under exact comparison of the
members.

Geographic: the projection `resolved` of the geographic kernel, resolved by `update`, has the
linear and the angular scale (2, 3).  `saveState` writes the angular scale (2, 3) and no unit for
it; `loadState` into a fresh projection of the same kernel leaves the linear scale unset and
the default angular scale (1/110574, 1/110574), a following `update` keeps that angular scale,
and `isEqualTo` between the original and the reloaded state is false. -/
theorem saveState_loadState_round_trip_fails :
    (Sample.surveyed.theMetersPerPixel = Sample.dpt 2 3 ∧
      Sample.surveyed.theUlEastingNorthing = Sample.dpt 5 7 ∧
      (saveState Sample.planar Sample.surveyed).1.PIXEL_SCALE_XY_KW = some (Sample.dpt 2 3) ∧
      (saveState Sample.planar Sample.surveyed).1.TIE_POINT_XY_KW = some (Sample.dpt 5 7) ∧
      (saveState Sample.planar Sample.surveyed).1.IMAGE_MODEL_TRANSFORM_MATRIX_KW
        = some [fin 2, fin 0, fin 0, fin 5, fin 0, fin 3, fin 0, fin 7,
            fin 0, fin 0, fin 1, fin 0, fin 0, fin 0, fin 0, fin 1] ∧
      Sample.reloaded
        = loadState Sample.planar 0 Sample.fresh (saveState Sample.planar Sample.surveyed).1 ∧
      Sample.reloaded.theMetersPerPixel = Sample.dpt 1 3 ∧
      Sample.reloaded.theUlEastingNorthing = Sample.dpt 7 7 ∧
      (update Sample.planar Sample.reloaded).theMetersPerPixel = Sample.dpt 1 3 ∧
      (update Sample.planar Sample.reloaded).theUlEastingNorthing = Sample.dpt 7 7 ∧
      (∀ compareType, isEqualTo Sample.exact Sample.surveyed (some Sample.reloaded) true
        compareType = false) ∧
      (∀ compareType, isEqualTo Sample.exact Sample.surveyed
        (some (update Sample.planar Sample.reloaded)) true compareType = false)) ∧
    (Sample.resolved.theMetersPerPixel = Sample.dpt 2 3 ∧
      Sample.resolved.theDegreesPerPixel = Sample.dpt 2 3 ∧
      (saveState Sample.geographic Sample.resolved).1.PIXEL_SCALE_XY_KW
        = some (Sample.dpt 2 3) ∧
      (saveState Sample.geographic Sample.resolved).1.PIXEL_SCALE_UNITS_KW = none ∧
      Sample.restored
        = loadState Sample.geographic 0 Sample.fresh
            (saveState Sample.geographic Sample.resolved).1 ∧
      Sample.restored.theMetersPerPixel = ossimDpt.makeNan ∧
      Sample.restored.theDegreesPerPixel = Sample.dpt (1 / 110574) (1 / 110574) ∧
      (update Sample.geographic Sample.restored).theDegreesPerPixel
        = Sample.dpt (1 / 110574) (1 / 110574) ∧
      (∀ compareType, isEqualTo Sample.exact Sample.resolved (some Sample.restored) true
        compareType = false) ∧
      (∀ compareType, isEqualTo Sample.exact Sample.resolved
        (some (update Sample.geographic Sample.restored)) true compareType = false)) := by
  constructor
  · obtain ⟨f1, f2, -⟩ := surveyed_fields
    obtain ⟨-, g2, -, g4, -, g6, -⟩ := surveyed_saved
    obtain ⟨r1, r2⟩ := reloaded_fields
    have hu1 : (update Sample.planar Sample.reloaded).theMetersPerPixel = Sample.dpt 1 3 := by
      rw [(update_degrees_of_linear Sample.planar Sample.reloaded (by rw [r1]; rfl)).2, r1]
    have hu2 : (update Sample.planar Sample.reloaded).theUlEastingNorthing
        = Sample.dpt 7 7 := by
      rw [update_keeps_projected_tie Sample.planar Sample.reloaded (by rw [r2]; rfl), r2]
    have hd : Sample.sameDpt (Sample.dpt 2 3) (Sample.dpt 1 3) = false := by
      simp [Sample.sameDpt, Sample.same, Sample.dpt]
    refine ⟨f1, f2, g2, g4, g6, rfl, r1, r2, hu1, hu2, ?_, ?_⟩
    · exact isEqualTo_exact_of_meters _ _ (by rw [f1, r1]; exact hd)
    · exact isEqualTo_exact_of_meters _ _ (by rw [f1, hu1]; exact hd)
  · obtain ⟨-, -, -, -, -, f6, -⟩ := resolved_fields
    have f7 := resolved_degrees
    obtain ⟨k1, k2, -⟩ := saveState_geographic_keys Sample.geographic Sample.resolved rfl
    obtain ⟨r1, r2⟩ := restored_fields
    have hu : (update Sample.geographic Sample.restored).theDegreesPerPixel
        = Sample.dpt (1 / 110574) (1 / 110574) := by
      rw [update_degrees_of_angular Sample.geographic Sample.restored (by rw [r2]; rfl)
        (by rw [r1]; rfl), r2]
    have hd : Sample.sameDpt (Sample.dpt 2 3) (Sample.dpt (1 / 110574) (1 / 110574))
        = false := by
      simp [Sample.sameDpt, Sample.same, Sample.dpt]
      norm_num
    have hn : Sample.sameDpt (Sample.dpt 2 3) ossimDpt.makeNan = false := by
      simp [Sample.sameDpt, Sample.same, Sample.dpt, ossimDpt.makeNan]
    refine ⟨f6, f7, ?_, k1, rfl, r1, r2, hu, ?_, ?_⟩
    · rw [k2, f7]
    · exact isEqualTo_exact_of_meters _ _ (by rw [f6, r1]; exact hn)
    · exact isEqualTo_exact_of_degrees _ _ (by rw [f7, hu]; exact hd)

/-! ## Sentinel propagation, construction, tie point resolution -/

/-- C26: sentinel propagation.  `worldToLineSample` gives the `nan` point when the latitude or
the longitude of the input is `nan`; `lineSampleHeightToWorld` gives the `nan` geodetic point
when the input pixel has a `nan` coordinate; with `OSSIM_USE_TRANSFORM` not defined,
`lineSampleToEastingNorthing` gives the `nan` point when the input pixel or the stored projected
tie point has a `nan` coordinate, and `eastingNorthingToLineSample` gives the `nan` point when
the input model point has a `nan` coordinate.  The results are the same for every kernel and
every service: none is consulted. -/
theorem sentinel_propagation (S : Services K D) (s : ossimMapProjection K D) :
    (∀ worldPoint : ossimGpt K D, worldPoint.isLatLonNan = true →
      worldToLineSample S s worldPoint = ossimDpt.makeNan) ∧
    (∀ (lineSample : ossimDpt K) (hgtEllipsoid : Dbl K) (gpt0 : ossimGpt K D),
      lineSample.hasNans = true →
      lineSampleHeightToWorld S s lineSample hgtEllipsoid gpt0 = gpt0.makeNan) ∧
    (∀ lineSample : ossimDpt K,
      lineSample.hasNans = true ∨ s.theUlEastingNorthing.hasNans = true →
      lineSampleToEastingNorthing S false s lineSample = ossimDpt.makeNan) ∧
    (∀ eastingNorthing lineSample0 : ossimDpt K, eastingNorthing.hasNans = true →
      eastingNorthingToLineSample S false s eastingNorthing lineSample0
        = ossimDpt.makeNan) := by
  refine ⟨?_, ?_, ?_, ?_⟩
  · intro worldPoint h
    simp only [worldToLineSample, h, if_true]
  · intro lineSample hgtEllipsoid gpt0 h
    simp only [lineSampleHeightToWorld, h, if_true]
  · intro lineSample h
    have h2 : (lineSample.hasNans || s.theUlEastingNorthing.hasNans) = true := by
      rcases h with h | h <;> simp [h]
    simp only [lineSampleToEastingNorthing, h2, Bool.false_eq_true, if_false, if_true]
  · intro eastingNorthing lineSample0 h
    simp only [eastingNorthingToLineSample, h, Bool.false_eq_true, if_false, if_true]

/-- C26 on concrete inputs: a world point without latitude, and a pixel without line, on the
sample projection. -/
theorem sentinel_propagation_witness :
    worldToLineSample Sample.geographic Sample.built ⟨nan, fin 0, fin 0, some 0⟩
      = ossimDpt.makeNan ∧
    lineSampleToEastingNorthing Sample.geographic false Sample.built ⟨fin 1, nan⟩
      = ossimDpt.makeNan :=
  ⟨(sentinel_propagation Sample.geographic Sample.built).1 _ rfl,
    (sentinel_propagation Sample.geographic Sample.built).2.2.1 _ (Or.inl rfl)⟩

/-- C27, the claim as stated fails: the constructor assigns the origin to the geodetic tie
point, so that a projection constructed on the origin (0 N, 0 E) has the geodetic tie point
(0 N, 0 E), which is set. -/
theorem new_unset_counterexample :
    Sample.fresh = new Sample.wgs84 (Sample.gpt 0 0) ∧
    Sample.fresh.theUlGpt = Sample.gpt 0 0 ∧
    Sample.fresh.theUlGpt.hasNans = false :=
  ⟨rfl, rfl, rfl⟩

/-- C27, amended: for every ellipsoid and origin, a newly constructed projection has the
identity forward and inverse transform, both pixel scale forms and the projected tie point
unset (`nan`), the geodetic tie point equal to the origin, the stored PCS code 0, the azimuth 0
and the elevation lookup disabled; the datum is that of the origin, the false easting/northing
is (0, 0) and the declared unit is meters. -/
theorem new_unset (ellipsoid : ossimEllipsoid K) (origin : ossimGpt K D) :
    (new ellipsoid origin).theModelTransform = ossimMatrix4x4.identity ∧
    (new ellipsoid origin).theInverseModelTransform = ossimMatrix4x4.identity ∧
    (new ellipsoid origin).theDegreesPerPixel = ossimDpt.makeNan ∧
    (new ellipsoid origin).theMetersPerPixel = ossimDpt.makeNan ∧
    (new ellipsoid origin).theUlEastingNorthing = ossimDpt.makeNan ∧
    (new ellipsoid origin).theUlGpt = origin ∧
    (new ellipsoid origin).thePcsCode = 0 ∧
    (new ellipsoid origin).theImageToModelAzimuth = fin 0 ∧
    (new ellipsoid origin).theElevationLookupFlag = false ∧
    (new ellipsoid origin).theEllipsoid = ellipsoid ∧
    (new ellipsoid origin).theOrigin = origin ∧
    (new ellipsoid origin).theDatum = origin.datum ∧
    (new ellipsoid origin).theFalseEastingNorthing = ⟨fin 0, fin 0⟩ ∧
    (new ellipsoid origin).theProjectionUnits = OSSIM_METERS :=
  ⟨rfl, rfl, rfl, rfl, rfl, rfl, rfl, rfl, rfl, rfl, rfl, rfl, rfl, rfl⟩

/-- The second block of `update`, case by case. -/
theorem resolveTiePoint_cases (S : Services K D) (x : ossimMapProjection K D) :
    (x.theUlEastingNorthing.hasNans = true → x.theUlGpt.hasNans = false →
      (resolveTiePoint S x).theUlEastingNorthing = S.forward x.theUlGpt ∧
      (resolveTiePoint S x).theUlGpt = x.theUlGpt) ∧
    (x.theUlGpt.hasNans = true → x.theUlEastingNorthing.hasNans = false →
      (resolveTiePoint S x).theUlGpt = S.inverse x.theUlEastingNorthing ∧
      (resolveTiePoint S x).theUlEastingNorthing = x.theUlEastingNorthing) ∧
    (x.theUlGpt.hasNans = true → x.theUlEastingNorthing.hasNans = true →
      (resolveTiePoint S x).theUlGpt = x.theOrigin ∧
      (resolveTiePoint S x).theUlEastingNorthing = S.forward x.theOrigin) ∧
    (x.theUlGpt.hasNans = false → x.theUlEastingNorthing.hasNans = false →
      (resolveTiePoint S x).theUlGpt = x.theUlGpt ∧
      (resolveTiePoint S x).theUlEastingNorthing = x.theUlEastingNorthing) := by
  refine ⟨?_, ?_, ?_, ?_⟩ <;> intro h1 h2 <;> simp [resolveTiePoint, h1, h2]

/-- C28: `update` resolves the tie point by cases.  If the projected form has a `nan` and the
geodetic form has none, the projected form becomes `forward(geodetic)` and the geodetic form is
kept; if the geodetic form has a `nan` and the projected form has none, the geodetic form
becomes `inverse(projected)` and the projected form is kept; if both have a `nan`, the geodetic
form becomes the origin and the projected form `forward(origin)`; if neither has one, both are
kept. -/
theorem update_resolves_tie_point (S : Services K D) (s : ossimMapProjection K D) :
    (s.theUlEastingNorthing.hasNans = true → s.theUlGpt.hasNans = false →
      (update S s).theUlEastingNorthing = S.forward s.theUlGpt ∧
      (update S s).theUlGpt = s.theUlGpt) ∧
    (s.theUlGpt.hasNans = true → s.theUlEastingNorthing.hasNans = false →
      (update S s).theUlGpt = S.inverse s.theUlEastingNorthing ∧
      (update S s).theUlEastingNorthing = s.theUlEastingNorthing) ∧
    (s.theUlGpt.hasNans = true → s.theUlEastingNorthing.hasNans = true →
      (update S s).theUlGpt = s.theOrigin ∧
      (update S s).theUlEastingNorthing = S.forward s.theOrigin) ∧
    (s.theUlGpt.hasNans = false → s.theUlEastingNorthing.hasNans = false →
      (update S s).theUlGpt = s.theUlGpt ∧
      (update S s).theUlEastingNorthing = s.theUlEastingNorthing) := by
  obtain ⟨u1, u2, a5, a6, a3⟩ := update_tie S s
  obtain ⟨c1, c2, c3, c4⟩ := resolveTiePoint_cases S (resolveScale S s)
  rw [u1, u2]
  rw [a5, a6] at c1 c2 c4
  rw [a5, a6, a3] at c3
  exact ⟨c1, c2, c3, c4⟩

/-- C28 on concrete states: a fresh projection (projected tie point unset, geodetic tie point
at the origin) and the sample projection (both forms set), with the geographic kernel. -/
theorem update_resolves_tie_point_witness :
    (update Sample.geographic Sample.fresh).theUlEastingNorthing
      = Sample.geographic.forward Sample.fresh.theUlGpt ∧
    (update Sample.geographic (Sample.raw 0)).theUlGpt = (Sample.raw 0).theUlGpt :=
  ⟨((update_resolves_tie_point Sample.geographic Sample.fresh).1 rfl rfl).1,
    ((update_resolves_tie_point Sample.geographic (Sample.raw 0)).2.2.2 rfl rfl).1⟩

/-! ## Sampling the scale, reading the transform back -/

/-- The sample square root at 4. -/
theorem sample_sqrt_four : Sample.sqrt 4 = 2 := by
  have h : (4 : ℚ) = 2 * 2 := by norm_num
  rw [h, sample_sqrt_mul_self]
  norm_num [abs_of_pos]

/-- The linear scale that `update` leaves when the angular scale is set and the linear scale is
not: the one sampled by `computeMetersPerPixel`, east of the origin for x and at the latitude
`origin.lat + dLat` for y. -/
theorem update_meters_of_angular (S : Services K D) (s : ossimMapProjection K D)
    (hd : s.theDegreesPerPixel.hasNans = false) (hm : s.theMetersPerPixel.hasNans = true) :
    (update S s).theMetersPerPixel
      = ⟨((S.forward { s.theOrigin with lon := s.theOrigin.lon + s.theDegreesPerPixel.lon }).sub
            (S.forward s.theOrigin)).length S.sqrt,
          ((S.forward { s.theOrigin with lat := s.theOrigin.lat + s.theDegreesPerPixel.lat }).sub
            (S.forward s.theOrigin)).length S.sqrt⟩ := by
  have h1 : resolveScale S s = computeMetersPerPixel S s := by
    simp [resolveScale, hd, hm]
  obtain ⟨r1, r2, -⟩ := resolveTiePoint_frame S (computeMetersPerPixel S s)
  have h2 : defaultScale S (resolveTiePoint S (computeMetersPerPixel S s))
      = resolveTiePoint S (computeMetersPerPixel S s) := by
    have h3 : (resolveTiePoint S (computeMetersPerPixel S s)).theDegreesPerPixel.hasNans
        = false := by
      rw [r2]
      exact hd
    simp [defaultScale, h3]
  rw [update_eq, h1, h2]
  exact r1

/-- C29, the code at the failing input.  With the kernel `kinked` (south of the equator the
northing runs twice as fast as the latitude), origin (0 N, 0 E), angular scale (1, 1) and no
linear scale, `update` leaves meters-per-pixel y = 1, the distance between `forward(origin)` and
`forward` of the point one degree to the north; the distance to the point one degree to the
south, at latitude `origin.lat - dLat`, is 2.  Meters-per-pixel x is the distance to the point
one degree to the east, 1. -/
theorem computeMetersPerPixel_samples_north :
    Sample.angularOnly.theOrigin = Sample.gpt 0 0 ∧
    Sample.angularOnly.theDegreesPerPixel = Sample.dpt 1 1 ∧
    Sample.angularOnly.theMetersPerPixel = ossimDpt.makeNan ∧
    (update Sample.kinked Sample.angularOnly).theMetersPerPixel = Sample.dpt 1 1 ∧
    ((Sample.kinked.forward { Sample.gpt 0 0 with lon := fin 0 + fin 1 }).sub
      (Sample.kinked.forward (Sample.gpt 0 0))).length Sample.sqrt = fin 1 ∧
    ((Sample.kinked.forward { Sample.gpt 0 0 with lat := fin 0 + fin 1 }).sub
      (Sample.kinked.forward (Sample.gpt 0 0))).length Sample.sqrt = fin 1 ∧
    ((Sample.kinked.forward { Sample.gpt 0 0 with lat := fin 0 - fin 1 }).sub
      (Sample.kinked.forward (Sample.gpt 0 0))).length Sample.sqrt = fin 2 := by
  have he : ((Sample.kinked.forward { Sample.gpt 0 0 with lon := fin 0 + fin 1 }).sub
      (Sample.kinked.forward (Sample.gpt 0 0))).length Sample.sqrt = fin 1 := by
    simp [Sample.kinked, Sample.geographic, Sample.gpt, ossimDpt.sub, ossimDpt.length,
      sample_sqrt_one]
  have hn : ((Sample.kinked.forward { Sample.gpt 0 0 with lat := fin 0 + fin 1 }).sub
      (Sample.kinked.forward (Sample.gpt 0 0))).length Sample.sqrt = fin 1 := by
    simp [Sample.kinked, Sample.geographic, Sample.gpt, ossimDpt.sub, ossimDpt.length,
      sample_sqrt_one]
  have hs : ((Sample.kinked.forward { Sample.gpt 0 0 with lat := fin 0 - fin 1 }).sub
      (Sample.kinked.forward (Sample.gpt 0 0))).length Sample.sqrt = fin 2 := by
    simp [Sample.kinked, Sample.geographic, Sample.gpt, ossimDpt.sub, ossimDpt.length]
    norm_num [sample_sqrt_four]
  refine ⟨rfl, rfl, rfl, ?_, he, hn, hs⟩
  rw [update_meters_of_angular Sample.kinked Sample.angularOnly rfl rfl]
  have e1 : Sample.angularOnly.theOrigin = Sample.gpt 0 0 := rfl
  have e2 : Sample.angularOnly.theDegreesPerPixel.lon = fin 1 := rfl
  have e3 : Sample.angularOnly.theDegreesPerPixel.lat = fin 1 := rfl
  have e4 : (Sample.gpt 0 0).lon = fin 0 := rfl
  have e5 : (Sample.gpt 0 0).lat = fin 0 := rfl
  rw [e1, e2, e3, e4, e5]
  have e6 : Sample.kinked.sqrt = Sample.sqrt := rfl
  rw [e6, he, hn]
  rfl

/-- C30, the code at the failing inputs.  On the sample projection with linear scale (2, 3),
projected tie point (5, 7) and azimuth 0, `updateTransform` followed by `updateFromTransform`
keeps the scale and leaves the projected tie point (7, 7): the cell `[1][3]` is assigned to the
x component after the cell `[0][3]`, and the y component is not assigned.  At azimuth 90 the
scale becomes (2, 2): the y scale is read off the cells `[1][0]` and `[1][1]`, which hold
`-sx` and 0 there. -/
theorem updateFromTransform_not_inverse :
    (Sample.raw 0).theMetersPerPixel = Sample.dpt 2 3 ∧
    (Sample.raw 0).theUlEastingNorthing = Sample.dpt 5 7 ∧
    (updateTransform Sample.geographic (Sample.raw 0)).theModelTransform 0 3 = fin 5 ∧
    (updateTransform Sample.geographic (Sample.raw 0)).theModelTransform 1 3 = fin 7 ∧
    (updateFromTransform Sample.geographic
      (updateTransform Sample.geographic (Sample.raw 0))).theMetersPerPixel = Sample.dpt 2 3 ∧
    (updateFromTransform Sample.geographic
      (updateTransform Sample.geographic (Sample.raw 0))).theUlEastingNorthing
        = Sample.dpt 7 7 ∧
    (Sample.raw 90).theMetersPerPixel = Sample.dpt 2 3 ∧
    (updateFromTransform Sample.geographic
      (updateTransform Sample.geographic (Sample.raw 90))).theMetersPerPixel
        = Sample.dpt 2 2 := by
  obtain ⟨-, -, -, -, c5, c6⟩ := updateTransform_cells_at_zero Sample.geographic (Sample.raw 0)
    rfl
  obtain ⟨u1, u2, -⟩ := updateFromTransform_at_zero Sample.geographic (Sample.raw 0) 2 3 rfl rfl
    sample_sqrt_mul_self
  have hM := (updateTransform_finite Sample.geographic sample_cosd_zero sample_sind_zero
    (Sample.raw 90) 2 3 5 7 90 rfl (by norm_num) (by norm_num) rfl rfl
    (by norm_num [Sample.geographic, Sample.cosd, Sample.sind])).1
  have hc : Sample.geographic.cosd 90 = 0 := by
    norm_num [Sample.geographic, Sample.cosd]
  have hs : Sample.geographic.sind 90 = 1 := by
    norm_num [Sample.geographic, Sample.sind]
  rw [hc, hs] at hM
  obtain ⟨v1, -, -⟩ := updateFromTransform_cells Sample.geographic
    (updateTransform Sample.geographic (Sample.raw 90)) (2 * 0) (-2 * 1) (3 * 0)
    (by rw [hM]; simp [ofFinite, affM]) (by rw [hM]; simp [ofFinite, affM])
    (by rw [hM]; simp [ofFinite, affM])
  have e1 : ((2 : ℚ) * 0 * (2 * 0) + -2 * 1 * (-2 * 1)) = 4 := by norm_num
  have e2 : ((-2 : ℚ) * 1 * (-2 * 1) + 3 * 0 * (3 * 0)) = 4 := by norm_num
  have e3 : Sample.geographic.sqrt 4 = 2 := sample_sqrt_four
  rw [e1, e2, e3] at v1
  refine ⟨rfl, rfl, c5, c6, ?_, ?_, rfl, v1⟩
  · rw [u1]
    norm_num [Sample.dpt]
  · rw [u2]
    rfl

/-! ## The direct conversions -/

/-- What the direct `lineSampleToEastingNorthing` computes from a finite scale and tie point:
the pixel `(x, y)` goes to `(tx + x sx, ty - y sy)`. -/
theorem lineSampleToEastingNorthing_direct (S : Services K D) (t : ossimMapProjection K D)
    (sx sy tx ty : K) (hm : t.theMetersPerPixel = ⟨fin sx, fin sy⟩)
    (ht : t.theUlEastingNorthing = ⟨fin tx, fin ty⟩) (x y : K) :
    lineSampleToEastingNorthing S false t ⟨fin x, fin y⟩
      = ⟨fin (tx + x * sx), fin (ty - y * sy)⟩ := by
  simp [lineSampleToEastingNorthing, hm, ht, ossimDpt.hasNans, Dbl.isnan]
  ring

/-- What the direct `eastingNorthingToLineSample` computes from a finite non-zero scale and a
finite tie point: the model point `(x, y)` goes to `((x - tx) / sx, -(y - ty) / sy)`. -/
theorem eastingNorthingToLineSample_direct (S : Services K D) (t : ossimMapProjection K D)
    (sx sy tx ty : K) (hm : t.theMetersPerPixel = ⟨fin sx, fin sy⟩) (hx : sx ≠ 0) (hy : sy ≠ 0)
    (ht : t.theUlEastingNorthing = ⟨fin tx, fin ty⟩) (x y : K) (lineSample0 : ossimDpt K) :
    eastingNorthingToLineSample S false t ⟨fin x, fin y⟩ lineSample0
      = ⟨fin ((x - tx) / sx), fin (-(y - ty) / sy)⟩ := by
  simp [eastingNorthingToLineSample, hm, ht, ossimDpt.hasNans, Dbl.isnan, hx, hy]

/-- The sample projection `built`, field by field. -/
theorem built_fields :
    Sample.built.theMetersPerPixel = ⟨fin 2, fin 3⟩ ∧
    Sample.built.theUlEastingNorthing = ⟨fin 5, fin 7⟩ ∧
    Sample.built.theImageToModelAzimuth = fin 0 ∧
    Sample.built.theProjectionUnits = OSSIM_METERS ∧
    transformsAreCurrent Sample.geographic Sample.built :=
  ⟨rfl, rfl, rfl, rfl, transformsAreCurrent_updateTransform _ _⟩

/-- C31, the code at the failing input.  On the sample projection as `updateTransform` leaves
it (linear scale (2, 3), projected tie point (5, 7), azimuth 0, declared unit meters) the direct
`lineSampleToEastingNorthing` sends the pixel (1, 1) to (7, 4) and `imageToModel` sends it to
(7, 10); the direct `eastingNorthingToLineSample` sends the model point (7, 4) to (1, 1) and
`modelToImage` sends it to (1, -1).  The direct conversions flip the line axis, the transform
does not. -/
theorem direct_conversions_differ :
    Sample.built = updateTransform Sample.geographic (Sample.raw 0) ∧
    Sample.built.theMetersPerPixel = ⟨fin 2, fin 3⟩ ∧
    Sample.built.theUlEastingNorthing = ⟨fin 5, fin 7⟩ ∧
    Sample.built.theImageToModelAzimuth = fin 0 ∧
    Sample.built.theProjectionUnits = OSSIM_METERS ∧
    lineSampleToEastingNorthing Sample.geographic false Sample.built ⟨fin 1, fin 1⟩
      = ⟨fin 7, fin 4⟩ ∧
    imageToModel Sample.geographic Sample.built ⟨fin 1, fin 1⟩ = ⟨fin 7, fin 10⟩ ∧
    eastingNorthingToLineSample Sample.geographic false Sample.built ⟨fin 7, fin 4⟩
      ⟨fin 0, fin 0⟩ = ⟨fin 1, fin 1⟩ ∧
    modelToImage Sample.geographic Sample.built ⟨fin 7, fin 4⟩ = ⟨fin 1, fin (-1)⟩ := by
  obtain ⟨hm, ht, ha, hu, hcur⟩ := built_fields
  have h1 := lineSampleToEastingNorthing_direct Sample.geographic Sample.built 2 3 5 7 hm ht 1 1
  have h2 := imageToModel_zero_azimuth Sample.geographic sample_cosd_zero sample_sind_zero
    Sample.built hcur 2 3 5 7 hm ht ha (Or.inr (Or.inr hu)) 1 1
  have h3 := eastingNorthingToLineSample_direct Sample.geographic Sample.built 2 3 5 7 hm
    (by norm_num) (by norm_num) ht 7 4 ⟨fin 0, fin 0⟩
  have h4 := modelToImage_zero_azimuth Sample.geographic sample_cosd_zero sample_sind_zero
    Sample.built hcur 2 3 5 7 hm (by norm_num) (by norm_num) ht ha (Or.inr (Or.inr hu)) 7 4
  refine ⟨rfl, hm, ht, ha, hu, ?_, ?_, ?_, ?_⟩
  · rw [h1]; norm_num
  · rw [h2]; norm_num
  · rw [h3]; norm_num
  · rw [h4]; norm_num

/-- At azimuth 0 the direct conversion of a pixel and the one through the transform agree on
the first line of the image only. -/
theorem direct_agrees_iff (S : Services K D) (hcos : S.cosd 0 = 1) (hsin : S.sind 0 = 0)
    (t : ossimMapProjection K D) (hcur : transformsAreCurrent S t) (sx sy tx ty : K)
    (hm : t.theMetersPerPixel = ⟨fin sx, fin sy⟩) (hy : sy ≠ 0)
    (ht : t.theUlEastingNorthing = ⟨fin tx, fin ty⟩) (ha : t.theImageToModelAzimuth = fin 0)
    (hu : hasNativeUnits t) (x y : K) :
    lineSampleToEastingNorthing S false t ⟨fin x, fin y⟩ = imageToModel S t ⟨fin x, fin y⟩
      ↔ y = 0 := by
  rw [lineSampleToEastingNorthing_direct S t sx sy tx ty hm ht,
    imageToModel_zero_azimuth S hcos hsin t hcur sx sy tx ty hm ht ha hu]
  constructor
  · intro h
    injection h with h1 h2
    injection h2 with h2
    have h3 : sy * y = 0 := by linarith
    rcases mul_eq_zero.1 h3 with h4 | h4
    · exact absurd h4 hy
    · exact h4
  · intro h
    subst h
    simp [mul_comm]

/-! ## Reflexivity, copies, the authoritative scale -/

/-- C32, the claim as stated fails.  The sample projection with declared unit unknown and PCS
code 0 has a datum, and its origin, false easting/northing and transform compare equal to
themselves; `operator==` between the projection and itself returns false at the test of the
units. -/
theorem operatorEq_reflexive_counterexample :
    Sample.unitless.theDatum = some 0 ∧
    Sample.unitless.thePcsCode = 0 ∧
    Sample.unitless.theProjectionUnits = OSSIM_UNIT_UNKNOWN ∧
    Sample.exact.gptNe Sample.unitless.theOrigin Sample.unitless.theOrigin = false ∧
    Sample.exact.dptNe Sample.unitless.theFalseEastingNorthing
      Sample.unitless.theFalseEastingNorthing = false ∧
    Sample.exact.matrixNe Sample.unitless.theModelTransform Sample.unitless.theModelTransform
      = false ∧
    operatorEq Sample.exact "ossimLlxyProjection" Sample.unitless "ossimLlxyProjection"
      (some Sample.unitless) = false := by
  have hM : Sample.unitless.theModelTransform
      = ofFinite (affM (2 * Sample.geographic.cosd 0) (3 * Sample.geographic.sind 0)
          (-2 * Sample.geographic.sind 0) (3 * Sample.geographic.cosd 0) 5 7) :=
    (updateTransform_finite Sample.geographic sample_cosd_zero sample_sind_zero (Sample.raw 0)
      2 3 5 7 0 rfl (by norm_num) (by norm_num) rfl rfl
      (by norm_num [Sample.geographic, Sample.cosd, Sample.sind])).1
  have hO : Sample.exact.gptNe Sample.unitless.theOrigin Sample.unitless.theOrigin = false := by
    simp [Sample.exact, Sample.unitless, Sample.built, updateTransform, Sample.raw, Sample.fresh,
      new, Sample.gpt, Sample.sameGpt, Sample.same]
  have hF : Sample.exact.dptNe Sample.unitless.theFalseEastingNorthing
      Sample.unitless.theFalseEastingNorthing = false := by
    simp [Sample.exact, Sample.unitless, Sample.built, updateTransform, Sample.raw, Sample.fresh,
      new, Sample.sameDpt, Sample.same]
  have hT : Sample.exact.matrixNe Sample.unitless.theModelTransform
      Sample.unitless.theModelTransform = false := by
    rw [hM]
    simp [Sample.exact, sameMatrix_ofFinite]
  have hu : Sample.unitless.theProjectionUnits = OSSIM_UNIT_UNKNOWN := rfl
  have hp : Sample.unitless.thePcsCode = 0 := rfl
  refine ⟨rfl, hp, hu, hO, hF, hT, ?_⟩
  simp [operatorEq, hp, hu, hO, hF]

/-- C32, amended: for every projection whose origin, false easting/northing and transform
compare equal to themselves, `p == p` is true if and only if the stored PCS code is neither 0
nor the sentinel 32767, or the declared unit is not unknown. -/
theorem operatorEq_reflexive (C : Comparisons K D) (className : String)
    (s : ossimMapProjection K D)
    (ho : C.gptNe s.theOrigin s.theOrigin = false)
    (hf : C.dptNe s.theFalseEastingNorthing s.theFalseEastingNorthing = false)
    (hm : C.matrixNe s.theModelTransform s.theModelTransform = false) :
    operatorEq C className s className (some s) = true ↔
      (s.thePcsCode ≠ 0 ∧ s.thePcsCode ≠ 32767) ∨ s.theProjectionUnits ≠ OSSIM_UNIT_UNKNOWN := by
  unfold operatorEq
  by_cases h0 : s.thePcsCode = 0
  · by_cases hu : s.theProjectionUnits = OSSIM_UNIT_UNKNOWN <;> simp [h0, hu, ho, hf, hm]
  · by_cases h1 : s.thePcsCode = 32767
    · by_cases hu : s.theProjectionUnits = OSSIM_UNIT_UNKNOWN <;> simp [h1, hu, ho, hf, hm]
    · simp [h0, h1]

/-- The amended C32 on a concrete projection: the sample projection with declared unit
meters equals itself. -/
theorem operatorEq_reflexive_witness :
    operatorEq Sample.exact "ossimLlxyProjection" Sample.built "ossimLlxyProjection"
      (some Sample.built) = true :=
  (operatorEq_reflexive Sample.exact "ossimLlxyProjection" Sample.built
    (by simp [Sample.exact, Sample.built, updateTransform, Sample.raw, Sample.fresh, new,
      Sample.gpt, Sample.sameGpt, Sample.same])
    (by simp [Sample.exact, Sample.built, updateTransform, Sample.raw, Sample.fresh, new,
      Sample.sameDpt, Sample.same])
    (by
      have hM : Sample.built.theModelTransform
          = ofFinite (affM (2 * Sample.geographic.cosd 0) (3 * Sample.geographic.sind 0)
              (-2 * Sample.geographic.sind 0) (3 * Sample.geographic.cosd 0) 5 7) :=
        (updateTransform_finite Sample.geographic sample_cosd_zero sample_sind_zero
          (Sample.raw 0) 2 3 5 7 0 rfl (by norm_num) (by norm_num) rfl rfl
          (by norm_num [Sample.geographic, Sample.cosd, Sample.sind])).1
      rw [hM]
      simp [Sample.exact, sameMatrix_ofFinite])).2
    (Or.inr (by simp [Sample.built, updateTransform, Sample.raw, Sample.fresh, new]))

/-- C33: the copy constructor copies every member of the source except the elevation lookup
flag, which is false in the copy.  Consequently, where the base class comparison succeeds and
every member of the source compares equal to itself under `isEqualTo`, the copy `isEqualTo` its
source exactly when the elevation lookup flag of the source is false, and so does the source
compared with its copy. -/
theorem copy_frame (C : Comparisons K D) (src : ossimMapProjection K D)
    (compareType : ossimCompareType)
    (he : C.ellipsoidIsEqualTo src.theEllipsoid src.theEllipsoid compareType = true)
    (ho : C.gptIsEqualTo src.theOrigin src.theOrigin compareType = true)
    (hm : C.dptIsEqualTo src.theMetersPerPixel src.theMetersPerPixel compareType = true)
    (hd : C.dptIsEqualTo src.theDegreesPerPixel src.theDegreesPerPixel compareType = true)
    (hg : C.gptIsEqualTo src.theUlGpt src.theUlGpt compareType = true)
    (ht : C.dptIsEqualTo src.theUlEastingNorthing src.theUlEastingNorthing compareType = true)
    (hf : C.dptIsEqualTo src.theFalseEastingNorthing src.theFalseEastingNorthing compareType
      = true)
    (hx : C.matrixIsEqualTo src.theModelTransform src.theModelTransform = true)
    (hdat : ∀ d, src.theDatum = some d → C.datumIsEqualTo d d compareType = true) :
    copy src = { src with theElevationLookupFlag := false } ∧
    (copy src).theEllipsoid = src.theEllipsoid ∧
    (copy src).theOrigin = src.theOrigin ∧
    (copy src).theDatum = src.theDatum ∧
    (copy src).theMetersPerPixel = src.theMetersPerPixel ∧
    (copy src).theDegreesPerPixel = src.theDegreesPerPixel ∧
    (copy src).theUlGpt = src.theUlGpt ∧
    (copy src).theUlEastingNorthing = src.theUlEastingNorthing ∧
    (copy src).theFalseEastingNorthing = src.theFalseEastingNorthing ∧
    (copy src).thePcsCode = src.thePcsCode ∧
    (copy src).theModelTransform = src.theModelTransform ∧
    (copy src).theInverseModelTransform = src.theInverseModelTransform ∧
    (copy src).theProjectionUnits = src.theProjectionUnits ∧
    (copy src).theImageToModelAzimuth = src.theImageToModelAzimuth ∧
    (copy src).theElevationLookupFlag = false ∧
    (isEqualTo C (copy src) (some src) true compareType = true
      ↔ src.theElevationLookupFlag = false) ∧
    (isEqualTo C src (some (copy src)) true compareType = true
      ↔ src.theElevationLookupFlag = false) := by
  refine ⟨rfl, rfl, rfl, rfl, rfl, rfl, rfl, rfl, rfl, rfl, rfl, rfl, rfl, rfl, rfl, ?_, ?_⟩
  · simp only [isEqualTo, copy, he, ho, hm, hd, hg, ht, hf, hx, if_true, Bool.true_and,
      Bool.and_true, decide_True]
    cases hfl : src.theElevationLookupFlag
    · by_cases hc : compareType = OSSIM_COMPARE_FULL
      · subst hc
        cases hdd : src.theDatum with
        | none => simp
        | some d => simp [hdat d hdd]
      · simp [hc]
    · simp
  · simp only [isEqualTo, copy, he, ho, hm, hd, hg, ht, hf, hx, if_true, Bool.true_and,
      Bool.and_true, decide_True]
    cases hfl : src.theElevationLookupFlag
    · by_cases hc : compareType = OSSIM_COMPARE_FULL
      · subst hc
        cases hdd : src.theDatum with
        | none => simp
        | some d => simp [hdat d hdd]
      · simp [hc]
    · simp

/-- C33 on a concrete projection: the sample projection with its transform built, whose
elevation lookup flag is false, and its copy, under exact comparison of the members. -/
theorem copy_frame_witness :
    isEqualTo Sample.exact (copy Sample.built) (some Sample.built) true OSSIM_COMPARE_FULL
      = true :=
  have hM : Sample.built.theModelTransform
      = ofFinite (affM (2 * Sample.geographic.cosd 0) (3 * Sample.geographic.sind 0)
          (-2 * Sample.geographic.sind 0) (3 * Sample.geographic.cosd 0) 5 7) :=
    (updateTransform_finite Sample.geographic sample_cosd_zero sample_sind_zero (Sample.raw 0)
      2 3 5 7 0 rfl (by norm_num) (by norm_num) rfl rfl
      (by norm_num [Sample.geographic, Sample.cosd, Sample.sind])).1
  have h := copy_frame Sample.exact Sample.built OSSIM_COMPARE_FULL
    (by simp [Sample.exact, Sample.built, updateTransform, Sample.raw, Sample.fresh, new,
      Sample.wgs84, Sample.same])
    (by simp [Sample.exact, Sample.built, updateTransform, Sample.raw, Sample.fresh, new,
      Sample.gpt, Sample.sameGpt, Sample.same])
    (by simp [Sample.exact, Sample.built, updateTransform, Sample.raw, Sample.dpt,
      Sample.sameDpt, Sample.same])
    (by simp [Sample.exact, Sample.built, updateTransform, Sample.raw, Sample.dpt,
      Sample.sameDpt, Sample.same])
    (by simp [Sample.exact, Sample.built, updateTransform, Sample.raw, Sample.gpt,
      Sample.sameGpt, Sample.same])
    (by simp [Sample.exact, Sample.built, updateTransform, Sample.raw, Sample.dpt,
      Sample.sameDpt, Sample.same])
    (by simp [Sample.exact, Sample.built, updateTransform, Sample.raw, Sample.fresh, new,
      Sample.sameDpt, Sample.same])
    (by rw [hM]; simp [Sample.exact, sameMatrix_ofFinite])
    (by intro d _; simp [Sample.exact])
  h.2.2.2.2.2.2.2.2.2.2.2.2.2.2.2.1.2 rfl

/-- C34: in `update` the linear scale is authoritative whenever it is set.  For every state
whose meters-per-pixel has no `nan`, whatever its degrees-per-pixel, `update` keeps
meters-per-pixel and leaves as degrees-per-pixel the value that `computeDegreesPerPixel` samples
from it around the origin; the degrees-per-pixel found in the state survives exactly when that
sampling reproduces it. -/
theorem update_linear_authoritative (S : Services K D) (s : ossimMapProjection K D)
    (hm : s.theMetersPerPixel.hasNans = false) :
    (update S s).theMetersPerPixel = s.theMetersPerPixel ∧
    (update S s).theDegreesPerPixel = (computeDegreesPerPixel S s).theDegreesPerPixel ∧
    ((update S s).theDegreesPerPixel = s.theDegreesPerPixel
      ↔ (computeDegreesPerPixel S s).theDegreesPerPixel = s.theDegreesPerPixel) := by
  obtain ⟨h1, h2⟩ := update_degrees_of_linear S s hm
  refine ⟨h2, h1, ?_⟩
  rw [h1]

/-- C34 on a concrete state: the sample projection with linear scale (2, 3) and a
degrees-per-pixel (2, 3) supplied with it, under the geographic kernel. -/
theorem update_linear_authoritative_witness :
    (update Sample.geographic (Sample.raw 0)).theMetersPerPixel
      = (Sample.raw 0).theMetersPerPixel ∧
    (update Sample.geographic (Sample.raw 0)).theDegreesPerPixel
      = (computeDegreesPerPixel Sample.geographic (Sample.raw 0)).theDegreesPerPixel :=
  ⟨(update_linear_authoritative Sample.geographic (Sample.raw 0) rfl).1,
    (update_linear_authoritative Sample.geographic (Sample.raw 0) rfl).2.1⟩

end ossimMapProjection

end Ossim
